import Mathlib

/-! AgentViewer / AgentGen: a shallow embedding of the resolver and the transactional
writers.

The development follows two source files.

* `src/frontend/src/components/AGENTS/agents.jsx`: the `WorkflowStep` component, whose
  `handleFormSubmit` resolves the form a workflow submits to; the `DynamicForm` component
  (`handleChange`, `handleSubmit`, `renderField`); and the render of `AgentComponent`.
* `src/backend/index.js`: the Express handlers. The transactional writers
  `POST /api/agents/:agentUuid/forms/:formId/submit` and `POST /api/agents/create-full`; the
  single-insert handlers for endpoint execution, chat messages and recommendations; and the
  queries for the full agent, its menus, chats and recommendations.

JavaScript values are embedded as the inductive type `JsVal`.  Operations of the JavaScript
runtime that the repository calls but does not define (`JSON.parse`, `JSON.stringify`, the
numeric conversion behind `<=`, the string conversion behind `+`, the case mapping of
characters outside ASCII) are fields of `JsRuntime`;
the general theorems hold for every runtime.  What the database server decides (which
`INSERT` it rejects, how it compares an integer key with a string parameter) is a field of
`Database`, and what it decides when it evaluates a query (the order of column values, the
comparison of a column with a parameter) is a field of `QueryEnv`.  Reads and transaction
control are taken to succeed; an `INSERT` may be rejected at any point of a request.
-/

namespace AgentViewer

/-! ## JavaScript values -/

/-- A JavaScript value. `num` carries a finite number; `host` stands for a function or a
built-in object, which JSON data never contains. -/
inductive JsVal where
  | undefined : JsVal
  | null : JsVal
  | bool (b : Bool) : JsVal
  | num (q : ℚ) : JsVal
  | str (s : String) : JsVal
  | arr (items : List JsVal) : JsVal
  | obj (fields : List (String × JsVal)) : JsVal
  | host (name : String) : JsVal

instance : Inhabited JsVal := ⟨JsVal.undefined⟩

/-- The result of a numeric conversion (`ToNumber`), which may be `NaN` or infinite. -/
inductive JsNumber where
  | nan : JsNumber
  | negInf : JsNumber
  | finite (q : ℚ) : JsNumber
  | posInf : JsNumber

/-- The parts of the JavaScript runtime that the repository uses as built-ins. -/
structure JsRuntime where
  /-- The built-in `JSON.parse`: the parsed value, or the message of the thrown `SyntaxError`. -/
  jsonParse : String → Except String JsVal
  /-- The built-in `JSON.stringify`: a string, or `undefined` for a value with no JSON text. -/
  jsonStringify : JsVal → JsVal
  /-- The conversion `ToNumber` on strings, arrays, objects and functions. -/
  toNumber : JsVal → JsNumber
  /-- The conversion `ToString`, as applied by `+` with a string operand. -/
  toStr : JsVal → String
  /-- The method `String.prototype.toLowerCase` on a string that has a character outside
  ASCII: the case mapping of such characters follows the Unicode tables of the runtime. -/
  toLowerCase : String → String

/-- Truthiness (`ToBoolean`): `undefined`, `null`, `false`, `0` and `''` are falsy. -/
def truthy : JsVal → Bool
  | .undefined => false
  | .null => false
  | .bool b => b
  | .num q => decide (q ≠ 0)
  | .str s => decide (s ≠ "")
  | .arr _ => true
  | .obj _ => true
  | .host _ => true

/-- The operator `a || b`. -/
def jsOr (a b : JsVal) : JsVal := if truthy a then a else b

/-- The conversion `ToNumber` of a value; primitives other than strings are converted here. -/
def toNumber (rt : JsRuntime) : JsVal → JsNumber
  | .undefined => .nan
  | .null => .finite 0
  | .bool b => .finite (if b then 1 else 0)
  | .num q => .finite q
  | v => rt.toNumber v

/-- The comparison `x <= 0` on numbers: false for `NaN`. -/
def JsNumber.leZero : JsNumber → Bool
  | .nan => false
  | .negInf => true
  | .finite q => decide (q ≤ 0)
  | .posInf => false

/-- The comparison `x > 0` on numbers: false for `NaN`. -/
def JsNumber.gtZero : JsNumber → Bool
  | .nan => false
  | .negInf => false
  | .finite q => decide (0 < q)
  | .posInf => true

/-- The expression `v <= 0`. -/
def leZero (rt : JsRuntime) (v : JsVal) : Bool := (toNumber rt v).leZero

/-- The expression `v > 0`. -/
def gtZero (rt : JsRuntime) (v : JsVal) : Bool := (toNumber rt v).gtZero

/-- Own-property lookup in a property list; a missing property reads as `undefined`. -/
def lookupField (k : String) : List (String × JsVal) → JsVal
  | [] => .undefined
  | (k', v) :: rest => if k' = k then v else lookupField k rest

/-- The `length` of a string: its number of UTF-16 code units. -/
def utf16Length (s : String) : Nat :=
  (s.data.map (fun ch => if ch.val < 65536 then 1 else 2)).sum

/-- The optional member access `v?.k`, which never throws. Of arrays and strings only
`length` is read. -/
def optMember (v : JsVal) (k : String) : JsVal :=
  match v with
  | .obj fields => lookupField k fields
  | .arr items => if k = "length" then .num items.length else .undefined
  | .str s => if k = "length" then .num (utf16Length s) else .undefined
  | _ => .undefined

/-- The member access `v.k`: a `TypeError` on `undefined` and `null`. -/
def member (v : JsVal) (k : String) : Except String JsVal :=
  match v with
  | .undefined => .error ("Cannot read properties of undefined (reading '" ++ k ++ "')")
  | .null => .error ("Cannot read properties of null (reading '" ++ k ++ "')")
  | w => .ok (optMember w k)

/-- Every character of the string is an ASCII character. -/
def isAscii (s : String) : Bool := s.data.all (fun ch => decide (ch.toNat < 128))

/-- The method `String.prototype.toLowerCase`. In a string of ASCII characters the letters
`A` to `Z` are replaced by `a` to `z`; a string with any other character is lower-cased by
the runtime. -/
def toLowerCase (rt : JsRuntime) (s : String) : String :=
  if isAscii s then String.mk (s.data.map Char.toLower) else rt.toLowerCase s

/-- The method `s.includes(t)`: `t` occurs in `s` as a contiguous run of characters. -/
def includes (s t : String) : Bool := s.data.tails.any (fun u => t.data.isPrefixOf u)

/-! ## The workflow step component (`agents.jsx`, `WorkflowStep`) -/

/-- A row of `agent_forms` as the front end reads it: only `id` and `form_name` are used.
The `id` is the `AUTO_INCREMENT` key of the row, which is at least 1. -/
structure Form where
  id : ℕ+
  form_name : String

/-- The `workflow` prop: only `workflow_name` and `steps_json` are used by the resolver. -/
structure Workflow where
  workflow_name : String
  steps_json : JsVal

/-- The props of `WorkflowStep`; `forms` is `agent.forms`, which may be absent. -/
structure StepProps where
  workflow : Workflow
  agentUuid : String
  userId : JsVal
  firmId : JsVal
  forms : Option (List Form)

/-- The request `axios.post('/api/agents/$agentUuid/forms/$formId/submit', body)`. -/
structure SubmitRequest where
  agentUuid : String
  formId : JsVal
  user_id : JsVal
  firm_id : JsVal
  submission_data : JsVal

/-- The component state after `handleFormSubmit`, with the requests it sent. -/
structure StepState where
  loading : Bool
  message : String
  sent : List SubmitRequest

/-- The callback of `forms.find`: either name contains the other, both lower-cased. -/
def nameMatches (rt : JsRuntime) (workflow : Workflow) (f : Form) : Bool :=
  includes (toLowerCase rt f.form_name) (toLowerCase rt workflow.workflow_name) ||
  includes (toLowerCase rt workflow.workflow_name) (toLowerCase rt f.form_name)

/-- The expression `typeof steps_json === 'string' ? JSON.parse(steps_json) : steps_json`. -/
def parseSteps (rt : JsRuntime) (steps_json : JsVal) : Except String JsVal :=
  match steps_json with
  | .str s => rt.jsonParse s
  | v => .ok v

/-- The form id after the `if (!formId || formId <= 0)` block. -/
def resolveFormId (rt : JsRuntime) (workflow : Workflow) (forms : Option (List Form))
    (formId : JsVal) : JsVal :=
  if !truthy formId || leZero rt formId then
    match (forms.getD []).find? (nameMatches rt workflow) with
    | some matchingForm => .num (matchingForm.id : ℕ)
    | none =>
      match forms with
      | some (first :: _) => .num (first.id : ℕ)
      | _ => formId
  else formId

/-- The handling of the response of the submit request. -/
def afterResponse (rt : JsRuntime) (response : Except String JsVal) : String :=
  match response with
  | .error msg => "‚ùå Error: " ++ msg
  | .ok data =>
    match member data "success" with
    | .error msg => "‚ùå Error: " ++ msg
    | .ok success =>
      if truthy success then "‚úÖ Submitted successfully!"
      else "‚ùå Error: " ++ rt.toStr (optMember data "error")

/-- The function `handleFormSubmit`. `post` is the backend as `axios.post` sees it: the
`data` of the response, or the text shown for a rejected request. -/
def handleFormSubmit (rt : JsRuntime) (post : SubmitRequest → Except String JsVal)
    (props : StepProps) (formData : JsVal) : StepState :=
  match parseSteps rt props.workflow.steps_json with
  | .error msg => { loading := false, message := "‚ùå Error: " ++ msg, sent := [] }
  | .ok steps =>
    let formId := resolveFormId rt props.workflow props.forms (optMember steps "form_id")
    if !truthy formId then
      { loading := false, message := "Error: No form available for this workflow", sent := [] }
    else
      let request : SubmitRequest :=
        { agentUuid := props.agentUuid, formId := formId, user_id := props.userId,
          firm_id := props.firmId, submission_data := formData }
      { loading := false, message := afterResponse rt (post request), sent := [request] }

/-! ## The store and the connection (`mysql2/promise`) -/

/-- A row of a table: its `AUTO_INCREMENT` key and the columns bound by the `INSERT`. -/
structure Row where
  id : Nat
  cols : List (String × JsVal)

/-- The value of a column of a row. -/
def Row.col (r : Row) (c : String) : JsVal := lookupField c r.cols

/-- The store: the rows of every table, by table name, in insertion order. -/
abbrev Store := String → List Row

/-- The key the server gives the next row of a table: greater than every key in use. -/
def nextId (rows : List Row) : Nat := (rows.map (fun r => r.id)).foldr max 0 + 1

/-- The store with one more row at the end of a table. -/
def addRow (s : Store) (table : String) (r : Row) : Store :=
  fun t => if t = table then s t ++ [r] else s t

/-- The parts of the database server that the handlers depend on. -/
structure Database where
  /-- The comparison `id = ?` of an integer key with a string parameter. -/
  keyEq : Nat → String → Bool
  /-- The `INSERT` statements of a request that the server rejects, counted from 0 in the
  order they are issued, with the message of the error thrown. -/
  rejects : Nat → Option String

/-- A call made on the borrowed connection. -/
inductive ConnEvent where
  | beginTransaction : ConnEvent
  | select (table : String) : ConnEvent
  | insert (table : String) : ConnEvent
  | commit : ConnEvent
  | rollback : ConnEvent
  | release : ConnEvent
  deriving DecidableEq

/-- The state of a borrowed connection: the rows it sees, the rows that are committed, whether
a transaction is open, how many `INSERT`s it has issued and the calls made so far. -/
structure Conn where
  store : Store
  committed : Store
  inTx : Bool
  inserts : Nat
  events : List ConnEvent

/-- The call `pool.getConnection()` on a store. -/
def getConnection (s : Store) : Conn :=
  { store := s, committed := s, inTx := false, inserts := 0, events := [] }

/-- The call `connection.beginTransaction()`. -/
def beginTransaction (c : Conn) : Conn :=
  { c with inTx := true, events := c.events ++ [.beginTransaction] }

/-- The call `connection.commit()`. -/
def commit (c : Conn) : Conn :=
  { c with committed := c.store, inTx := false, events := c.events ++ [.commit] }

/-- The call `connection.rollback()`. -/
def rollback (c : Conn) : Conn :=
  { c with store := c.committed, inTx := false, events := c.events ++ [.rollback] }

/-- The call `connection.release()`. -/
def release (c : Conn) : Conn :=
  { c with events := c.events ++ [.release] }

/-- A `SELECT ... FROM table WHERE p`: the rows of the table that satisfy `p`. -/
def select (c : Conn) (table : String) (p : Row → Bool) : List Row × Conn :=
  ((c.store table).filter p, { c with events := c.events ++ [.select table] })

/-- An `INSERT INTO table (cols) VALUES (?...)`: the `insertId`, or the error thrown. Outside a
transaction the row is committed at once. -/
def insert (db : Database) (c : Conn) (table : String) (cols : List (String × JsVal)) :
    Except String Nat × Conn :=
  match db.rejects c.inserts with
  | some msg =>
    (.error msg, { c with inserts := c.inserts + 1, events := c.events ++ [.insert table] })
  | none =>
    let id := nextId (c.store table)
    let store' := addRow c.store table ⟨id, cols⟩
    (.ok id, { store := store', committed := if c.inTx then c.committed else store',
               inTx := c.inTx, inserts := c.inserts + 1,
               events := c.events ++ [.insert table] })

/-- The comparison `column = ?` with a string parameter. -/
def colEqStr (v : JsVal) (s : String) : Bool :=
  match v with
  | .str t => decide (t = s)
  | _ => false

/-- The comparison `column = ?` with an integer key as parameter. -/
def colEqKey (v : JsVal) (n : Nat) : Bool :=
  match v with
  | .num q => decide (q = n)
  | _ => false

/-! ## The HTTP handlers (`backend/index.js`) -/

/-- An HTTP response: the status and the JSON body. -/
structure Response where
  status : Nat
  body : JsVal

/-- What a handler leaves behind: the response, the committed store and the calls made on
the connection. -/
structure Outcome where
  response : Response
  store : Store
  events : List ConnEvent

/-- The body `{ success: false, error: msg }`. -/
def errorBody (msg : String) : JsVal :=
  .obj [("success", .bool false), ("error", .str msg)]

/-- The `catch` and `finally` blocks shared by the transactional handlers: a thrown error
rolls back and answers 500; the connection is released on every path. -/
def finish (r : Except String Response × Conn) : Outcome :=
  let c := match r.1 with
    | .ok _ => r.2
    | .error _ => rollback r.2
  let response := match r.1 with
    | .ok resp => resp
    | .error msg => ⟨500, errorBody msg⟩
  let c' := release c
  { response := response, store := c'.committed, events := c'.events }

/-- The `try` block of `POST /api/agents/:agentUuid/forms/:formId/submit`. -/
def submitFormTry (rt : JsRuntime) (db : Database) (agentUuid formId : String) (body : JsVal)
    (c0 : Conn) : Except String Response × Conn :=
  match member body "user_id" with
  | .error e => (.error e, c0)
  | .ok user_id =>
    let firm_id := optMember body "firm_id"
    let submission_data := optMember body "submission_data"
    if !truthy user_id || !truthy firm_id || !truthy submission_data then
      (.ok ⟨400, errorBody "Missing required fields: user_id, firm_id, submission_data"⟩, c0)
    else
      let c1 := beginTransaction c0
      match select c1 "agents" (fun r => colEqStr (r.col "agent_uuid") agentUuid) with
      | ([], c2) => (.ok ⟨404, errorBody "Agent not found"⟩, rollback c2)
      | (agent :: _, c2) =>
        let agent_id := agent.id
        match select c2 "agent_forms"
            (fun r => db.keyEq r.id formId && colEqKey (r.col "agent_id") agent_id) with
        | ([], c3) => (.ok ⟨404, errorBody "Form not found"⟩, rollback c3)
        | (_ :: _, c3) =>
          match insert db c3 "agent_form_data"
              [("agent_id", .num agent_id), ("form_id", .str formId), ("user_id", user_id),
               ("firm_id", firm_id), ("submission_data", rt.jsonStringify submission_data)] with
          | (.error e, c4) => (.error e, c4)
          | (.ok insertId, c4) =>
            match insert db c4 "agent_logs"
                [("agent_id", .num agent_id), ("user_id", user_id), ("firm_id", firm_id),
                 ("action", .str "form_submission"),
                 ("input_data", rt.jsonStringify (.obj [("form_id", .str formId)])),
                 ("output_data",
                   rt.jsonStringify (.obj [("submission_id", .num insertId)]))] with
            | (.error e, c5) => (.error e, c5)
            | (.ok _, c5) =>
              (.ok ⟨200, .obj [("success", .bool true),
                  ("message", .str "Form submitted successfully"),
                  ("data", .obj [("submission_id", .num insertId)])]⟩, commit c5)

/-- The handler `POST /api/agents/:agentUuid/forms/:formId/submit`. -/
def submitForm (rt : JsRuntime) (db : Database) (store : Store) (agentUuid formId : String)
    (body : JsVal) : Outcome :=
  finish (submitFormTry rt db agentUuid formId body (getConnection store))

/-- The test `typeof v === 'object'`, on the values a request body can hold. -/
def isObjectType : JsVal → Bool
  | .null => true
  | .arr _ => true
  | .obj _ => true
  | _ => false

/-- The test `v !== false`. -/
def notFalse : JsVal → Bool
  | .bool false => false
  | _ => true

/-- The values a `for (const x of v)` loop visits, or the `TypeError` for a value that is not
iterable. A string is visited character by character. -/
def iterate (v : JsVal) : Except String (List JsVal) :=
  match v with
  | .arr items => .ok items
  | .str s => .ok (s.data.map (fun ch => JsVal.str (String.singleton ch)))
  | _ => .error "is not iterable"

/-- The assignment `o.k = v` on a property list: the property keeps its place, a new property
goes last. -/
def setField (k : String) (v : JsVal) : List (String × JsVal) → List (String × JsVal)
  | [] => [(k, v)]
  | (k', v') :: rest => if k' = k then (k, v) :: rest else (k', v') :: setField k v rest

/-- The conversion of a value to a property key. -/
def propertyKey (rt : JsRuntime) (v : JsVal) : String :=
  match v with
  | .str s => s
  | w => rt.toStr w

/-- The properties every plain object inherits from `Object.prototype`. -/
def objectPrototypeKeys : List String :=
  ["constructor", "__defineGetter__", "__defineSetter__", "hasOwnProperty",
   "__lookupGetter__", "__lookupSetter__", "isPrototypeOf", "propertyIsEnumerable",
   "toString", "valueOf", "__proto__", "toLocaleString"]

/-- The object `formIdMap`, created as `{}`: its own properties, the latest first. -/
abbrev FormIdMap := List (String × Nat)

/-- The read `formIdMap[k]`: an own property, else an inherited one, else `undefined`. -/
def FormIdMap.get (m : FormIdMap) (k : String) : JsVal :=
  match m.lookup k with
  | some id => .num id
  | none => if k ∈ objectPrototypeKeys then .host k else .undefined

/-- The assignment `formIdMap[k] = id`. Assigning a number to `__proto__` changes nothing. -/
def FormIdMap.set (m : FormIdMap) (k : String) (id : Nat) : FormIdMap :=
  if k = "__proto__" then m else (k, id) :: m

/-- The loop `for (const menu of menus)` of step 2. -/
def insertMenus (db : Database) (agent_id : Nat) :
    List JsVal → Conn → Except String Unit × Conn
  | [], c => (.ok (), c)
  | menu :: rest, c =>
    match member menu "menu_type" with
    | .error e => (.error e, c)
    | .ok menu_type =>
      match insert db c "agent_menus"
          [("agent_id", .num agent_id), ("menu_type", jsOr menu_type (.str "sidebar")),
           ("label", optMember menu "label"), ("route", jsOr (optMember menu "route") (.str "")),
           ("icon", jsOr (optMember menu "icon") (.str "")),
           ("order_no", jsOr (optMember menu "order_no") (.num 0))] with
      | (.error e, c') => (.error e, c')
      | (.ok _, c') => insertMenus db agent_id rest c'

/-- The loop `for (const form of forms)` of step 3, which fills `formIdMap`. -/
def insertForms (rt : JsRuntime) (db : Database) (agent_id : Nat) (agent : JsVal) :
    List JsVal → FormIdMap → Conn → Except String FormIdMap × Conn
  | [], m, c => (.ok m, c)
  | form :: rest, m, c =>
    match member form "form_name" with
    | .error e => (.error e, c)
    | .ok form_name =>
      match insert db c "agent_forms"
          [("agent_id", .num agent_id), ("form_name", form_name),
           ("description", jsOr (optMember form "description") (.str "")),
           ("form_schema", rt.jsonStringify (jsOr (optMember form "form_schema") (.obj []))),
           ("created_by_user_id",
             jsOr (optMember form "created_by_user_id") (optMember agent "user_id")),
           ("firm_id", jsOr (optMember form "firm_id") (optMember agent "firm_id"))] with
      | (.error e, c') => (.error e, c')
      | (.ok insertId, c') =>
        insertForms rt db agent_id agent rest (m.set (propertyKey rt form_name) insertId) c'

/-- The rewriting of a workflow's `steps_json`: a `form_id` that is a form name known to
`formIdMap` is replaced by the id. Reading `form_id` of `null` throws. -/
def rewriteSteps (m : FormIdMap) (stepsJson : JsVal) : Except String JsVal :=
  if isObjectType stepsJson then
    match member stepsJson "form_id" with
    | .error e => .error e
    | .ok formName =>
      if truthy formName then
        match formName, stepsJson with
        | .str name, .obj fields =>
          if truthy (m.get name) then .ok (.obj (setField "form_id" (m.get name) fields))
          else .ok stepsJson
        | _, _ => .ok stepsJson
      else .ok stepsJson
  else .ok stepsJson

/-- The loop `for (const workflow of workflows)` of step 4. -/
def insertWorkflows (rt : JsRuntime) (db : Database) (agent_id : Nat) (m : FormIdMap) :
    List JsVal → Conn → Except String Unit × Conn
  | [], c => (.ok (), c)
  | workflow :: rest, c =>
    match member workflow "steps_json" with
    | .error e => (.error e, c)
    | .ok steps_json =>
      match rewriteSteps m steps_json with
      | .error e => (.error e, c)
      | .ok stepsJson =>
        match insert db c "agent_workflows"
            [("agent_id", .num agent_id), ("workflow_name", optMember workflow "workflow_name"),
             ("description", jsOr (optMember workflow "description") (.str "")),
             ("steps_json", rt.jsonStringify stepsJson),
             ("trigger_event", jsOr (optMember workflow "trigger_event") (.str "manual"))] with
        | (.error e, c') => (.error e, c')
        | (.ok _, c') => insertWorkflows rt db agent_id m rest c'

/-- The loop `for (const endpoint of endpoints)` of step 5. -/
def insertEndpoints (rt : JsRuntime) (db : Database) (agent_id : Nat) :
    List JsVal → Conn → Except String Unit × Conn
  | [], c => (.ok (), c)
  | endpoint :: rest, c =>
    match member endpoint "endpoint_name" with
    | .error e => (.error e, c)
    | .ok endpoint_name =>
      match insert db c "agent_endpoints"
          [("agent_id", .num agent_id), ("endpoint_name", endpoint_name),
           ("method", jsOr (optMember endpoint "method") (.str "POST")),
           ("url", optMember endpoint "url"),
           ("request_schema",
             rt.jsonStringify (jsOr (optMember endpoint "request_schema") (.obj []))),
           ("response_schema",
             rt.jsonStringify (jsOr (optMember endpoint "response_schema") (.obj []))),
           ("auth_required", .bool (notFalse (optMember endpoint "auth_required")))] with
      | (.error e, c') => (.error e, c')
      | (.ok _, c') => insertEndpoints rt db agent_id rest c'

/-- The guard `xs && xs.length > 0` followed by the iteration of `xs`: the values the loop
body runs on (none when the guard is false), or the `TypeError` of a value that passes the
guard and is not iterable. -/
def loopItems (rt : JsRuntime) (xs : JsVal) : Except String (List JsVal) :=
  if truthy xs && gtZero rt (optMember xs "length") then iterate xs else .ok []

/-- The `try` block of `POST /api/agents/create-full`. -/
def createFullTry (rt : JsRuntime) (db : Database) (body : JsVal) (c0 : Conn) :
    Except String Response × Conn :=
  match member body "agent" with
  | .error e => (.error e, c0)
  | .ok agent =>
    let menus := optMember body "menus"
    let workflows := optMember body "workflows"
    let endpoints := optMember body "endpoints"
    let forms := optMember body "forms"
    if !truthy agent || !truthy (optMember agent "agent_uuid") ||
        !truthy (optMember agent "name") then
      (.ok ⟨400, errorBody "Missing required agent fields: agent_uuid, name"⟩, c0)
    else
      let c1 := beginTransaction c0
      match insert db c1 "agents"
          [("agent_uuid", optMember agent "agent_uuid"), ("name", optMember agent "name"),
           ("description", jsOr (optMember agent "description") (.str "")),
           ("agent_type", jsOr (optMember agent "agent_type") (.str "general")),
           ("config_json", rt.jsonStringify (jsOr (optMember agent "config_json") (.obj []))),
           ("firm_id", optMember agent "firm_id"), ("user_id", optMember agent "user_id")] with
      | (.error e, c2) => (.error e, c2)
      | (.ok agent_id, c2) =>
        match loopItems rt menus with
        | .error e => (.error e, c2)
        | .ok menuItems =>
        match insertMenus db agent_id menuItems c2 with
        | (.error e, c3) => (.error e, c3)
        | (.ok _, c3) =>
        match loopItems rt forms with
        | .error e => (.error e, c3)
        | .ok formItems =>
        match insertForms rt db agent_id agent formItems [] c3 with
        | (.error e, c4) => (.error e, c4)
        | (.ok formIdMap, c4) =>
        match loopItems rt workflows with
        | .error e => (.error e, c4)
        | .ok workflowItems =>
        match insertWorkflows rt db agent_id formIdMap workflowItems c4 with
        | (.error e, c5) => (.error e, c5)
        | (.ok _, c5) =>
        match loopItems rt endpoints with
        | .error e => (.error e, c5)
        | .ok endpointItems =>
        match insertEndpoints rt db agent_id endpointItems c5 with
        | (.error e, c6) => (.error e, c6)
        | (.ok _, c6) =>
          (.ok ⟨200, .obj [("success", .bool true),
              ("message", .str "Agent created successfully with all related data"),
              ("data", .obj [("agent_id", .num agent_id),
                ("agent_uuid", optMember agent "agent_uuid"),
                ("menus_count", jsOr (optMember menus "length") (.num 0)),
                ("forms_count", jsOr (optMember forms "length") (.num 0)),
                ("workflows_count", jsOr (optMember workflows "length") (.num 0)),
                ("endpoints_count", jsOr (optMember endpoints "length") (.num 0))])]⟩,
           commit c6)

/-- The handler `POST /api/agents/create-full`. -/
def createFull (rt : JsRuntime) (db : Database) (store : Store) (body : JsVal) : Outcome :=
  finish (createFullTry rt db body (getConnection store))

/-! ## Queries through the pool and the single-insert handlers (`backend/index.js`) -/

/-- What the query handlers take from their environment: the built-in `parseInt` of the
JavaScript runtime, and from the database server the order of column values (`ORDER BY`), the
comparison `column = ?` of a column value that is not `NULL` with a bound parameter, and the
message of the error thrown for a `LIMIT` that is not a count. -/
structure QueryEnv where
  parseInt : JsVal → JsNumber
  colLe : JsVal → JsVal → Bool
  paramEq : JsVal → JsVal → Bool
  limitError : String

/-- The test `column IS NULL`; a column the `INSERT` left out or bound to `undefined` is
`NULL`. -/
def isNull : JsVal → Bool
  | .null => true
  | .undefined => true
  | _ => false

/-- The condition `column = ?`, which no `NULL` column satisfies. -/
def sqlEq (env : QueryEnv) (col param : JsVal) : Bool := !isNull col && env.paramEq col param

/-- A row as the driver returns it: an object with the key and the columns. -/
def rowToJs (r : Row) : JsVal := .obj (("id", .num r.id) :: r.cols)

/-- The order of an `ORDER BY key1, key2, ...` (ascending) on rows: the first key decides,
equal keys leave the decision to the next one. -/
def rowLe (env : QueryEnv) : List (Row → JsVal) → Row → Row → Bool
  | [], _, _ => true
  | key :: keys, a, b =>
    env.colLe (key a) (key b) && (!env.colLe (key b) (key a) || rowLe env keys a b)

/-- The rows sorted by `le`; rows that `le` does not tell apart keep their order. -/
def orderBy (le : Row → Row → Bool) (rows : List Row) : List Row :=
  rows.insertionSort (fun a b => le a b = true)

/-- The rows of `FROM table t JOIN agents a ON t.agent_id = a.id WHERE a.agent_uuid = ?`. -/
def joinAgents (store : Store) (table : String) (agentUuid : String) : List Row :=
  (store table).flatMap (fun r =>
    ((store "agents").filter
      (fun a => colEqKey (r.col "agent_id") a.id && colEqStr (a.col "agent_uuid") agentUuid)).map
      (fun _ => r))

/-- A destructuring default `x = d`: the default replaces `undefined` only. -/
def defaulted (v d : JsVal) : JsVal :=
  match v with
  | .undefined => d
  | w => w

/-- The count of a `LIMIT ?` bound to a number; the server rejects `NaN`, an infinity, a
negative number and a fraction. -/
def limitCount : JsNumber → Option Nat
  | .finite q => if 0 ≤ q ∧ q.den = 1 then some q.num.toNat else none
  | _ => none

/-- The response of a handler that issues no write, with the tables it queried. -/
structure ReadOutcome where
  response : Response
  queried : List String

/-- The object `{ ...agent, menus, workflows, endpoints, forms, views }`. -/
def withCollections (agent : Row) (menus workflows endpoints forms views : List Row) : JsVal :=
  .obj (setField "views" (.arr (views.map rowToJs))
    (setField "forms" (.arr (forms.map rowToJs))
      (setField "endpoints" (.arr (endpoints.map rowToJs))
        (setField "workflows" (.arr (workflows.map rowToJs))
          (setField "menus" (.arr (menus.map rowToJs)) (("id", .num agent.id) :: agent.cols))))))

/-- The handler `GET /api/agents/:agentUuid`. -/
def getAgent (env : QueryEnv) (store : Store) (agentUuid : String) : ReadOutcome :=
  match (store "agents").filter (fun r => colEqStr (r.col "agent_uuid") agentUuid) with
  | [] => { response := ⟨404, errorBody "Agent not found"⟩, queried := ["agents"] }
  | agent :: _ =>
    let menus := orderBy (rowLe env [fun r => r.col "menu_type", fun r => r.col "order_no"])
      ((store "agent_menus").filter (fun r => colEqKey (r.col "agent_id") agent.id))
    let workflows :=
      (store "agent_workflows").filter (fun r => colEqKey (r.col "agent_id") agent.id)
    let endpoints :=
      (store "agent_endpoints").filter (fun r => colEqKey (r.col "agent_id") agent.id)
    let forms := (store "agent_forms").filter (fun r => colEqKey (r.col "agent_id") agent.id)
    let views := (store "agent_views").filter (fun r => colEqKey (r.col "agent_id") agent.id)
    { response := ⟨200, .obj [("success", .bool true),
        ("data", withCollections agent menus workflows endpoints forms views)]⟩,
      queried := ["agents", "agent_menus", "agent_workflows", "agent_endpoints",
        "agent_forms", "agent_views"] }

/-- The rows `GET /api/agents/:agentUuid/menus` returns. -/
def menuRows (env : QueryEnv) (store : Store) (agentUuid : String) (query : JsVal) :
    List Row :=
  let menu_type := optMember query "menu_type"
  let joined := joinAgents store "agent_menus" agentUuid
  let matching :=
    if truthy menu_type then joined.filter (fun r => sqlEq env (r.col "menu_type") menu_type)
    else joined
  orderBy (rowLe env [fun r => r.col "order_no", fun r => .num r.id]) matching

/-- The handler `GET /api/agents/:agentUuid/menus`. -/
def getMenus (env : QueryEnv) (store : Store) (agentUuid : String) (query : JsVal) :
    Response :=
  ⟨200, .obj [("success", .bool true),
    ("data", .arr ((menuRows env store agentUuid query).map rowToJs))]⟩

/-- The chat rows that match `GET /api/agents/:agentUuid/chats`, before `ORDER BY` and
`LIMIT`. -/
def chatMatches (env : QueryEnv) (store : Store) (agentUuid : String) (query : JsVal) :
    List Row :=
  let user_id := optMember query "user_id"
  let joined := joinAgents store "agent_chats" agentUuid
  if truthy user_id then joined.filter (fun r => sqlEq env (r.col "user_id") user_id)
  else joined

/-- The handler `GET /api/agents/:agentUuid/chats`. -/
def getChats (env : QueryEnv) (store : Store) (agentUuid : String) (query : JsVal) :
    Response :=
  let limit := defaulted (optMember query "limit") (.num 50)
  match limitCount (env.parseInt limit) with
  | none => ⟨500, errorBody env.limitError⟩
  | some n =>
    let chats := (orderBy (fun a b => env.colLe (b.col "created_at") (a.col "created_at"))
      (chatMatches env store agentUuid query)).take n
    ⟨200, .obj [("success", .bool true), ("data", .arr (chats.reverse.map rowToJs))]⟩

/-- The recommendation rows that match `GET /api/agents/:agentUuid/recommendations`, before
`ORDER BY` and `LIMIT`. -/
def recommendationMatches (env : QueryEnv) (store : Store) (agentUuid : String)
    (query : JsVal) : List Row :=
  let user_id := optMember query "user_id"
  let category := optMember query "category"
  let joined := joinAgents store "agent_recommendations" agentUuid
  let byUser :=
    if truthy user_id then
      joined.filter (fun r => sqlEq env (r.col "user_id") user_id || isNull (r.col "user_id"))
    else joined
  if truthy category then byUser.filter (fun r => sqlEq env (r.col "category") category)
  else byUser

/-- The handler `GET /api/agents/:agentUuid/recommendations`. -/
def getRecommendations (env : QueryEnv) (store : Store) (agentUuid : String)
    (query : JsVal) : Response :=
  let limit := defaulted (optMember query "limit") (.num 10)
  match limitCount (env.parseInt limit) with
  | none => ⟨500, errorBody env.limitError⟩
  | some n =>
    let recommendations :=
      (orderBy (fun a b => env.colLe (b.col "created_at") (a.col "created_at"))
        (recommendationMatches env store agentUuid query)).take n
    ⟨200, .obj [("success", .bool true), ("data", .arr (recommendations.map rowToJs))]⟩

/-- The `catch` and `finally` blocks of the handlers that open no transaction: a thrown error
answers 500; the connection is released on every path. -/
def finishPlain (r : Except String Response × Conn) : Outcome :=
  let response := match r.1 with
    | .ok resp => resp
    | .error msg => ⟨500, errorBody msg⟩
  let c' := release r.2
  { response := response, store := c'.committed, events := c'.events }

/-- The `try` block of `POST /api/agents/:agentUuid/execute/:endpointName`. -/
def executeEndpointTry (rt : JsRuntime) (db : Database) (agentUuid endpointName : String)
    (body : JsVal) (c0 : Conn) : Except String Response × Conn :=
  match member body "user_id" with
  | .error e => (.error e, c0)
  | .ok user_id =>
    let firm_id := optMember body "firm_id"
    let data := optMember body "data"
    match select c0 "agents" (fun r => colEqStr (r.col "agent_uuid") agentUuid) with
    | ([], c1) => (.ok ⟨404, errorBody "Agent not found"⟩, c1)
    | (agent :: _, c1) =>
      let agent_id := agent.id
      match select c1 "agent_endpoints" (fun r =>
          colEqKey (r.col "agent_id") agent_id && colEqStr (r.col "endpoint_name") endpointName)
        with
      | ([], c2) => (.ok ⟨404, errorBody "Endpoint not found"⟩, c2)
      | (endpoint :: _, c2) =>
        match insert db c2 "agent_logs"
            [("agent_id", .num agent_id), ("user_id", user_id), ("firm_id", firm_id),
             ("action", .str endpointName), ("input_data", rt.jsonStringify data)] with
        | (.error e, c3) => (.error e, c3)
        | (.ok _, c3) =>
          (.ok ⟨200, .obj [("success", .bool true),
              ("message", .str (endpointName ++ " executed successfully")),
              ("data", .obj [("endpoint", rowToJs endpoint), ("submittedData", data)])]⟩, c3)

/-- The handler `POST /api/agents/:agentUuid/execute/:endpointName`. -/
def executeEndpoint (rt : JsRuntime) (db : Database) (store : Store)
    (agentUuid endpointName : String) (body : JsVal) : Outcome :=
  finishPlain (executeEndpointTry rt db agentUuid endpointName body (getConnection store))

/-- The `try` block of `POST /api/agents/:agentUuid/chats`. -/
def sendChatTry (db : Database) (agentUuid : String) (body : JsVal) (c0 : Conn) :
    Except String Response × Conn :=
  match member body "user_id" with
  | .error e => (.error e, c0)
  | .ok user_id =>
    let message := optMember body "message"
    let role := defaulted (optMember body "role") (.str "user")
    if !truthy user_id || !truthy message then
      (.ok ⟨400, errorBody "Missing required fields: user_id, message"⟩, c0)
    else
      match select c0 "agents" (fun r => colEqStr (r.col "agent_uuid") agentUuid) with
      | ([], c1) => (.ok ⟨404, errorBody "Agent not found"⟩, c1)
      | (agent :: _, c1) =>
        let agent_id := agent.id
        match insert db c1 "agent_chats"
            [("agent_id", .num agent_id), ("user_id", user_id), ("message", message),
             ("role", role)] with
        | (.error e, c2) => (.error e, c2)
        | (.ok insertId, c2) =>
          (.ok ⟨200, .obj [("success", .bool true), ("message", .str "Chat message sent"),
              ("data", .obj [("id", .num insertId), ("agent_id", .num agent_id),
                ("user_id", user_id), ("message", message), ("role", role)])]⟩, c2)

/-- The handler `POST /api/agents/:agentUuid/chats`. -/
def sendChat (db : Database) (store : Store) (agentUuid : String) (body : JsVal) : Outcome :=
  finishPlain (sendChatTry db agentUuid body (getConnection store))

/-- The `try` block of `POST /api/agents/:agentUuid/recommendations`. -/
def createRecommendationTry (db : Database) (agentUuid : String) (body : JsVal) (c0 : Conn) :
    Except String Response × Conn :=
  match member body "user_id" with
  | .error e => (.error e, c0)
  | .ok user_id =>
    let recommendation_text := optMember body "recommendation_text"
    let category := optMember body "category"
    if !truthy recommendation_text then
      (.ok ⟨400, errorBody "Missing required field: recommendation_text"⟩, c0)
    else
      match select c0 "agents" (fun r => colEqStr (r.col "agent_uuid") agentUuid) with
      | ([], c1) => (.ok ⟨404, errorBody "Agent not found"⟩, c1)
      | (agent :: _, c1) =>
        let agent_id := agent.id
        match insert db c1 "agent_recommendations"
            [("agent_id", .num agent_id), ("user_id", jsOr user_id .null),
             ("recommendation_text", recommendation_text),
             ("category", jsOr category .null)] with
        | (.error e, c2) => (.error e, c2)
        | (.ok insertId, c2) =>
          (.ok ⟨200, .obj [("success", .bool true), ("message", .str "Recommendation created"),
              ("data", .obj [("id", .num insertId)])]⟩, c2)

/-- The handler `POST /api/agents/:agentUuid/recommendations`. -/
def createRecommendation (db : Database) (store : Store) (agentUuid : String)
    (body : JsVal) : Outcome :=
  finishPlain (createRecommendationTry db agentUuid body (getConnection store))

/-! ## The dynamic form (`agents.jsx`, `DynamicForm`) -/

/-- The state `formData`: the own properties of a plain object, created as `{}`. -/
abbrev FormData := List (String × JsVal)

/-- An own property of an object, if it has one of that name. -/
def ownField (k : String) : List (String × JsVal) → Option JsVal
  | [] => none
  | (k', v) :: rest => if k' = k then some v else ownField k rest

/-- The read `formData[name]`: an own property, else an inherited one, else `undefined`. -/
def readField (formData : FormData) (k : String) : JsVal :=
  match ownField k formData with
  | some v => v
  | none => if k ∈ objectPrototypeKeys then .host k else .undefined

/-- The function `handleChange`: the state after
`setFormData(prev => ({ ...prev, [fieldName]: value }))`. -/
def handleChange (prev : FormData) (fieldName : String) (value : JsVal) : FormData :=
  setField fieldName value prev

/-- The function `handleSubmit`: the payload passed to `onSubmit`. -/
def handleSubmit (formData : FormData) : JsVal := .obj formData

/-- The state after a sequence of `handleChange` calls, oldest first. -/
def afterChanges (initial : FormData) (changes : List (String × JsVal)) : FormData :=
  changes.foldl (fun m change => handleChange m change.1 change.2) initial

/-- An `option` element: its `key`, its `value` and its text. -/
structure OptionElement where
  key : Option Nat
  value : JsVal
  label : JsVal

/-- The element `renderField` returns. -/
inductive FieldElement where
  | input (type id value required placeholder : JsVal) : FieldElement
  | select (id value required : JsVal) (options : List OptionElement) : FieldElement
  | textarea (id value required placeholder : JsVal) (rows : Nat) : FieldElement
  | checkbox (id checked : JsVal) : FieldElement
  | null : FieldElement

/-- The children `options?.map((opt, idx) => <option key=idx value=opt>opt</option>)`: none
for `undefined` and `null`, one per element of an array, and a `TypeError` for a value that
has no `map`. -/
def renderOptions (options : JsVal) : Except String (List OptionElement) :=
  match options with
  | .undefined => .ok []
  | .null => .ok []
  | .arr items =>
    .ok (items.enum.map (fun p => { key := some p.1, value := p.2, label := p.2 }))
  | _ => .error "options?.map is not a function"

/-- The function `renderField` of `DynamicForm`. -/
def renderField (rt : JsRuntime) (formData : FormData) (field : JsVal) :
    Except String FieldElement :=
  match member field "name" with
  | .error e => .error e
  | .ok name =>
    let type := optMember field "type"
    let required := optMember field "required"
    let options := optMember field "options"
    let placeholder := optMember field "placeholder"
    let current := readField formData (propertyKey rt name)
    match type with
    | .str "text" => .ok (.input type name (jsOr current (.str "")) required placeholder)
    | .str "number" => .ok (.input type name (jsOr current (.str "")) required placeholder)
    | .str "select" =>
      match renderOptions options with
      | .error e => .error e
      | .ok children =>
        .ok (.select name (jsOr current (.str "")) required
          ({ key := none, value := .str "", label := .str "Select..." } :: children))
    | .str "textarea" =>
      .ok (.textarea name (jsOr current (.str "")) required placeholder 4)
    | .str "checkbox" => .ok (.checkbox name (jsOr current (.bool false)))
    | _ => .ok .null

/-! ## The agent page (`agents.jsx`, `AgentComponent`) -/

/-- A row of `agent_menus` as the front end reads it. -/
structure Menu where
  id : ℕ+
  menu_type : String
  label : String
  icon : JsVal
  tooltip : JsVal
  badge : JsVal

/-- A row of `agent_workflows` as the front end reads it. -/
structure WorkflowRow extends Workflow where
  id : ℕ+

/-- The fetched `agent`: the fields the page shows and the forms passed on. -/
structure AgentData where
  name : JsVal
  description : JsVal
  agent_type : JsVal
  forms : Option (List Form)

/-- The state of `AgentComponent`. -/
structure AgentState where
  agent : Option AgentData
  workflows : List WorkflowRow
  menus : List Menu
  currentStep : Nat
  loading : Bool
  error : JsVal

/-- A rendered item of a menu category: its `key`, its `className`, the step its `onClick`
sets and the menu it shows. -/
structure MenuItemView where
  key : ℕ+
  className : String
  onClickStep : Nat
  menu : Menu

/-- A rendered item of the workflow list shown in the sidebar when it has no menus. -/
structure WorkflowItemView where
  key : ℕ+
  className : String
  onClickStep : Nat
  workflow : WorkflowRow

/-- The page of a loaded agent, by section. -/
structure AgentPage where
  header : List MenuItemView
  sidebar : List MenuItemView
  sidebarWorkflows : List WorkflowItemView
  dashboard : List MenuItemView
  chat : List MenuItemView
  recommendation : List MenuItemView
  main : Option StepProps
  footer : List MenuItemView
  floating : List MenuItemView

/-- What `AgentComponent` renders. -/
inductive Rendered where
  | loading : Rendered
  | error (error : JsVal) : Rendered
  | notFound : Rendered
  | page (page : AgentPage) : Rendered

/-- The items `menus.filter(m => m.menu_type === type).map((menu, idx) => ...)` of one
category, with the class names `base + 'active'` and `base`. -/
def renderCategory (menus : List Menu) (type base : String) (currentStep : Nat) :
    List MenuItemView :=
  ((menus.filter (fun m => decide (m.menu_type = type))).enum).map (fun p =>
    { key := p.2.id, className := base ++ (if currentStep = p.1 then "active" else ""),
      onClickStep := p.1, menu := p.2 })

/-- The render of `AgentComponent`. -/
def renderAgentComponent (agentUuid : String) (userId firmId : JsVal) (st : AgentState) :
    Rendered :=
  if st.loading then .loading
  else if truthy st.error then .error st.error
  else
    match st.agent with
    | none => .notFound
    | some agent =>
      let currentWorkflow := st.workflows[st.currentStep]?
      let sidebarMenus := renderCategory st.menus "sidebar" "" st.currentStep
      .page
        { header := renderCategory st.menus "header" "" st.currentStep
          sidebar := sidebarMenus
          sidebarWorkflows :=
            if sidebarMenus.length > 0 then []
            else st.workflows.enum.map (fun p =>
              { key := p.2.id, className := if st.currentStep = p.1 then "active" else "",
                onClickStep := p.1, workflow := p.2 })
          dashboard := renderCategory st.menus "dashboard" "dashboard-card " st.currentStep
          chat := renderCategory st.menus "chat" "chat-button " st.currentStep
          recommendation :=
            renderCategory st.menus "recommendation" "recommendation-item " st.currentStep
          main := currentWorkflow.map (fun w =>
            { workflow := w.toWorkflow, agentUuid := agentUuid, userId := userId,
              firmId := firmId, forms := agent.forms })
          footer := renderCategory st.menus "footer" "" st.currentStep
          floating := renderCategory st.menus "floating" "floating-button " st.currentStep }

/-! ## Notions of the specification and concrete data -/

/-- The steps document names no positive form id: `form_id` is absent, `null`, zero or
negative. -/
def NoPositiveFormId (v : JsVal) : Prop :=
  v = .undefined ∨ v = .null ∨ ∃ q : ℚ, q ≤ 0 ∧ v = .num q

/-- The text `whole` contains the text `part`: the characters of `part` stand in `whole`
one after the other, in the same order. -/
def Contains (whole part : String) : Prop :=
  ∃ before after : List Char, before ++ part.data ++ after = whole.data

/-- A name lower-cased. Of a name written in ASCII the capital letters are replaced by the
small ones; the lower case of a name with other characters is the one of the runtime. -/
def lowerCased (rt : JsRuntime) (name : String) : String :=
  if ∀ ch ∈ name.data, ch.toNat < 128 then
    String.mk (name.data.map (fun ch =>
      if 'A' ≤ ch ∧ ch ≤ 'Z' then Char.ofNat (ch.toNat + 32) else ch))
  else rt.toLowerCase name

/-- The two names match: lower-cased, the form name contains the workflow name or is
contained in it. -/
def NamesMatch (rt : JsRuntime) (workflowName formName : String) : Prop :=
  Contains (lowerCased rt formName) (lowerCased rt workflowName) ∨
  Contains (lowerCased rt workflowName) (lowerCased rt formName)

/-- The lower case of a character of Latin-1: the letters `A` to `Z`, `À` to `Ö` and `Ø` to
`Þ` have their small letter 32 places further on. -/
def latin1Lower (ch : Char) : Char :=
  if (65 ≤ ch.toNat ∧ ch.toNat ≤ 90) ∨ (192 ≤ ch.toNat ∧ ch.toNat ≤ 222 ∧ ch.toNat ≠ 215) then
    Char.ofNat (ch.toNat + 32)
  else ch

/-- A runtime for the concrete evaluations: it parses one JSON text, a value stands for
its own JSON text, and it lower-cases the letters of Latin-1. -/
def demoRuntime : JsRuntime where
  jsonParse := fun s =>
    if s = "\x7b\"form_id\":7\x7d" then .ok (.obj [("form_id", .num 7)])
    else .error "Unexpected token"
  jsonStringify := fun v => v
  toNumber := fun _ => .nan
  toStr := fun _ => "undefined"
  toLowerCase := fun s => String.mk (s.data.map latin1Lower)

/-- A backend that accepts every submit request. -/
def demoPost : SubmitRequest → Except String JsVal :=
  fun _ => .ok (.obj [("success", .bool true)])

/-- A database server that compares a key with its decimal text and rejects no `INSERT`. -/
def demoDb : Database where
  keyEq := fun n s => decide (s = toString n)
  rejects := fun _ => none

/-- A store with one agent, which owns one form. -/
def demoStore : Store := fun t =>
  if t = "agents" then [⟨1, [("agent_uuid", .str "a-1"), ("name", .str "Intake")]⟩]
  else if t = "agent_forms" then [⟨3, [("agent_id", .num 1), ("form_name", .str "intake")]⟩]
  else []

/-- The row `agent` is the first row of `agents` whose `agent_uuid` is `uuid`. -/
def FirstAgentWithUuid (store : Store) (uuid : String) (agent : Row) : Prop :=
  ∃ pre rest, store "agents" = pre ++ agent :: rest ∧
    (∀ r ∈ pre, r.col "agent_uuid" ≠ .str uuid) ∧ agent.col "agent_uuid" = .str uuid

/-- The row `f` of `agent_forms` has the key `formId` and belongs to the agent `agent`. -/
def FormOwnedBy (db : Database) (formId : String) (agent f : Row) : Prop :=
  db.keyEq f.id formId = true ∧ f.col "agent_id" = .num agent.id

/-- The store with the rows `rows` added, in order, at the end of a table. -/
def appendRows (s : Store) (table : String) (rows : List Row) : Store :=
  fun t => if t = table then s t ++ rows else s t

/-- The menus (forms, workflows, endpoints) a request provides in a body field: the elements
of an array; a string provides its characters, as `for...of` visits them; any other value
provides none. -/
def providedItems (v : JsVal) : List JsVal :=
  match v with
  | .arr items => items
  | .str s => s.data.map (fun ch => JsVal.str (String.singleton ch))
  | _ => []

/-- The object `formIdMap` after the forms `forms` were inserted as the rows `rows`, starting
from `m`: each form name, as a property key, is assigned the key of its row. -/
def filledMap (rt : JsRuntime) : List JsVal → List Row → FormIdMap → FormIdMap
  | f :: fs, r :: rs, m =>
    filledMap rt fs rs (m.set (propertyKey rt (optMember f "form_name")) r.id)
  | _, _, m => m

/-- The presence check of `create-full` fails: `agent`, `agent.agent_uuid` or `agent.name` is
missing or falsy. -/
def AgentFieldsMissing (agent : JsVal) : Prop :=
  truthy agent = false ∨ truthy (optMember agent "agent_uuid") = false ∨
    truthy (optMember agent "name") = false

/-- What a successful `create-full` leaves in the store `after`, starting from `before`: one
new agent row, and the new rows of the four child tables. -/
structure Created (rt : JsRuntime) (db : Database) (body : JsVal) (before after : Store)
    (agentRow : Row) (menuRows formRows workflowRows endpointRows : List Row) : Prop where
  store_eq : after = appendRows (appendRows (appendRows (appendRows
    (appendRows before "agents" [agentRow]) "agent_menus" menuRows) "agent_forms" formRows)
    "agent_workflows" workflowRows) "agent_endpoints" endpointRows
  menus_length : menuRows.length = (providedItems (optMember body "menus")).length
  forms_length : formRows.length = (providedItems (optMember body "forms")).length
  workflows_length :
    workflowRows.length = (providedItems (optMember body "workflows")).length
  endpoints_length :
    endpointRows.length = (providedItems (optMember body "endpoints")).length
  no_reject : ∀ k, k < 1 + menuRows.length + formRows.length + workflowRows.length +
    endpointRows.length → db.rejects k = none
  form_ids : ∀ r ∈ formRows, 0 < r.id
  form_names : ∀ (i : Nat) (f : JsVal) (r : Row),
    (providedItems (optMember body "forms"))[i]? = some f → formRows[i]? = some r →
    r.col "form_name" = optMember f "form_name"
  workflow_steps : ∀ (i : Nat) (w : JsVal) (r : Row),
    (providedItems (optMember body "workflows"))[i]? = some w → workflowRows[i]? = some r →
    ∃ stepsJson,
      rewriteSteps (filledMap rt (providedItems (optMember body "forms")) formRows [])
        (optMember w "steps_json") = .ok stepsJson ∧
      r.col "steps_json" = rt.jsonStringify stepsJson

/-- A `create-full` request with the forms "intake" and "exit" and one workflow whose steps
refer to the form "intake" by name. -/
def demoCreateBody : JsVal :=
  .obj [("agent", .obj [("agent_uuid", .str "a-2"), ("name", .str "Onboarding")]),
        ("forms", .arr [.obj [("form_name", .str "intake")],
                        .obj [("form_name", .str "exit")]]),
        ("workflows", .arr [.obj [("workflow_name", .str "Intake Review"),
                                  ("steps_json", .obj [("form_id", .str "intake")])]])]

/-- A `create-full` request with one form, named `name`, and one workflow whose steps refer
to that form by name. -/
def namedFormBody (name : String) : JsVal :=
  .obj [("agent", .obj [("agent_uuid", .str "a-2"), ("name", .str "Onboarding")]),
        ("forms", .arr [.obj [("form_name", .str name)]]),
        ("workflows", .arr [.obj [("workflow_name", .str "Review"),
                                  ("steps_json", .obj [("form_id", .str name)])]])]

/-- The placeholder option of a rendered `select`. -/
def selectPlaceholder : OptionElement := { key := none, value := .str "", label := .str "Select..." }

/-- The items `items` show the category `type` of `menus` at step `i`: one item per menu of
the category, in order; the item at position `j` has the class name `base ++ "active"` if and
only if `j = i`; with `i` or fewer menus in the category no item has it. -/
def CategoryShown (menus : List Menu) (type base : String) (i : Nat)
    (items : List MenuItemView) : Prop :=
  items.length = (menus.filter (fun m => decide (m.menu_type = type))).length ∧
  (∀ (j : Nat) (item : MenuItemView), items[j]? = some item →
    (menus.filter (fun m => decide (m.menu_type = type)))[j]? = some item.menu ∧
    item.onClickStep = j ∧ (item.className = base ++ "active" ↔ j = i)) ∧
  ((menus.filter (fun m => decide (m.menu_type = type))).length ≤ i →
    ∀ item ∈ items, item.className ≠ base ++ "active")

/-- A loaded agent page at step 1: two header menus, one sidebar menu and one workflow. -/
def demoAgentState : AgentState :=
  { agent := some { name := .str "Intake", description := .str "", agent_type := .str "general",
                    forms := some [⟨3, "intake"⟩] }
    workflows := [{ workflow_name := "Intake Review", steps_json := .obj [], id := 1 }]
    menus := [⟨1, "header", "Home", .undefined, .undefined, .undefined⟩,
              ⟨2, "sidebar", "Forms", .undefined, .undefined, .undefined⟩,
              ⟨3, "header", "Help", .undefined, .undefined, .undefined⟩]
    currentStep := 1
    loading := false
    error := .null }

/-- The row belongs to an agent with the UUID `uuid`: its `agent_id` is the key of such an
agent row. -/
def BelongsToAgent (store : Store) (uuid : String) (r : Row) : Prop :=
  ∃ a ∈ store "agents", a.col "agent_uuid" = .str uuid ∧ r.col "agent_id" = .num a.id

/-- The collection holds exactly the rows of `table` whose `agent_id` is `agentId`: the same
rows as many times, each of them a row of that agent, and every row of that agent. -/
def OwnedExactly (store : Store) (table : String) (agentId : Nat) (collection : List Row) :
    Prop :=
  collection.Perm ((store table).filter (fun r => colEqKey (r.col "agent_id") agentId)) ∧
  (∀ r ∈ collection, r ∈ store table ∧ r.col "agent_id" = .num agentId) ∧
  (∀ r ∈ store table, r.col "agent_id" = .num agentId → r ∈ collection)

/-- The order of column values of the server is total and transitive. -/
structure OrderedColumns (env : QueryEnv) : Prop where
  total : ∀ a b, env.colLe a b = true ∨ env.colLe b a = true
  trans : ∀ a b c, env.colLe a b = true → env.colLe b c = true → env.colLe a c = true

/-- The server compares the column `column` of the rows with the parameter `param` by
value: `stored` is the value, other than `NULL`, that the parameter stands for, and the
server finds the column of a row equal to the parameter exactly when the column holds
`stored`. -/
def ComparesAs (env : QueryEnv) (rows : List Row) (column : String) (param stored : JsVal) :
    Prop :=
  stored ≠ .null ∧ stored ≠ .undefined ∧
  ∀ r ∈ rows, env.paramEq (r.col column) param = true ↔ r.col column = stored

/-- The column is unset: it holds `NULL`, or the row was stored without it. -/
def Unset (col : JsVal) : Prop := col = .null ∨ col = .undefined

/-- The row `a` was created strictly before the row `b`. -/
def CreatedBefore (env : QueryEnv) (a b : Row) : Prop :=
  env.colLe (a.col "created_at") (b.col "created_at") = true ∧
  env.colLe (b.col "created_at") (a.col "created_at") = false

/-- The rows have distinct creation times. -/
def DistinctCreationTimes (env : QueryEnv) (rows : List Row) : Prop :=
  rows.Pairwise (fun a b => CreatedBefore env a b ∨ CreatedBefore env b a)

/-- The menu types in the order the source lists them. -/
def menuTypes : List String :=
  ["header", "sidebar", "footer", "floating", "dashboard", "chat", "recommendation"]

/-- The sort key of a column value on the demonstration server: a number sorts by its value,
a menu type by its place in `menuTypes`, `NULL` first. -/
def demoSortKey : JsVal → ℚ
  | .num q => q
  | .str s => (menuTypes.indexOf s : ℕ)
  | _ => -1

/-- An environment for the concrete evaluations: `parseInt` reads a number and the decimal
text of a number below 100; a column equals a parameter of the same text or value. -/
def demoEnv : QueryEnv where
  parseInt := fun v =>
    match v with
    | .num q => .finite q
    | .str s =>
      match (List.range 100).find? (fun n => decide (toString n = s)) with
      | some n => .finite n
      | none => .nan
    | _ => .nan
  colLe := fun a b => decide (demoSortKey a ≤ demoSortKey b)
  paramEq := fun col param =>
    match col, param with
    | .str s, .str t => decide (s = t)
    | .num q, .num p => decide (q = p)
    | .num q, .str t => decide (q.den = 1 ∧ 0 ≤ q.num ∧ t = toString q.num.toNat)
    | _, _ => false
  limitError := "You have an error in your SQL syntax"

/-- A store with the agent "a-1" and three of its menus: two in the header, at the places 1
and 3, and one in the sidebar, at place 2. -/
def demoMenuStore : Store := fun t =>
  if t = "agents" then [⟨1, [("agent_uuid", .str "a-1")]⟩]
  else if t = "agent_menus" then
    [⟨1, [("agent_id", .num 1), ("menu_type", .str "header"), ("order_no", .num 1)]⟩,
     ⟨2, [("agent_id", .num 1), ("menu_type", .str "sidebar"), ("order_no", .num 2)]⟩,
     ⟨3, [("agent_id", .num 1), ("menu_type", .str "header"), ("order_no", .num 3)]⟩]
  else []

/-- A store with the agent "a-1" and three chat messages of user 7, created at the times 10,
30 and 20, and one recommendation for user 7, one for user 8 and one for every user. -/
def demoChatStore : Store := fun t =>
  if t = "agents" then [⟨1, [("agent_uuid", .str "a-1")]⟩]
  else if t = "agent_chats" then
    [⟨1, [("agent_id", .num 1), ("user_id", .num 7), ("created_at", .num 10)]⟩,
     ⟨2, [("agent_id", .num 1), ("user_id", .num 7), ("created_at", .num 30)]⟩,
     ⟨3, [("agent_id", .num 1), ("user_id", .num 7), ("created_at", .num 20)]⟩]
  else if t = "agent_recommendations" then
    [⟨1, [("agent_id", .num 1), ("user_id", .num 7), ("created_at", .num 10)]⟩,
     ⟨2, [("agent_id", .num 1), ("user_id", .num 8), ("created_at", .num 30)]⟩,
     ⟨3, [("agent_id", .num 1), ("user_id", .null), ("created_at", .num 20)]⟩]
  else []

/-- The row `endpoint` is the first row of `agent_endpoints` that belongs to `agent` and has
the name `name`. -/
def FirstEndpointNamed (store : Store) (agent : Row) (name : String) (endpoint : Row) : Prop :=
  ∃ pre rest, store "agent_endpoints" = pre ++ endpoint :: rest ∧
    (∀ e ∈ pre, ¬ (e.col "agent_id" = .num agent.id ∧ e.col "endpoint_name" = .str name)) ∧
    endpoint.col "agent_id" = .num agent.id ∧ endpoint.col "endpoint_name" = .str name

/-- The connection was released exactly once, as the last call made on it. -/
def ReleasedOnce (events : List ConnEvent) : Prop :=
  ∃ before, events = before ++ [.release] ∧ ConnEvent.release ∉ before

/-- A store with the agent "a-1", which has the endpoint "notify". -/
def demoEndpointStore : Store := fun t =>
  if t = "agents" then [⟨1, [("agent_uuid", .str "a-1")]⟩]
  else if t = "agent_endpoints" then
    [⟨4, [("agent_id", .num 1), ("endpoint_name", .str "notify"), ("method", .str "POST")]⟩]
  else []

/-- A `create-full` request with one form and two workflows, the second of which has the
steps `null`. -/
def nullStepsBody : JsVal :=
  .obj [("agent", .obj [("agent_uuid", .str "a-2"), ("name", .str "Onboarding")]),
        ("forms", .arr [.obj [("form_name", .str "intake")]]),
        ("workflows", .arr [.obj [("workflow_name", .str "Review")],
                            .obj [("workflow_name", .str "Close"), ("steps_json", .null)]])]

/-- The value of a run of decimal digits; `none` when a character is not a digit. -/
def digitsValue (ds : List Char) : Option ℕ :=
  ds.foldl (fun acc ch =>
    match acc with
    | some n => if ch.isDigit then some (10 * n + (ch.toNat - 48)) else none
    | none => none) (some 0)

/-- The conversion `ToNumber` on the texts of the integers: the empty string is 0, digits
with an optional leading `-` are that integer. Every other string is answered with `NaN`. -/
def integerToNumber (s : String) : JsNumber :=
  match s.data with
  | [] => .finite 0
  | '-' :: ds =>
    if ds = [] then .nan
    else
      match digitsValue ds with
      | some n => .finite (-(n : ℚ))
      | none => .nan
  | ds =>
    match digitsValue ds with
    | some n => .finite (n : ℚ)
    | none => .nan

/-- The runtime `demoRuntime` with a numeric conversion that reads the integers. -/
def integerRuntime : JsRuntime where
  jsonParse := demoRuntime.jsonParse
  jsonStringify := demoRuntime.jsonStringify
  toNumber := fun v =>
    match v with
    | .str s => integerToNumber s
    | _ => .nan
  toStr := demoRuntime.toStr
  toLowerCase := demoRuntime.toLowerCase

/-- The props of a workflow step whose steps document has the string `formId` as its
`form_id`. -/
def stringFormIdProps (workflowName formId : String) (forms : Option (List Form)) :
    StepProps :=
  { workflow := ⟨workflowName, .obj [("form_id", .str formId)]⟩, agentUuid := "a-1",
    userId := .num 1, firmId := .num 5, forms := forms }
/-! ## Theorems: the workflow-to-form resolver -/

theorem includes_eq_true_iff (s t : String) : includes s t = true ↔ Contains s t := by
  unfold includes Contains
  rw [List.any_eq_true]
  constructor
  · rintro ⟨u, hu, hp⟩
    rw [List.mem_tails] at hu
    rw [List.isPrefixOf_iff_prefix] at hp
    obtain ⟨before, hb⟩ := hu
    obtain ⟨after, ha⟩ := hp
    exact ⟨before, after, by rw [List.append_assoc, ha, hb]⟩
  · rintro ⟨before, after, h⟩
    refine ⟨t.data ++ after, ?_, ?_⟩
    · rw [List.mem_tails]
      exact ⟨before, by rw [← h, List.append_assoc]⟩
    · rw [List.isPrefixOf_iff_prefix]
      exact ⟨after, rfl⟩

theorem toLowerCase_eq_lowerCased (rt : JsRuntime) (s : String) :
    toLowerCase rt s = lowerCased rt s := by
  unfold toLowerCase lowerCased isAscii
  by_cases h : ∀ ch ∈ s.data, ch.toNat < 128
  · have h2 : (s.data.all fun ch => decide (ch.toNat < 128)) = true := by
      rw [List.all_eq_true]; intro ch hch; simpa using h ch hch
    rw [if_pos h2, if_pos h]
    congr 1
  · have h2 : ¬ (s.data.all fun ch => decide (ch.toNat < 128)) = true := by
      rw [List.all_eq_true]; intro hall; exact h (fun ch hch => by simpa using hall ch hch)
    rw [if_neg h2, if_neg h]

theorem nameMatches_eq_true_iff (rt : JsRuntime) (w : Workflow) (f : Form) :
    nameMatches rt w f = true ↔ NamesMatch rt w.workflow_name f.form_name := by
  unfold nameMatches NamesMatch
  rw [Bool.or_eq_true, includes_eq_true_iff, includes_eq_true_iff,
    toLowerCase_eq_lowerCased, toLowerCase_eq_lowerCased]

theorem nameMatches_eq_false_iff (rt : JsRuntime) (w : Workflow) (f : Form) :
    nameMatches rt w f = false ↔ ¬ NamesMatch rt w.workflow_name f.form_name := by
  rw [← nameMatches_eq_true_iff]; simp

theorem namesMatch_of (rt : JsRuntime) (workflowName formName : String)
    (h : nameMatches rt ⟨workflowName, .null⟩ ⟨1, formName⟩ = true) :
    NamesMatch rt workflowName formName :=
  (nameMatches_eq_true_iff rt ⟨workflowName, .null⟩ ⟨1, formName⟩).mp h

theorem not_namesMatch_of (rt : JsRuntime) (workflowName formName : String)
    (h : nameMatches rt ⟨workflowName, .null⟩ ⟨1, formName⟩ = false) :
    ¬ NamesMatch rt workflowName formName :=
  (nameMatches_eq_false_iff rt ⟨workflowName, .null⟩ ⟨1, formName⟩).mp h

theorem guard_of_noPositiveFormId (rt : JsRuntime) (v : JsVal) (h : NoPositiveFormId v) :
    (!truthy v || leZero rt v) = true := by
  rcases h with h | h | ⟨q, hq, h⟩
  · subst h; simp [truthy]
  · subst h; simp [truthy]
  · subst h; simp [leZero, toNumber, JsNumber.leZero, hq]

theorem find?_first_match {α : Type} (p : α → Bool) (pre : List α) (f : α) (post : List α)
    (hpre : ∀ g ∈ pre, p g = false) (hf : p f = true) :
    (pre ++ f :: post).find? p = some f := by
  induction pre with
  | nil => simp [List.find?, hf]
  | cons g pre ih =>
    have hg : p g = false := hpre g (List.mem_cons_self _ _)
    have := ih (fun x hx => hpre x (List.mem_cons_of_mem _ hx))
    simp [List.find?, hg, this]

theorem find?_no_match {α : Type} (p : α → Bool) (l : List α)
    (h : ∀ g ∈ l, p g = false) : l.find? p = none := by
  induction l with
  | nil => rfl
  | cons g l ih =>
    have hg : p g = false := h g (List.mem_cons_self _ _)
    simp [List.find?, hg, ih (fun x hx => h x (List.mem_cons_of_mem _ hx))]

theorem resolveFormId_of_pos (rt : JsRuntime) (w : Workflow) (forms : Option (List Form))
    (q : ℚ) (hq : 0 < q) : resolveFormId rt w forms (.num q) = .num q := by
  have h1 : truthy (.num q) = true := by simp [truthy, ne_of_gt hq]
  have h2 : leZero rt (.num q) = false := by
    simp [leZero, toNumber, JsNumber.leZero, hq]
  simp [resolveFormId, h1, h2]

theorem truthy_num_nat (n : Nat) (h : 0 < n) : truthy (.num (n : ℚ)) = true := by
  simp [truthy]; omega

theorem resolveFormId_of_match (rt : JsRuntime) (w : Workflow) (pre post : List Form)
    (f : Form) (v : JsVal) (hv : NoPositiveFormId v)
    (hpre : ∀ g ∈ pre, ¬ NamesMatch rt w.workflow_name g.form_name)
    (hf : NamesMatch rt w.workflow_name f.form_name) :
    resolveFormId rt w (some (pre ++ f :: post)) v = .num (f.id : ℕ) := by
  have hg := guard_of_noPositiveFormId rt v hv
  have hfind : (pre ++ f :: post).find? (nameMatches rt w) = some f :=
    find?_first_match _ pre f post
      (fun g hgm => (nameMatches_eq_false_iff rt w g).mpr (hpre g hgm))
      ((nameMatches_eq_true_iff rt w f).mpr hf)
  unfold resolveFormId
  rw [if_pos hg]
  simp [hfind]

theorem resolveFormId_of_no_match (rt : JsRuntime) (w : Workflow) (first : Form)
    (rest : List Form) (v : JsVal) (hv : NoPositiveFormId v)
    (hno : ∀ g ∈ first :: rest, ¬ NamesMatch rt w.workflow_name g.form_name) :
    resolveFormId rt w (some (first :: rest)) v = .num (first.id : ℕ) := by
  have hg := guard_of_noPositiveFormId rt v hv
  have hfind : (first :: rest).find? (nameMatches rt w) = none :=
    find?_no_match _ _ (fun g hgm => (nameMatches_eq_false_iff rt w g).mpr (hno g hgm))
  unfold resolveFormId
  rw [if_pos hg]
  simp only [Option.getD_some, hfind]

theorem handleFormSubmit_of_resolved (rt : JsRuntime)
    (post : SubmitRequest → Except String JsVal) (props : StepProps) (formData : JsVal)
    (steps : JsVal) (v : JsVal)
    (hparse : parseSteps rt props.workflow.steps_json = .ok steps)
    (hres : resolveFormId rt props.workflow props.forms (optMember steps "form_id") = v)
    (hv : truthy v = true) :
    (handleFormSubmit rt post props formData).sent =
      [{ agentUuid := props.agentUuid, formId := v, user_id := props.userId,
         firm_id := props.firmId, submission_data := formData }] := by
  simp [handleFormSubmit, hparse, hres, hv]

theorem intake_names_do_not_match (rt : JsRuntime) :
    ¬ NamesMatch rt "Intake Review" "intake-form" ∧
    ¬ NamesMatch rt "Intake Review" "exit-form" :=
  ⟨(nameMatches_eq_false_iff rt ⟨"Intake Review", .null⟩ ⟨1, "intake-form"⟩).mp rfl,
   (nameMatches_eq_false_iff rt ⟨"Intake Review", .null⟩ ⟨1, "exit-form"⟩).mp rfl⟩

/-- C1. A steps document, given as an object or as a JSON string that parses to an object,
whose `form_id` is a number greater than 0: the one submit request sent carries exactly that
`form_id`, whatever the forms list is. -/
theorem handleFormSubmit_explicit_form_id (rt : JsRuntime)
    (post : SubmitRequest → Except String JsVal) (props : StepProps) (formData : JsVal)
    (fields : List (String × JsVal)) (q : ℚ)
    (hdoc : props.workflow.steps_json = .obj fields ∨
      ∃ s, props.workflow.steps_json = .str s ∧ rt.jsonParse s = .ok (.obj fields))
    (hid : lookupField "form_id" fields = .num q) (hq : 0 < q) :
    (handleFormSubmit rt post props formData).sent =
      [{ agentUuid := props.agentUuid, formId := .num q, user_id := props.userId,
         firm_id := props.firmId, submission_data := formData }] := by
  have hparse : parseSteps rt props.workflow.steps_json = .ok (.obj fields) := by
    rcases hdoc with h | ⟨s, h, hs⟩
    · rw [h]; rfl
    · rw [h]; exact hs
  have h1 : truthy (.num q) = true := by simp [truthy, ne_of_gt hq]
  apply handleFormSubmit_of_resolved rt post props formData _ _ hparse _ h1
  simp [optMember, hid, resolveFormId_of_pos rt _ _ q hq]

/-- Witness of C1: the steps document is the JSON string with `form_id` 7, the agent has a
form named like the workflow, and the request goes to form 7. -/
theorem handleFormSubmit_explicit_form_id_witness :
    (handleFormSubmit demoRuntime demoPost
      { workflow := ⟨"intake", .str "\x7b\"form_id\":7\x7d"⟩, agentUuid := "a-1",
        userId := .num 1, firmId := .num 5, forms := some [⟨3, "intake"⟩] } (.obj [])).sent =
      [{ agentUuid := "a-1", formId := .num 7, user_id := .num 1, firm_id := .num 5,
         submission_data := .obj [] }] :=
  handleFormSubmit_explicit_form_id demoRuntime demoPost
    { workflow := ⟨"intake", .str "\x7b\"form_id\":7\x7d"⟩, agentUuid := "a-1",
      userId := .num 1, firmId := .num 5, forms := some [⟨3, "intake"⟩] } (.obj [])
    [("form_id", .num 7)] 7 (Or.inr ⟨_, rfl, by simp [demoRuntime]⟩) (by simp [lookupField])
    (by norm_num)

/-- C2, counterexample. Neither form name matches "Intake Review"; with "exit-form" (id 2)
listed before "intake-form" (id 1) the request goes to form 2. -/
theorem intake_review_exit_form_first :
    nameMatches demoRuntime ⟨"Intake Review", .obj []⟩ ⟨1, "intake-form"⟩ = false ∧
    (handleFormSubmit demoRuntime demoPost
      { workflow := ⟨"Intake Review", .obj []⟩, agentUuid := "a-1", userId := .num 1,
        firmId := .num 5, forms := some [⟨2, "exit-form"⟩, ⟨1, "intake-form"⟩] }
      (.obj [])).sent =
      [{ agentUuid := "a-1", formId := .num 2, user_id := .num 1, firm_id := .num 5,
         submission_data := .obj [] }] := by
  refine ⟨by decide, ?_⟩
  refine handleFormSubmit_of_resolved demoRuntime demoPost
    { workflow := ⟨"Intake Review", .obj []⟩, agentUuid := "a-1", userId := .num 1,
      firmId := .num 5, forms := some [⟨2, "exit-form"⟩, ⟨1, "intake-form"⟩] }
    (.obj []) (.obj []) (.num (2 : Nat)) rfl ?_ (truthy_num_nat 2 (by decide))
  apply resolveFormId_of_no_match demoRuntime _ ⟨2, "exit-form"⟩ [⟨1, "intake-form"⟩] _
    (Or.inl rfl)
  intro g hg
  simp only [List.mem_cons, List.mem_singleton, List.not_mem_nil, or_false] at hg
  rcases hg with rfl | rfl
  · exact (intake_names_do_not_match demoRuntime).2
  · exact (intake_names_do_not_match demoRuntime).1

/-- C2, amended. For the workflow "Intake Review" with no positive form id and the forms
"intake-form" (id `a`) and "exit-form" (id `b`), no name matches, and the request goes to
the form listed first: to `a` when "intake-form" is first, to `b` when "exit-form" is. -/
theorem intake_review_resolves_to_first_listed (rt : JsRuntime)
    (post : SubmitRequest → Except String JsVal) (steps_json steps : JsVal)
    (agentUuid : String) (userId firmId formData : JsVal) (a b : ℕ+)
    (hparse : parseSteps rt steps_json = .ok steps)
    (hno : NoPositiveFormId (optMember steps "form_id")) :
    (¬ NamesMatch rt "Intake Review" "intake-form" ∧
      ¬ NamesMatch rt "Intake Review" "exit-form") ∧
    (handleFormSubmit rt post
      { workflow := ⟨"Intake Review", steps_json⟩, agentUuid := agentUuid, userId := userId,
        firmId := firmId, forms := some [⟨a, "intake-form"⟩, ⟨b, "exit-form"⟩] }
      formData).sent =
      [{ agentUuid := agentUuid, formId := .num (a : ℕ), user_id := userId, firm_id := firmId,
         submission_data := formData }] ∧
    (handleFormSubmit rt post
      { workflow := ⟨"Intake Review", steps_json⟩, agentUuid := agentUuid, userId := userId,
        firmId := firmId, forms := some [⟨b, "exit-form"⟩, ⟨a, "intake-form"⟩] }
      formData).sent =
      [{ agentUuid := agentUuid, formId := .num (b : ℕ), user_id := userId, firm_id := firmId,
         submission_data := formData }] := by
  refine ⟨intake_names_do_not_match rt, ?_, ?_⟩
  · refine handleFormSubmit_of_resolved rt post
      { workflow := ⟨"Intake Review", steps_json⟩, agentUuid := agentUuid, userId := userId,
        firmId := firmId, forms := some [⟨a, "intake-form"⟩, ⟨b, "exit-form"⟩] }
      formData steps (.num (a : ℕ)) hparse ?_ (truthy_num_nat a a.pos)
    apply resolveFormId_of_no_match rt _ ⟨a, "intake-form"⟩ [⟨b, "exit-form"⟩] _ hno
    intro g hg
    simp only [List.mem_cons, List.mem_singleton, List.not_mem_nil, or_false] at hg
    rcases hg with rfl | rfl
    · exact (intake_names_do_not_match rt).1
    · exact (intake_names_do_not_match rt).2
  · refine handleFormSubmit_of_resolved rt post
      { workflow := ⟨"Intake Review", steps_json⟩, agentUuid := agentUuid, userId := userId,
        firmId := firmId, forms := some [⟨b, "exit-form"⟩, ⟨a, "intake-form"⟩] }
      formData steps (.num (b : ℕ)) hparse ?_ (truthy_num_nat b b.pos)
    apply resolveFormId_of_no_match rt _ ⟨b, "exit-form"⟩ [⟨a, "intake-form"⟩] _ hno
    intro g hg
    simp only [List.mem_cons, List.mem_singleton, List.not_mem_nil, or_false] at hg
    rcases hg with rfl | rfl
    · exact (intake_names_do_not_match rt).2
    · exact (intake_names_do_not_match rt).1

/-- Witness of the amended C2: the steps document is absent and the ids are 1 and 2. -/
theorem intake_review_resolves_to_first_listed_witness :
    (handleFormSubmit demoRuntime demoPost
      { workflow := ⟨"Intake Review", .undefined⟩, agentUuid := "a-1", userId := .num 1,
        firmId := .num 5, forms := some [⟨2, "exit-form"⟩, ⟨1, "intake-form"⟩] }
      (.obj [])).sent =
      [{ agentUuid := "a-1", formId := .num (2 : Nat), user_id := .num 1, firm_id := .num 5,
         submission_data := .obj [] }] :=
  (intake_review_resolves_to_first_listed demoRuntime demoPost .undefined .undefined "a-1"
    (.num 1) (.num 5) (.obj []) 1 2 rfl (Or.inl rfl)).2.2

/-- C3. A workflow with no positive form id and a forms list `pre ++ f :: rest` in which `f`
is the first form whose name, lower-cased, contains the lower-cased workflow name or is
contained in it: the request goes to `f`, also when `pre` is not empty. -/
theorem handleFormSubmit_first_matching_form (rt : JsRuntime)
    (post : SubmitRequest → Except String JsVal) (props : StepProps) (formData : JsVal)
    (steps : JsVal) (pre rest : List Form) (f : Form)
    (hparse : parseSteps rt props.workflow.steps_json = .ok steps)
    (hno : NoPositiveFormId (optMember steps "form_id"))
    (hforms : props.forms = some (pre ++ f :: rest))
    (hpre : ∀ g ∈ pre, ¬ NamesMatch rt props.workflow.workflow_name g.form_name)
    (hf : NamesMatch rt props.workflow.workflow_name f.form_name) :
    (handleFormSubmit rt post props formData).sent =
      [{ agentUuid := props.agentUuid, formId := .num (f.id : ℕ), user_id := props.userId,
         firm_id := props.firmId, submission_data := formData }] := by
  apply handleFormSubmit_of_resolved rt post props formData steps _ hparse _
    (truthy_num_nat f.id f.id.pos)
  rw [hforms]
  exact resolveFormId_of_match rt _ pre rest f _ hno hpre hf

/-- Witness of C3. The workflow "Intake" has `form_id` 0; of the forms "exit-form",
"intake-form", "Intake 2" the second is the first match, and the request goes to it. The
workflow "ÉTUDE" has no `form_id`; of the forms "other" (4), "étude" (1), "ÉTUDE" (2) the
form "étude" is the first match, its name being the workflow name lower-cased, and the
request goes to form 1. -/
theorem handleFormSubmit_first_matching_form_witness :
    (handleFormSubmit demoRuntime demoPost
      { workflow := ⟨"Intake", .obj [("form_id", .num 0)]⟩, agentUuid := "a-1",
        userId := .num 1, firmId := .num 5,
        forms := some [⟨4, "exit-form"⟩, ⟨9, "intake-form"⟩, ⟨2, "Intake 2"⟩] }
      (.obj [])).sent =
      [{ agentUuid := "a-1", formId := .num (9 : Nat), user_id := .num 1, firm_id := .num 5,
         submission_data := .obj [] }] ∧
    (handleFormSubmit demoRuntime demoPost
      { workflow := ⟨"ÉTUDE", .obj []⟩, agentUuid := "a-1",
        userId := .num 1, firmId := .num 5,
        forms := some [⟨4, "other"⟩, ⟨1, "étude"⟩, ⟨2, "ÉTUDE"⟩] }
      (.obj [])).sent =
      [{ agentUuid := "a-1", formId := .num (1 : Nat), user_id := .num 1, firm_id := .num 5,
         submission_data := .obj [] }] :=
  ⟨handleFormSubmit_first_matching_form demoRuntime demoPost
    { workflow := ⟨"Intake", .obj [("form_id", .num 0)]⟩, agentUuid := "a-1",
      userId := .num 1, firmId := .num 5,
      forms := some [⟨4, "exit-form"⟩, ⟨9, "intake-form"⟩, ⟨2, "Intake 2"⟩] }
    (.obj []) (.obj [("form_id", .num 0)]) [⟨4, "exit-form"⟩] [⟨2, "Intake 2"⟩]
    ⟨9, "intake-form"⟩ rfl
    (Or.inr (Or.inr ⟨0, le_refl 0, by simp [optMember, lookupField]⟩)) rfl
    (by
      intro g hg
      simp only [List.mem_singleton] at hg
      subst hg
      exact not_namesMatch_of _ _ _ (by decide))
    (namesMatch_of _ _ _ (by decide)),
   handleFormSubmit_first_matching_form demoRuntime demoPost
    { workflow := ⟨"ÉTUDE", .obj []⟩, agentUuid := "a-1",
      userId := .num 1, firmId := .num 5,
      forms := some [⟨4, "other"⟩, ⟨1, "étude"⟩, ⟨2, "ÉTUDE"⟩] }
    (.obj []) (.obj []) [⟨4, "other"⟩] [⟨2, "ÉTUDE"⟩]
    ⟨1, "étude"⟩ rfl (Or.inl rfl) rfl
    (by
      intro g hg
      simp only [List.mem_singleton] at hg
      subst hg
      exact not_namesMatch_of _ _ _ (by decide))
    (namesMatch_of _ _ _ (by decide))⟩

/-- C4. A workflow with no positive form id and a non-empty forms list in which no form
name, lower-cased, contains the lower-cased workflow name or is contained in it: the request
goes to the first form of the list. -/
theorem handleFormSubmit_fallback_first_form (rt : JsRuntime)
    (post : SubmitRequest → Except String JsVal) (props : StepProps) (formData : JsVal)
    (steps : JsVal) (first : Form) (rest : List Form)
    (hparse : parseSteps rt props.workflow.steps_json = .ok steps)
    (hno : NoPositiveFormId (optMember steps "form_id"))
    (hforms : props.forms = some (first :: rest))
    (hnone : ∀ g ∈ first :: rest, ¬ NamesMatch rt props.workflow.workflow_name g.form_name) :
    (handleFormSubmit rt post props formData).sent =
      [{ agentUuid := props.agentUuid, formId := .num (first.id : ℕ), user_id := props.userId,
         firm_id := props.firmId, submission_data := formData }] := by
  apply handleFormSubmit_of_resolved rt post props formData steps _ hparse _
    (truthy_num_nat first.id first.id.pos)
  rw [hforms]
  exact resolveFormId_of_no_match rt _ first rest _ hno hnone

/-- Witness of C4. The workflow "Review" has `form_id` null; neither "A" nor "B" matches,
and the request goes to "A". The workflow "ÉTUDE" has no `form_id`; neither "other" nor
"Étudiant" matches, also lower-cased, and the request goes to "other". -/
theorem handleFormSubmit_fallback_first_form_witness :
    (handleFormSubmit demoRuntime demoPost
      { workflow := ⟨"Review", .obj [("form_id", .null)]⟩, agentUuid := "a-1",
        userId := .num 1, firmId := .num 5, forms := some [⟨6, "A"⟩, ⟨7, "B"⟩] }
      (.obj [])).sent =
      [{ agentUuid := "a-1", formId := .num (6 : Nat), user_id := .num 1, firm_id := .num 5,
         submission_data := .obj [] }] ∧
    (handleFormSubmit demoRuntime demoPost
      { workflow := ⟨"ÉTUDE", .obj []⟩, agentUuid := "a-1",
        userId := .num 1, firmId := .num 5, forms := some [⟨3, "other"⟩, ⟨8, "Étudiant"⟩] }
      (.obj [])).sent =
      [{ agentUuid := "a-1", formId := .num (3 : Nat), user_id := .num 1, firm_id := .num 5,
         submission_data := .obj [] }] :=
  ⟨handleFormSubmit_fallback_first_form demoRuntime demoPost
    { workflow := ⟨"Review", .obj [("form_id", .null)]⟩, agentUuid := "a-1",
      userId := .num 1, firmId := .num 5, forms := some [⟨6, "A"⟩, ⟨7, "B"⟩] }
    (.obj []) (.obj [("form_id", .null)]) ⟨6, "A"⟩ [⟨7, "B"⟩] rfl
    (Or.inr (Or.inl (by simp [optMember, lookupField]))) rfl
    (by
      intro g hg
      simp only [List.mem_cons, List.mem_singleton, List.not_mem_nil, or_false] at hg
      rcases hg with rfl | rfl <;> exact not_namesMatch_of _ _ _ (by decide)),
   handleFormSubmit_fallback_first_form demoRuntime demoPost
    { workflow := ⟨"ÉTUDE", .obj []⟩, agentUuid := "a-1",
      userId := .num 1, firmId := .num 5, forms := some [⟨3, "other"⟩, ⟨8, "Étudiant"⟩] }
    (.obj []) (.obj []) ⟨3, "other"⟩ [⟨8, "Étudiant"⟩] rfl (Or.inl rfl) rfl
    (by
      intro g hg
      simp only [List.mem_cons, List.mem_singleton, List.not_mem_nil, or_false] at hg
      rcases hg with rfl | rfl <;> exact not_namesMatch_of _ _ _ (by decide))⟩

/-- The part of C5 that the code satisfies: when the steps document has no `form_id`, or a
`form_id` that is `null` or 0, and the forms list is empty or absent, the message is
'Error: No form available for this workflow' and no request is sent. -/
theorem handleFormSubmit_no_form_available (rt : JsRuntime)
    (post : SubmitRequest → Except String JsVal) (props : StepProps) (formData : JsVal)
    (steps : JsVal)
    (hparse : parseSteps rt props.workflow.steps_json = .ok steps)
    (hno : optMember steps "form_id" = .undefined ∨ optMember steps "form_id" = .null ∨
      optMember steps "form_id" = .num 0)
    (hforms : props.forms = none ∨ props.forms = some []) :
    (handleFormSubmit rt post props formData).message =
      "Error: No form available for this workflow" ∧
    (handleFormSubmit rt post props formData).sent = [] := by
  have hres : resolveFormId rt props.workflow props.forms (optMember steps "form_id") =
      optMember steps "form_id" := by
    unfold resolveFormId
    rcases hforms with h | h <;> rw [h] <;> split <;> simp
  have hfalse : truthy (optMember steps "form_id") = false := by
    rcases hno with h | h | h <;> rw [h] <;> simp [truthy]
  simp [handleFormSubmit, hparse, hres, hfalse]

/-- C5, the failing input. A workflow whose steps document has `form_id` -1 and an agent with
no forms: no error message is set, and a submit request is sent with form id -1. -/
theorem handleFormSubmit_negative_form_id_no_forms :
    (handleFormSubmit demoRuntime demoPost
      { workflow := ⟨"Review", .obj [("form_id", .num (-1))]⟩, agentUuid := "a-1",
        userId := .num 1, firmId := .num 5, forms := some [] } (.obj [])).sent =
      [{ agentUuid := "a-1", formId := .num (-1), user_id := .num 1, firm_id := .num 5,
         submission_data := .obj [] }] ∧
    (handleFormSubmit demoRuntime demoPost
      { workflow := ⟨"Review", .obj [("form_id", .num (-1))]⟩, agentUuid := "a-1",
        userId := .num 1, firmId := .num 5, forms := some [] } (.obj [])).message ≠
      "Error: No form available for this workflow" := by
  constructor
  · simp [handleFormSubmit, parseSteps, optMember, lookupField, resolveFormId, truthy, leZero,
      toNumber, JsNumber.leZero]
  · simp [handleFormSubmit, parseSteps, optMember, lookupField, resolveFormId, truthy, leZero,
      toNumber, JsNumber.leZero, afterResponse, demoPost, member]

/-! ## Theorems: form submission -/

theorem colEqStr_eq_true_iff (v : JsVal) (s : String) : colEqStr v s = true ↔ v = .str s := by
  cases v <;> simp [colEqStr]

theorem colEqKey_eq_true_iff (v : JsVal) (n : Nat) : colEqKey v n = true ↔ v = .num n := by
  cases v <;> simp [colEqKey]

theorem member_of_truthy (body : JsVal) (k : String) (h : truthy (optMember body k) = true) :
    member body k = .ok (optMember body k) := by
  cases body <;> simp_all [member, optMember, truthy]

theorem filter_eq_nil_of_forall {α : Type} (p : α → Bool) (l : List α)
    (h : ∀ x ∈ l, p x = false) : l.filter p = [] := by
  induction l with
  | nil => rfl
  | cons x l ih =>
    have hx : p x = false := h x (List.mem_cons_self _ _)
    simp [List.filter, hx, ih (fun y hy => h y (List.mem_cons_of_mem _ hy))]

theorem filter_first {α : Type} (p : α → Bool) (pre : List α) (a : α) (rest : List α)
    (hpre : ∀ x ∈ pre, p x = false) (ha : p a = true) :
    (pre ++ a :: rest).filter p = a :: rest.filter p := by
  rw [List.filter_append, filter_eq_nil_of_forall p pre hpre]
  simp [List.filter, ha]

theorem agents_filter_nil (store : Store) (uuid : String)
    (h : ∀ r ∈ store "agents", r.col "agent_uuid" ≠ .str uuid) :
    (store "agents").filter (fun r => colEqStr (r.col "agent_uuid") uuid) = [] := by
  apply filter_eq_nil_of_forall
  intro r hr
  have := h r hr
  cases hc : colEqStr (r.col "agent_uuid") uuid
  · rfl
  · exact absurd ((colEqStr_eq_true_iff _ _).mp hc) this

theorem agents_filter_first (store : Store) (uuid : String) (agent : Row)
    (h : FirstAgentWithUuid store uuid agent) :
    ∃ others, (store "agents").filter (fun r => colEqStr (r.col "agent_uuid") uuid) =
      agent :: others := by
  obtain ⟨pre, rest, hstore, hpre, hag⟩ := h
  refine ⟨rest.filter (fun r => colEqStr (r.col "agent_uuid") uuid), ?_⟩
  rw [hstore]
  apply filter_first
  · intro r hr
    cases hc : colEqStr (r.col "agent_uuid") uuid
    · rfl
    · exact absurd ((colEqStr_eq_true_iff _ _).mp hc) (hpre r hr)
  · exact (colEqStr_eq_true_iff _ _).mpr hag

theorem forms_filter_nil (db : Database) (store : Store) (formId : String) (agent : Row)
    (h : ∀ f ∈ store "agent_forms", ¬ FormOwnedBy db formId agent f) :
    (store "agent_forms").filter
      (fun r => db.keyEq r.id formId && colEqKey (r.col "agent_id") agent.id) = [] := by
  apply filter_eq_nil_of_forall
  intro f hf
  have := h f hf
  cases hc : (db.keyEq f.id formId && colEqKey (f.col "agent_id") agent.id)
  · rfl
  · rw [Bool.and_eq_true] at hc
    exact absurd ⟨hc.1, (colEqKey_eq_true_iff _ _).mp hc.2⟩ this

theorem forms_filter_cons (db : Database) (store : Store) (formId : String) (agent f : Row)
    (hf : f ∈ store "agent_forms") (h : FormOwnedBy db formId agent f) :
    ∃ g others, (store "agent_forms").filter
      (fun r => db.keyEq r.id formId && colEqKey (r.col "agent_id") agent.id) =
      g :: others := by
  have hmem : f ∈ (store "agent_forms").filter
      (fun r => db.keyEq r.id formId && colEqKey (r.col "agent_id") agent.id) := by
    rw [List.mem_filter]
    exact ⟨hf, by rw [Bool.and_eq_true]; exact ⟨h.1, (colEqKey_eq_true_iff _ _).mpr h.2⟩⟩
  cases hl : (store "agent_forms").filter
      (fun r => db.keyEq r.id formId && colEqKey (r.col "agent_id") agent.id) with
  | nil => rw [hl] at hmem; exact absurd hmem (List.not_mem_nil _)
  | cons g others => exact ⟨g, others, rfl⟩

/-- The `try` block once the three body fields have passed the presence check. -/
theorem submitFormTry_of_present (rt : JsRuntime) (db : Database) (agentUuid formId : String)
    (body : JsVal) (c0 : Conn)
    (hu : truthy (optMember body "user_id") = true)
    (hf : truthy (optMember body "firm_id") = true)
    (hs : truthy (optMember body "submission_data") = true) :
    submitFormTry rt db agentUuid formId body c0 =
      match (select (beginTransaction c0) "agents"
          (fun r => colEqStr (r.col "agent_uuid") agentUuid)) with
      | ([], c2) => (.ok ⟨404, errorBody "Agent not found"⟩, rollback c2)
      | (agent :: _, c2) =>
        match select c2 "agent_forms"
            (fun r => db.keyEq r.id formId && colEqKey (r.col "agent_id") agent.id) with
        | ([], c3) => (.ok ⟨404, errorBody "Form not found"⟩, rollback c3)
        | (_ :: _, c3) =>
          match insert db c3 "agent_form_data"
              [("agent_id", .num agent.id), ("form_id", .str formId),
               ("user_id", optMember body "user_id"), ("firm_id", optMember body "firm_id"),
               ("submission_data", rt.jsonStringify (optMember body "submission_data"))] with
          | (.error e, c4) => (.error e, c4)
          | (.ok insertId, c4) =>
            match insert db c4 "agent_logs"
                [("agent_id", .num agent.id), ("user_id", optMember body "user_id"),
                 ("firm_id", optMember body "firm_id"), ("action", .str "form_submission"),
                 ("input_data", rt.jsonStringify (.obj [("form_id", .str formId)])),
                 ("output_data",
                   rt.jsonStringify (.obj [("submission_id", .num insertId)]))] with
            | (.error e, c5) => (.error e, c5)
            | (.ok _, c5) =>
              (.ok ⟨200, .obj [("success", .bool true),
                  ("message", .str "Form submitted successfully"),
                  ("data", .obj [("submission_id", .num insertId)])]⟩, commit c5) := by
  unfold submitFormTry
  rw [member_of_truthy body "user_id" hu]
  simp only [hu, hf, hs, Bool.not_true, Bool.or_self, Bool.false_eq_true, if_false]

/-- C6, counterexample. No agent of `demoStore` has the UUID "a-9", and the body holds all
three fields, `user_id` being 0: the response is 400 'Missing required fields', not 404
'Agent not found'. -/
theorem submitForm_unknown_agent_zero_user_id :
    (∀ r ∈ demoStore "agents", r.col "agent_uuid" ≠ .str "a-9") ∧
    (submitForm demoRuntime demoDb demoStore "a-9" "3"
      (.obj [("user_id", .num 0), ("firm_id", .num 5), ("submission_data", .obj [])])).response =
      ⟨400, errorBody "Missing required fields: user_id, firm_id, submission_data"⟩ ∧
    (submitForm demoRuntime demoDb demoStore "a-9" "3"
      (.obj [("user_id", .num 0), ("firm_id", .num 5), ("submission_data", .obj [])])).response ≠
      ⟨404, errorBody "Agent not found"⟩ := by
  refine ⟨?_, ?_, ?_⟩
  · intro r hr
    simp [demoStore] at hr
    subst hr
    simp [Row.col, lookupField]
  · simp [submitForm, submitFormTry, member, optMember, lookupField, truthy, finish]
  · simp [submitForm, submitFormTry, member, optMember, lookupField, truthy, finish]

/-- C6, amended. A request whose three body fields are truthy, that is, pass the check
`!user_id || !firm_id || !submission_data` of the handler: if no agent has the UUID
the response is 404 'Agent not found'; if the first agent with the UUID owns no form with
the given id the response is 404 'Form not found'; in both cases every table, so also the
submission table and the log table, is as before. -/
theorem submitForm_not_found (rt : JsRuntime) (db : Database) (store : Store)
    (agentUuid formId : String) (body : JsVal)
    (hu : truthy (optMember body "user_id") = true)
    (hf : truthy (optMember body "firm_id") = true)
    (hs : truthy (optMember body "submission_data") = true) :
    ((∀ r ∈ store "agents", r.col "agent_uuid" ≠ .str agentUuid) →
      (submitForm rt db store agentUuid formId body).response =
        ⟨404, errorBody "Agent not found"⟩ ∧
      (submitForm rt db store agentUuid formId body).store = store) ∧
    (∀ agent, FirstAgentWithUuid store agentUuid agent →
      (∀ f ∈ store "agent_forms", ¬ FormOwnedBy db formId agent f) →
      (submitForm rt db store agentUuid formId body).response =
        ⟨404, errorBody "Form not found"⟩ ∧
      (submitForm rt db store agentUuid formId body).store = store) := by
  constructor
  · intro hnone
    have h := agents_filter_nil store agentUuid hnone
    simp [submitForm, submitFormTry_of_present rt db agentUuid formId body _ hu hf hs,
      select, beginTransaction, getConnection, h, finish, rollback, release]
  · intro agent hagent hforms
    obtain ⟨others, h⟩ := agents_filter_first store agentUuid agent hagent
    have h2 := forms_filter_nil db store formId agent hforms
    simp [submitForm, submitFormTry_of_present rt db agentUuid formId body _ hu hf hs,
      select, beginTransaction, getConnection, h, h2, finish, rollback, release]

/-- Witness of the amended C6: in the store with agent "a-1", which owns form 3 only, a
submission to form 4 of "a-1" is answered 404 'Form not found' and leaves the store as it was. -/
theorem submitForm_not_found_witness :
    (submitForm demoRuntime demoDb demoStore "a-1" "4"
      (.obj [("user_id", .num 1), ("firm_id", .num 5), ("submission_data", .obj [])])).response =
      ⟨404, errorBody "Form not found"⟩ ∧
    (submitForm demoRuntime demoDb demoStore "a-1" "4"
      (.obj [("user_id", .num 1), ("firm_id", .num 5), ("submission_data", .obj [])])).store =
      demoStore :=
  (submitForm_not_found demoRuntime demoDb demoStore "a-1" "4"
    (.obj [("user_id", .num 1), ("firm_id", .num 5), ("submission_data", .obj [])])
    (by simp [optMember, lookupField, truthy]) (by simp [optMember, lookupField, truthy])
    (by simp [optMember, lookupField, truthy])).2
    ⟨1, [("agent_uuid", .str "a-1"), ("name", .str "Intake")]⟩
    ⟨[], [], by simp [demoStore], by simp, by simp [Row.col, lookupField]⟩
    (by
      intro f hf
      simp [demoStore] at hf
      subst hf
      rintro ⟨h, -⟩
      exact absurd h (by decide))

theorem submitForm_status_of_present (rt : JsRuntime) (db : Database) (store : Store)
    (agentUuid formId : String) (body : JsVal)
    (hu : truthy (optMember body "user_id") = true)
    (hf : truthy (optMember body "firm_id") = true)
    (hs : truthy (optMember body "submission_data") = true) :
    (submitForm rt db store agentUuid formId body).response.status ≠ 400 := by
  unfold submitForm
  rw [submitFormTry_of_present rt db agentUuid formId body _ hu hf hs]
  split
  · simp [finish]
  · split
    · simp [finish]
    · split
      · simp [finish]
      · split <;> simp [finish]

/-- C7, counterexample. The body holds all three fields, `user_id` being 0: the response is
400 'Missing required fields', although no field is absent. -/
theorem submitForm_zero_user_id :
    (submitForm demoRuntime demoDb demoStore "a-1" "3"
      (.obj [("user_id", .num 0), ("firm_id", .num 5), ("submission_data", .obj [])])).response =
      ⟨400, errorBody "Missing required fields: user_id, firm_id, submission_data"⟩ := by
  simp [submitForm, submitFormTry, member, optMember, lookupField, truthy, finish]

/-- C7, amended. The response is 400 exactly when one of `user_id`, `firm_id`,
`submission_data` is absent from the body or falsy (`null`, `false`, 0, ''); it is then the
'Missing required fields' body, the only call on the connection is its release (no row is
read or written, the agent is not looked up) and the store is as before. -/
theorem submitForm_missing_fields (rt : JsRuntime) (db : Database) (store : Store)
    (agentUuid formId : String) (fields : List (String × JsVal)) :
    ((submitForm rt db store agentUuid formId (.obj fields)).response.status = 400 ↔
      (truthy (lookupField "user_id" fields) = false ∨
       truthy (lookupField "firm_id" fields) = false ∨
       truthy (lookupField "submission_data" fields) = false)) ∧
    ((truthy (lookupField "user_id" fields) = false ∨
       truthy (lookupField "firm_id" fields) = false ∨
       truthy (lookupField "submission_data" fields) = false) →
      (submitForm rt db store agentUuid formId (.obj fields)).response =
        ⟨400, errorBody "Missing required fields: user_id, firm_id, submission_data"⟩ ∧
      (submitForm rt db store agentUuid formId (.obj fields)).events = [.release] ∧
      (submitForm rt db store agentUuid formId (.obj fields)).store = store) := by
  have hmiss : (truthy (lookupField "user_id" fields) = false ∨
       truthy (lookupField "firm_id" fields) = false ∨
       truthy (lookupField "submission_data" fields) = false) →
      (submitForm rt db store agentUuid formId (.obj fields)).response =
        ⟨400, errorBody "Missing required fields: user_id, firm_id, submission_data"⟩ ∧
      (submitForm rt db store agentUuid formId (.obj fields)).events = [.release] ∧
      (submitForm rt db store agentUuid formId (.obj fields)).store = store := by
    intro h
    have hg : (!truthy (lookupField "user_id" fields) || !truthy (lookupField "firm_id" fields)
        || !truthy (lookupField "submission_data" fields)) = true := by
      rcases h with h | h | h <;> simp [h]
    simp [submitForm, submitFormTry, member, optMember, hg, finish, release, getConnection]
  refine ⟨⟨?_, fun h => by rw [(hmiss h).1]⟩, hmiss⟩
  intro h400
  by_contra hcon
  simp only [not_or, Bool.not_eq_false] at hcon
  exact submitForm_status_of_present rt db store agentUuid formId (.obj fields)
    hcon.1 hcon.2.1 hcon.2.2 h400

/-- C8, counterexample. The agent "a-1" of `demoStore` owns form 3 and `demoDb` rejects no
`INSERT`; the body holds all three fields, `user_id` being 0. The response is 400, and the
submission table and the log table gain no row. -/
theorem submitForm_owned_form_zero_user_id :
    FirstAgentWithUuid demoStore "a-1"
      ⟨1, [("agent_uuid", .str "a-1"), ("name", .str "Intake")]⟩ ∧
    (⟨3, [("agent_id", .num 1), ("form_name", .str "intake")]⟩ : Row) ∈
      demoStore "agent_forms" ∧
    FormOwnedBy demoDb "3" ⟨1, [("agent_uuid", .str "a-1"), ("name", .str "Intake")]⟩
      ⟨3, [("agent_id", .num 1), ("form_name", .str "intake")]⟩ ∧
    (∀ n, demoDb.rejects n = none) ∧
    (submitForm demoRuntime demoDb demoStore "a-1" "3"
      (.obj [("user_id", .num 0), ("firm_id", .num 5),
        ("submission_data", .obj [])])).response.status = 400 ∧
    (submitForm demoRuntime demoDb demoStore "a-1" "3"
      (.obj [("user_id", .num 0), ("firm_id", .num 5),
        ("submission_data", .obj [])])).store "agent_form_data" = [] ∧
    (submitForm demoRuntime demoDb demoStore "a-1" "3"
      (.obj [("user_id", .num 0), ("firm_id", .num 5),
        ("submission_data", .obj [])])).store "agent_logs" = [] := by
  refine ⟨⟨[], [], by simp [demoStore], by simp, by simp [Row.col, lookupField]⟩,
    by simp [demoStore], ⟨by decide, by simp [Row.col, lookupField]⟩, fun _ => rfl,
    ?_, ?_, ?_⟩
  · simp [submitForm, submitFormTry, member, optMember, lookupField, truthy, finish]
  · simp [submitForm, submitFormTry, member, optMember, lookupField, truthy, finish, release,
      getConnection, demoStore]
  · simp [submitForm, submitFormTry, member, optMember, lookupField, truthy, finish, release,
      getConnection, demoStore]

/-- C8, amended. A request whose three body fields are truthy, that is, pass the check
`!user_id || !firm_id || !submission_data` of the handler, for an existing agent UUID and a
form id owned by that agent, when neither of the two `INSERT`s is rejected: the submission
table gains exactly one row (agent id, form id, user, firm, serialised `submission_data`) with
some key `s`, the log table gains exactly one row with action 'form_submission' and
`output_data` the JSON of `{submission_id: s}`, the response is the success body with
`data.submission_id = s`, and no other table changes. -/
theorem submitForm_success (rt : JsRuntime) (db : Database) (store : Store)
    (agentUuid formId : String) (body : JsVal) (agent f : Row)
    (hu : truthy (optMember body "user_id") = true)
    (hf : truthy (optMember body "firm_id") = true)
    (hs : truthy (optMember body "submission_data") = true)
    (hagent : FirstAgentWithUuid store agentUuid agent)
    (hform : f ∈ store "agent_forms") (hown : FormOwnedBy db formId agent f)
    (h0 : db.rejects 0 = none) (h1 : db.rejects 1 = none) :
    ∃ s l : Nat,
      (submitForm rt db store agentUuid formId body).store "agent_form_data" =
        store "agent_form_data" ++
          [⟨s, [("agent_id", .num agent.id), ("form_id", .str formId),
                ("user_id", optMember body "user_id"), ("firm_id", optMember body "firm_id"),
                ("submission_data", rt.jsonStringify (optMember body "submission_data"))]⟩] ∧
      (submitForm rt db store agentUuid formId body).store "agent_logs" =
        store "agent_logs" ++
          [⟨l, [("agent_id", .num agent.id), ("user_id", optMember body "user_id"),
                ("firm_id", optMember body "firm_id"), ("action", .str "form_submission"),
                ("input_data", rt.jsonStringify (.obj [("form_id", .str formId)])),
                ("output_data", rt.jsonStringify (.obj [("submission_id", .num s)]))]⟩] ∧
      (submitForm rt db store agentUuid formId body).response =
        ⟨200, .obj [("success", .bool true), ("message", .str "Form submitted successfully"),
          ("data", .obj [("submission_id", .num s)])]⟩ ∧
      ∀ t, t ≠ "agent_form_data" → t ≠ "agent_logs" →
        (submitForm rt db store agentUuid formId body).store t = store t := by
  obtain ⟨others, hA⟩ := agents_filter_first store agentUuid agent hagent
  obtain ⟨g, gs, hF⟩ := forms_filter_cons db store formId agent f hform hown
  refine ⟨nextId (store "agent_form_data"), nextId (store "agent_logs"), ?_⟩
  simp [submitForm, submitFormTry_of_present rt db agentUuid formId body _ hu hf hs,
    select, beginTransaction, getConnection, hA, hF, insert, h0, h1, finish, commit, release,
    addRow]
  intro t ht1 ht2
  simp [ht1, ht2]

/-- Witness of the amended C8: user 1 of firm 5 submits to form 3 of agent "a-1". -/
theorem submitForm_success_witness :
    ∃ s l : Nat,
      (submitForm demoRuntime demoDb demoStore "a-1" "3"
        (.obj [("user_id", .num 1), ("firm_id", .num 5), ("submission_data", .obj [])])).store
          "agent_form_data" =
        demoStore "agent_form_data" ++
          [⟨s, [("agent_id", .num (1 : Nat)), ("form_id", .str "3"), ("user_id", .num 1),
                ("firm_id", .num 5), ("submission_data", .obj [])]⟩] ∧
      (submitForm demoRuntime demoDb demoStore "a-1" "3"
        (.obj [("user_id", .num 1), ("firm_id", .num 5), ("submission_data", .obj [])])).store
          "agent_logs" =
        demoStore "agent_logs" ++
          [⟨l, [("agent_id", .num (1 : Nat)), ("user_id", .num 1), ("firm_id", .num 5),
                ("action", .str "form_submission"),
                ("input_data", .obj [("form_id", .str "3")]),
                ("output_data", .obj [("submission_id", .num s)])]⟩] ∧
      (submitForm demoRuntime demoDb demoStore "a-1" "3"
        (.obj [("user_id", .num 1), ("firm_id", .num 5), ("submission_data", .obj [])])).response =
        ⟨200, .obj [("success", .bool true), ("message", .str "Form submitted successfully"),
          ("data", .obj [("submission_id", .num s)])]⟩ ∧
      ∀ t, t ≠ "agent_form_data" → t ≠ "agent_logs" →
        (submitForm demoRuntime demoDb demoStore "a-1" "3"
          (.obj [("user_id", .num 1), ("firm_id", .num 5),
            ("submission_data", .obj [])])).store t = demoStore t :=
  submitForm_success demoRuntime demoDb demoStore "a-1" "3"
    (.obj [("user_id", .num 1), ("firm_id", .num 5), ("submission_data", .obj [])])
    ⟨1, [("agent_uuid", .str "a-1"), ("name", .str "Intake")]⟩
    ⟨3, [("agent_id", .num 1), ("form_name", .str "intake")]⟩
    (by simp [optMember, lookupField, truthy]) (by simp [optMember, lookupField, truthy])
    (by simp [optMember, lookupField, truthy])
    ⟨[], [], by simp [demoStore], by simp, by simp [Row.col, lookupField]⟩
    (by simp [demoStore])
    ⟨by decide, by simp [Row.col, lookupField]⟩ rfl rfl

/-! ## Theorems: full agent creation -/

theorem appendRows_nil (s : Store) (table : String) : appendRows s table [] = s := by
  funext t
  simp [appendRows]

theorem appendRows_appendRows (s : Store) (table : String) (rows rows' : List Row) :
    appendRows (appendRows s table rows) table rows' = appendRows s table (rows ++ rows') := by
  funext t
  by_cases h : t = table <;> simp [appendRows, h]

theorem insert_kept (db : Database) (c : Conn) (table : String)
    (cols : List (String × JsVal)) (h : c.inTx = true) (r : Except String Nat × Conn)
    (hr : insert db c table cols = r) :
    r.2.committed = c.committed ∧ r.2.inTx = true := by
  subst hr
  unfold insert
  split <;> simp [h]

theorem insert_ok (db : Database) (c c' : Conn) (table : String)
    (cols : List (String × JsVal)) (id : Nat)
    (ho : insert db c table cols = (.ok id, c')) :
    ∃ row : Row, row = ⟨id, cols⟩ ∧ c'.store = appendRows c.store table [row] ∧
      id = nextId (c.store table) ∧ c'.inserts = c.inserts + 1 ∧
      db.rejects c.inserts = none := by
  unfold insert at ho
  split at ho
  · simp at ho
  · rename_i hrej
    simp only [Prod.mk.injEq, Except.ok.injEq] at ho
    obtain ⟨hid, hc⟩ := ho
    subst hc
    subst hid
    exact ⟨_, rfl, rfl, rfl, rfl, hrej⟩

theorem insertMenus_kept (db : Database) (agent_id : Nat) :
    ∀ (items : List JsVal) (c : Conn), c.inTx = true →
      (insertMenus db agent_id items c).2.committed = c.committed ∧
      (insertMenus db agent_id items c).2.inTx = true := by
  intro items
  induction items with
  | nil => intro c h; exact ⟨rfl, h⟩
  | cons menu rest ih =>
    intro c h
    unfold insertMenus
    split
    · exact ⟨rfl, h⟩
    · split
      · rename_i e c' hins
        exact insert_kept db c _ _ h _ hins
      · rename_i u c' hins
        have hk := insert_kept db c _ _ h _ hins
        have := ih c' hk.2
        exact ⟨this.1.trans hk.1, this.2⟩

theorem insertMenus_ok (db : Database) (agent_id : Nat) :
    ∀ (items : List JsVal) (c c' : Conn) (u : Unit),
      insertMenus db agent_id items c = (.ok u, c') →
      ∃ rows : List Row, rows.length = items.length ∧
        c'.store = appendRows c.store "agent_menus" rows ∧
        c'.inserts = c.inserts + items.length ∧
        ∀ k, c.inserts ≤ k → k < c.inserts + items.length → db.rejects k = none := by
  intro items
  induction items with
  | nil =>
    intro c c' u h
    simp only [insertMenus, Prod.mk.injEq] at h
    obtain ⟨-, rfl⟩ := h
    exact ⟨[], rfl, (appendRows_nil _ _).symm, rfl, fun k h1 h2 => by simp at h2; omega⟩
  | cons menu rest ih =>
    intro c c' u h
    unfold insertMenus at h
    split at h
    · simp at h
    · split at h
      · simp at h
      · rename_i id c1 hins
        obtain ⟨row, -, hs, -, hn, hr⟩ := insert_ok db c c1 _ _ id hins
        obtain ⟨rows, hlen, hst, hcnt, hrej⟩ := ih c1 c' u h
        refine ⟨row :: rows, by simp [hlen], ?_, ?_, ?_⟩
        · rw [hst, hs, appendRows_appendRows]; rfl
        · rw [hcnt, hn]; simp; omega
        · intro k h1 h2
          by_cases hk : k = c.inserts
          · rw [hk]; exact hr
          · apply hrej k
            · rw [hn]; omega
            · rw [hn]; simp at h2; omega

theorem member_ok (v : JsVal) (k : String) (x : JsVal) (h : member v k = .ok x) :
    x = optMember v k := by
  cases v <;> simp_all [member]

theorem insertEndpoints_kept (rt : JsRuntime) (db : Database) (agent_id : Nat) :
    ∀ (items : List JsVal) (c : Conn), c.inTx = true →
      (insertEndpoints rt db agent_id items c).2.committed = c.committed ∧
      (insertEndpoints rt db agent_id items c).2.inTx = true := by
  intro items
  induction items with
  | nil => intro c h; exact ⟨rfl, h⟩
  | cons endpoint rest ih =>
    intro c h
    unfold insertEndpoints
    split
    · exact ⟨rfl, h⟩
    · split
      · rename_i e c' hins
        exact insert_kept db c _ _ h _ hins
      · rename_i u c' hins
        have hk := insert_kept db c _ _ h _ hins
        have := ih c' hk.2
        exact ⟨this.1.trans hk.1, this.2⟩

theorem insertEndpoints_ok (rt : JsRuntime) (db : Database) (agent_id : Nat) :
    ∀ (items : List JsVal) (c c' : Conn) (u : Unit),
      insertEndpoints rt db agent_id items c = (.ok u, c') →
      ∃ rows : List Row, rows.length = items.length ∧
        c'.store = appendRows c.store "agent_endpoints" rows ∧
        c'.inserts = c.inserts + items.length ∧
        ∀ k, c.inserts ≤ k → k < c.inserts + items.length → db.rejects k = none := by
  intro items
  induction items with
  | nil =>
    intro c c' u h
    simp only [insertEndpoints, Prod.mk.injEq] at h
    obtain ⟨-, rfl⟩ := h
    exact ⟨[], rfl, (appendRows_nil _ _).symm, rfl, fun k h1 h2 => by simp at h2; omega⟩
  | cons endpoint rest ih =>
    intro c c' u h
    unfold insertEndpoints at h
    split at h
    · simp at h
    · split at h
      · simp at h
      · rename_i id c1 hins
        obtain ⟨row, -, hs, -, hn, hr⟩ := insert_ok db c c1 _ _ id hins
        obtain ⟨rows, hlen, hst, hcnt, hrej⟩ := ih c1 c' u h
        refine ⟨row :: rows, by simp [hlen], ?_, ?_, ?_⟩
        · rw [hst, hs, appendRows_appendRows]; rfl
        · rw [hcnt, hn]; simp; omega
        · intro k h1 h2
          by_cases hk : k = c.inserts
          · rw [hk]; exact hr
          · apply hrej k
            · rw [hn]; omega
            · rw [hn]; simp at h2; omega

theorem insertForms_kept (rt : JsRuntime) (db : Database) (agent_id : Nat) (agent : JsVal) :
    ∀ (items : List JsVal) (m : FormIdMap) (c : Conn), c.inTx = true →
      (insertForms rt db agent_id agent items m c).2.committed = c.committed ∧
      (insertForms rt db agent_id agent items m c).2.inTx = true := by
  intro items
  induction items with
  | nil => intro m c h; exact ⟨rfl, h⟩
  | cons form rest ih =>
    intro m c h
    unfold insertForms
    split
    · exact ⟨rfl, h⟩
    · split
      · rename_i e c' hins
        exact insert_kept db c _ _ h _ hins
      · rename_i u c' hins
        have hk := insert_kept db c _ _ h _ hins
        exact ⟨(ih _ c' hk.2).1.trans hk.1, (ih _ c' hk.2).2⟩

theorem insertForms_ok (rt : JsRuntime) (db : Database) (agent_id : Nat) (agent : JsVal) :
    ∀ (items : List JsVal) (m m' : FormIdMap) (c c' : Conn),
      insertForms rt db agent_id agent items m c = (.ok m', c') →
      ∃ rows : List Row, rows.length = items.length ∧
        c'.store = appendRows c.store "agent_forms" rows ∧
        c'.inserts = c.inserts + items.length ∧
        (∀ k, c.inserts ≤ k → k < c.inserts + items.length → db.rejects k = none) ∧
        m' = filledMap rt items rows m ∧
        (∀ r ∈ rows, 0 < r.id) ∧
        ∀ (i : Nat) (f : JsVal) (r : Row), items[i]? = some f → rows[i]? = some r →
          r.col "form_name" = optMember f "form_name" := by
  intro items
  induction items with
  | nil =>
    intro m m' c c' h
    simp only [insertForms, Prod.mk.injEq, Except.ok.injEq] at h
    obtain ⟨rfl, rfl⟩ := h
    exact ⟨[], rfl, (appendRows_nil _ _).symm, rfl, fun k h1 h2 => by simp at h2; omega, rfl,
      by simp, by simp⟩
  | cons form rest ih =>
    intro m m' c c' h
    unfold insertForms at h
    split at h
    · simp at h
    · rename_i form_name hname
      split at h
      · simp at h
      · rename_i id c1 hins
        obtain ⟨row, hrow, hs, hid, hn, hr⟩ := insert_ok db c c1 _ _ id hins
        obtain ⟨rows, hlen, hst, hcnt, hrej, hmap, hpos, hcol⟩ := ih _ m' c1 c' h
        have hfn := member_ok _ _ _ hname
        refine ⟨row :: rows, by simp [hlen], ?_, ?_, ?_, ?_, ?_, ?_⟩
        · rw [hst, hs, appendRows_appendRows]; rfl
        · rw [hcnt, hn]; simp; omega
        · intro k h1 h2
          by_cases hk : k = c.inserts
          · rw [hk]; exact hr
          · apply hrej k
            · rw [hn]; omega
            · rw [hn]; simp at h2; omega
        · rw [hmap, hrow, hfn]; rfl
        · intro r hrmem
          rcases List.mem_cons.mp hrmem with h1 | h1
          · rw [h1, hrow, hid]; simp [nextId]
          · exact hpos r h1
        · intro i f r hi hri
          cases i with
          | zero =>
            simp only [List.getElem?_cons_zero, Option.some.injEq] at hi hri
            rw [← hri, ← hi, hrow, hfn]
            simp [Row.col, lookupField]
          | succ i =>
            simp only [List.getElem?_cons_succ] at hi hri
            exact hcol i f r hi hri

theorem insertWorkflows_kept (rt : JsRuntime) (db : Database) (agent_id : Nat)
    (m : FormIdMap) :
    ∀ (items : List JsVal) (c : Conn), c.inTx = true →
      (insertWorkflows rt db agent_id m items c).2.committed = c.committed ∧
      (insertWorkflows rt db agent_id m items c).2.inTx = true := by
  intro items
  induction items with
  | nil => intro c h; exact ⟨rfl, h⟩
  | cons workflow rest ih =>
    intro c h
    unfold insertWorkflows
    split
    · exact ⟨rfl, h⟩
    · split
      · exact ⟨rfl, h⟩
      · split
        · rename_i e c' hins
          exact insert_kept db c _ _ h _ hins
        · rename_i u c' hins
          have hk := insert_kept db c _ _ h _ hins
          exact ⟨(ih c' hk.2).1.trans hk.1, (ih c' hk.2).2⟩

theorem insertWorkflows_ok (rt : JsRuntime) (db : Database) (agent_id : Nat)
    (m : FormIdMap) :
    ∀ (items : List JsVal) (c c' : Conn) (u : Unit),
      insertWorkflows rt db agent_id m items c = (.ok u, c') →
      ∃ rows : List Row, rows.length = items.length ∧
        c'.store = appendRows c.store "agent_workflows" rows ∧
        c'.inserts = c.inserts + items.length ∧
        (∀ k, c.inserts ≤ k → k < c.inserts + items.length → db.rejects k = none) ∧
        ∀ (i : Nat) (w : JsVal) (r : Row), items[i]? = some w → rows[i]? = some r →
          ∃ stepsJson, rewriteSteps m (optMember w "steps_json") = .ok stepsJson ∧
            r.col "steps_json" = rt.jsonStringify stepsJson := by
  intro items
  induction items with
  | nil =>
    intro c c' u h
    simp only [insertWorkflows, Prod.mk.injEq] at h
    obtain ⟨-, rfl⟩ := h
    exact ⟨[], rfl, (appendRows_nil _ _).symm, rfl, fun k h1 h2 => by simp at h2; omega,
      by simp⟩
  | cons workflow rest ih =>
    intro c c' u h
    unfold insertWorkflows at h
    split at h
    · simp at h
    · rename_i steps_json hsteps
      split at h
      · simp at h
      · rename_i stepsJson hrew
        split at h
        · simp at h
        · rename_i id c1 hins
          obtain ⟨row, hrow, hs, -, hn, hr⟩ := insert_ok db c c1 _ _ id hins
          obtain ⟨rows, hlen, hst, hcnt, hrej, hcol⟩ := ih c1 c' u h
          have hfn := member_ok _ _ _ hsteps
          refine ⟨row :: rows, by simp [hlen], ?_, ?_, ?_, ?_⟩
          · rw [hst, hs, appendRows_appendRows]; rfl
          · rw [hcnt, hn]; simp; omega
          · intro k h1 h2
            by_cases hk : k = c.inserts
            · rw [hk]; exact hr
            · apply hrej k
              · rw [hn]; omega
              · rw [hn]; simp at h2; omega
          · intro i w r hi hri
            cases i with
            | zero =>
              simp only [List.getElem?_cons_zero, Option.some.injEq] at hi hri
              refine ⟨stepsJson, ?_, ?_⟩
              · rw [← hi, ← hfn]; exact hrew
              · rw [← hri, hrow]; simp [Row.col, lookupField]
            | succ i =>
              simp only [List.getElem?_cons_succ] at hi hri
              exact hcol i w r hi hri

theorem set_lookup_other (m : FormIdMap) (k name : String) (id : Nat) (h : k ≠ name) :
    (m.set k id).lookup name = m.lookup name := by
  unfold FormIdMap.set
  split
  · rfl
  · have : (name == k) = false := by simp [Ne.symm h]
    simp [List.lookup, this]

theorem set_lookup_same (m : FormIdMap) (name : String) (id : Nat) (h : name ≠ "__proto__") :
    (m.set name id).lookup name = some id := by
  simp [FormIdMap.set, h, List.lookup]

theorem filledMap_lookup_absent (rt : JsRuntime) (name : String) :
    ∀ (fs : List JsVal) (rs : List Row) (m : FormIdMap),
      (∀ f ∈ fs, propertyKey rt (optMember f "form_name") ≠ name) →
      (filledMap rt fs rs m).lookup name = m.lookup name := by
  intro fs
  induction fs with
  | nil => intro rs m _; rfl
  | cons f fs ih =>
    intro rs m h
    cases rs with
    | nil => rfl
    | cons r rs =>
      show (filledMap rt fs rs _).lookup name = _
      rw [ih rs _ (fun g hg => h g (List.mem_cons_of_mem _ hg))]
      exact set_lookup_other m _ name r.id (h f (List.mem_cons_self _ _))

theorem filledMap_lookup_last (rt : JsRuntime) (name : String) (hproto : name ≠ "__proto__") :
    ∀ (fs : List JsVal) (rs : List Row) (m : FormIdMap), rs.length = fs.length →
      (∃ f ∈ fs, propertyKey rt (optMember f "form_name") = name) →
      ∃ (j : Nat) (f : JsVal) (r : Row), fs[j]? = some f ∧ rs[j]? = some r ∧
        propertyKey rt (optMember f "form_name") = name ∧
        (∀ (j' : Nat) (f' : JsVal), j < j' → fs[j']? = some f' →
          propertyKey rt (optMember f' "form_name") ≠ name) ∧
        (filledMap rt fs rs m).lookup name = some r.id := by
  intro fs
  induction fs with
  | nil => intro rs m _ h; obtain ⟨f, hf, -⟩ := h; exact absurd hf (List.not_mem_nil _)
  | cons f fs ih =>
    intro rs m hlen hex
    cases rs with
    | nil => simp at hlen
    | cons r rs =>
      have hlen' : rs.length = fs.length := by simpa using hlen
      by_cases hlater : ∃ g ∈ fs, propertyKey rt (optMember g "form_name") = name
      · obtain ⟨j, g, r', hj, hr', hkey, hlast, hlook⟩ := ih rs
          (m.set (propertyKey rt (optMember f "form_name")) r.id) hlen' hlater
        refine ⟨j + 1, g, r', by simpa using hj, by simpa using hr', hkey, ?_, hlook⟩
        intro j' f' hjj' hf'
        cases j' with
        | zero => omega
        | succ j' =>
          simp only [List.getElem?_cons_succ] at hf'
          exact hlast j' f' (by omega) hf'
      · have hnone : ∀ g ∈ fs, propertyKey rt (optMember g "form_name") ≠ name :=
          fun g hg hk => hlater ⟨g, hg, hk⟩
        have hf : propertyKey rt (optMember f "form_name") = name := by
          obtain ⟨g, hg, hk⟩ := hex
          rcases List.mem_cons.mp hg with h1 | h1
          · rw [← h1]; exact hk
          · exact absurd hk (hnone g h1)
        refine ⟨0, f, r, by simp, by simp, hf, ?_, ?_⟩
        · intro j' f' hjj' hf'
          cases j' with
          | zero => omega
          | succ j' =>
            simp only [List.getElem?_cons_succ] at hf'
            exact hnone f' (List.getElem?_mem hf')
        · show (filledMap rt fs rs _).lookup name = _
          rw [filledMap_lookup_absent rt name fs rs _ hnone, hf]
          exact set_lookup_same m name r.id hproto

theorem rewriteSteps_of_name (m : FormIdMap) (fields : List (String × JsVal)) (name : String)
    (id : Nat) (hfid : lookupField "form_id" fields = .str name) (hne : name ≠ "")
    (hlook : m.lookup name = some id) (hid : 0 < id) :
    rewriteSteps m (.obj fields) = .ok (.obj (setField "form_id" (.num id) fields)) := by
  have hget : m.get name = .num id := by simp [FormIdMap.get, hlook]
  have ht : truthy (.num (id : ℚ)) = true := truthy_num_nat id hid
  simp [rewriteSteps, isObjectType, member, optMember, hfid, truthy, hne, hget]
  intro h; omega

theorem lookupField_setField (k : String) (v : JsVal) :
    ∀ fields : List (String × JsVal), lookupField k (setField k v fields) = v := by
  intro fields
  induction fields with
  | nil => simp [setField, lookupField]
  | cons p rest ih =>
    obtain ⟨k', v'⟩ := p
    by_cases h : k' = k
    · simp [setField, lookupField, h]
    · simp [setField, lookupField, h, ih]

theorem utf16Length_eq_zero (s : String) (h : utf16Length s = 0) : s = "" := by
  have hd : s.data = [] := by
    cases hs : s.data with
    | nil => rfl
    | cons ch rest =>
      unfold utf16Length at h
      rw [hs] at h
      simp only [List.map_cons, List.sum_cons] at h
      split at h <;> omega
  cases s
  simp_all

theorem loopItems_ok (rt : JsRuntime) (xs : JsVal) (items : List JsVal)
    (h : loopItems rt xs = .ok items) : items = providedItems xs := by
  unfold loopItems at h
  split at h
  · cases xs <;> simp_all [iterate, providedItems]
  · rename_i hg
    simp only [Except.ok.injEq] at h
    subst h
    cases xs with
    | arr l =>
      simp [truthy, gtZero, toNumber, JsNumber.gtZero, optMember] at hg
      simp [providedItems, hg]
    | str s =>
      simp only [Bool.and_eq_true, not_and, Bool.not_eq_true] at hg
      by_cases hs : s = ""
      · subst hs; rfl
      · have h2 := hg (by simp [truthy, hs])
        simp [gtZero, toNumber, JsNumber.gtZero, optMember] at h2
        exact absurd (utf16Length_eq_zero s h2) hs
    | _ => rfl

theorem createFullTry_cases (rt : JsRuntime) (db : Database) (store : Store) (body : JsVal)
    (r : Except String Response × Conn)
    (hr : createFullTry rt db body (getConnection store) = r) :
    (∃ e, r.1 = .error e ∧ r.2.committed = store) ∨
    (∃ agent, member body "agent" = .ok agent ∧ AgentFieldsMissing agent ∧
      r.1 = .ok ⟨400, errorBody "Missing required agent fields: agent_uuid, name"⟩ ∧
      r.2 = getConnection store) ∨
    (∃ (resp : Response) (agentRow : Row) (menuRows formRows workflowRows endpointRows : List Row),
      r.1 = .ok resp ∧ resp.status = 200 ∧ r.2.inTx = false ∧
      Created rt db body store r.2.committed agentRow menuRows formRows workflowRows
        endpointRows) := by
  unfold createFullTry at hr
  split at hr
  · left; subst hr; exact ⟨_, rfl, rfl⟩
  · rename_i agent hagent
    split at hr
    · rename_i hmiss
      right; left
      subst hr
      refine ⟨agent, hagent, ?_, rfl, rfl⟩
      simp only [Bool.or_eq_true, Bool.not_eq_true', or_assoc] at hmiss
      exact hmiss
    · have hc1 : (beginTransaction (getConnection store)).inTx = true := rfl
      dsimp only at hr
      split at hr
      · rename_i e c2 hins
        left; subst hr
        exact ⟨e, rfl, (insert_kept db _ _ _ hc1 _ hins).1⟩
      · rename_i agent_id c2 hins
        have hk2 := insert_kept db _ _ _ hc1 _ hins
        obtain ⟨agentRow, -, hs2, -, hn2, hr2⟩ := insert_ok db _ c2 _ _ agent_id hins
        split at hr
        · left; subst hr; exact ⟨_, rfl, hk2.1⟩
        · rename_i menuItems hmenus
          have hk3 := insertMenus_kept db agent_id menuItems c2 hk2.2
          split at hr
          · rename_i e c3 hloop
            left; subst hr; rw [hloop] at hk3; exact ⟨e, rfl, hk3.1.trans hk2.1⟩
          · rename_i u3 c3 hloop
            rw [hloop] at hk3
            obtain ⟨menuRows, hl3, hs3, hn3, hr3⟩ := insertMenus_ok db agent_id _ _ _ _ hloop
            split at hr
            · left; subst hr; exact ⟨_, rfl, hk3.1.trans hk2.1⟩
            · rename_i formItems hforms
              have hk4 := insertForms_kept rt db agent_id agent formItems [] c3 hk3.2
              split at hr
              · rename_i e c4 hloop4
                left; subst hr; rw [hloop4] at hk4
                exact ⟨e, rfl, hk4.1.trans (hk3.1.trans hk2.1)⟩
              · rename_i m c4 hloop4
                rw [hloop4] at hk4
                obtain ⟨formRows, hl4, hs4, hn4, hr4, hm4, hpos4, hcol4⟩ :=
                  insertForms_ok rt db agent_id agent _ _ _ _ _ hloop4
                split at hr
                · left; subst hr; exact ⟨_, rfl, hk4.1.trans (hk3.1.trans hk2.1)⟩
                · rename_i wfItems hwfs
                  have hk5 := insertWorkflows_kept rt db agent_id m wfItems c4 hk4.2
                  split at hr
                  · rename_i e c5 hloop5
                    left; subst hr; rw [hloop5] at hk5
                    exact ⟨e, rfl, hk5.1.trans (hk4.1.trans (hk3.1.trans hk2.1))⟩
                  · rename_i u5 c5 hloop5
                    rw [hloop5] at hk5
                    obtain ⟨wfRows, hl5, hs5, hn5, hr5, hcol5⟩ :=
                      insertWorkflows_ok rt db agent_id m _ _ _ _ hloop5
                    split at hr
                    · left; subst hr
                      exact ⟨_, rfl, hk5.1.trans (hk4.1.trans (hk3.1.trans hk2.1))⟩
                    · rename_i epItems heps
                      have hk6 := insertEndpoints_kept rt db agent_id epItems c5 hk5.2
                      split at hr
                      · rename_i e c6 hloop6
                        left; subst hr; rw [hloop6] at hk6
                        exact ⟨e, rfl,
                          hk6.1.trans (hk5.1.trans (hk4.1.trans (hk3.1.trans hk2.1)))⟩
                      · rename_i u6 c6 hloop6
                        obtain ⟨epRows, hl6, hs6, hn6, hr6⟩ :=
                          insertEndpoints_ok rt db agent_id _ _ _ _ hloop6
                        right; right
                        subst hr
                        have e1 := loopItems_ok rt _ _ hmenus
                        have e2 := loopItems_ok rt _ _ hforms
                        have e3 := loopItems_ok rt _ _ hwfs
                        have e4 := loopItems_ok rt _ _ heps
                        subst e1 e2 e3 e4
                        have hi1 : (beginTransaction (getConnection store)).inserts = 0 := rfl
                        refine ⟨_, agentRow, menuRows, formRows, wfRows, epRows, rfl, rfl, rfl,
                          ?_, hl3, hl4, hl5, hl6, ?_, hpos4, hcol4, ?_⟩
                        · show c6.store = _
                          rw [hs6, hs5, hs4, hs3, hs2]; rfl
                        · intro k hk
                          rw [hi1] at hn2 hr2
                          by_cases h1 : k < 1
                          · have : k = 0 := by omega
                            rw [this]; exact hr2
                          · by_cases h2 : k < 1 + menuRows.length
                            · exact hr3 k (by omega) (by omega)
                            · by_cases h3 : k < 1 + menuRows.length + formRows.length
                              · exact hr4 k (by omega) (by omega)
                              · by_cases h4 : k < 1 + menuRows.length + formRows.length +
                                    wfRows.length
                                · exact hr5 k (by omega) (by omega)
                                · exact hr6 k (by omega) (by omega)
                        · intro i w r hi hri
                          rw [← hm4]
                          exact hcol5 i w r hi hri

theorem created_tables (rt : JsRuntime) (db : Database) (body : JsVal) (before after : Store)
    (agentRow : Row) (menuRows formRows workflowRows endpointRows : List Row)
    (h : Created rt db body before after agentRow menuRows formRows workflowRows
      endpointRows) :
    after "agents" = before "agents" ++ [agentRow] ∧
    after "agent_menus" = before "agent_menus" ++ menuRows ∧
    after "agent_forms" = before "agent_forms" ++ formRows ∧
    after "agent_workflows" = before "agent_workflows" ++ workflowRows ∧
    after "agent_endpoints" = before "agent_endpoints" ++ endpointRows ∧
    ∀ t, t ≠ "agents" → t ≠ "agent_menus" → t ≠ "agent_forms" → t ≠ "agent_workflows" →
      t ≠ "agent_endpoints" → after t = before t := by
  rw [h.store_eq]
  refine ⟨?_, ?_, ?_, ?_, ?_, ?_⟩
  · simp [appendRows]
  · simp [appendRows]
  · simp [appendRows]
  · simp [appendRows]
  · simp [appendRows]
  · intro t h1 h2 h3 h4 h5
    simp [appendRows, h1, h2, h3, h4, h5]

theorem createFull_cases (rt : JsRuntime) (db : Database) (store : Store) (body : JsVal) :
    ((createFull rt db store body).response.status = 500 ∧
      (createFull rt db store body).store = store) ∨
    ((createFull rt db store body).response.status = 400 ∧
      (∃ agent, member body "agent" = .ok agent ∧ AgentFieldsMissing agent) ∧
      (createFull rt db store body).store = store) ∨
    ((createFull rt db store body).response.status = 200 ∧
      ∃ (agentRow : Row) (menuRows formRows workflowRows endpointRows : List Row),
        Created rt db body store (createFull rt db store body).store agentRow menuRows
          formRows workflowRows endpointRows) := by
  rcases createFullTry_cases rt db store body _ rfl with
    ⟨e, h1, h2⟩ | ⟨agent, hm, hmiss, h1, h2⟩ | ⟨resp, a, ms, fs, ws, es, h1, hst, htx, hc⟩
  · left
    simp [createFull, finish, h1, rollback, release, h2]
  · right; left
    refine ⟨?_, ⟨agent, hm, hmiss⟩, ?_⟩
    · simp [createFull, finish, h1]
    · simp only [createFull, finish, h1, h2, release]
      rfl
  · right; right
    refine ⟨?_, a, ms, fs, ws, es, ?_⟩
    · simp [createFull, finish, h1, hst]
    · have : (createFull rt db store body).store =
          (createFullTry rt db body (getConnection store)).2.committed := by
        simp [createFull, finish, h1, release]
      rw [this]; exact hc

/-- C10. Full agent creation is all-or-nothing. Either the response is the success (200) and
the store gained exactly one row of `agents` and one row per provided menu, form, workflow
and endpoint, no other table changed and no `INSERT` was rejected; or the response is a
failure, 400 when `agent`, `agent_uuid` or `name` is missing (or falsy) and 500 otherwise,
and every table of the store is as before. -/
theorem createFull_all_or_nothing (rt : JsRuntime) (db : Database) (store : Store)
    (body : JsVal) :
    ((createFull rt db store body).response.status = 200 ∧
      ∃ (agentRow : Row) (menuRows formRows workflowRows endpointRows : List Row),
        (createFull rt db store body).store "agents" = store "agents" ++ [agentRow] ∧
        (createFull rt db store body).store "agent_menus" =
          store "agent_menus" ++ menuRows ∧
        menuRows.length = (providedItems (optMember body "menus")).length ∧
        (createFull rt db store body).store "agent_forms" =
          store "agent_forms" ++ formRows ∧
        formRows.length = (providedItems (optMember body "forms")).length ∧
        (createFull rt db store body).store "agent_workflows" =
          store "agent_workflows" ++ workflowRows ∧
        workflowRows.length = (providedItems (optMember body "workflows")).length ∧
        (createFull rt db store body).store "agent_endpoints" =
          store "agent_endpoints" ++ endpointRows ∧
        endpointRows.length = (providedItems (optMember body "endpoints")).length ∧
        (∀ t, t ≠ "agents" → t ≠ "agent_menus" → t ≠ "agent_forms" →
          t ≠ "agent_workflows" → t ≠ "agent_endpoints" →
          (createFull rt db store body).store t = store t) ∧
        ∀ k, k < 1 + menuRows.length + formRows.length + workflowRows.length +
          endpointRows.length → db.rejects k = none) ∨
    ((((createFull rt db store body).response.status = 400 ∧
        ∃ agent, member body "agent" = .ok agent ∧ AgentFieldsMissing agent) ∨
      (createFull rt db store body).response.status = 500) ∧
      (createFull rt db store body).store = store) := by
  rcases createFull_cases rt db store body with
    ⟨h1, h2⟩ | ⟨h1, hm, h2⟩ | ⟨h1, a, ms, fs, ws, es, hc⟩
  · right; exact ⟨Or.inr h1, h2⟩
  · right; exact ⟨Or.inl ⟨h1, hm⟩, h2⟩
  · left
    obtain ⟨t1, t2, t3, t4, t5, t6⟩ := created_tables rt db body _ _ a ms fs ws es hc
    exact ⟨h1, a, ms, fs, ws, es, t1, t2, hc.menus_length, t3, hc.forms_length, t4,
      hc.workflows_length, t5, hc.endpoints_length, t6, hc.no_reject⟩

/-- C9, counterexample. A form whose `form_name` is the empty string and a workflow whose
steps have `form_id: ''`: the request succeeds, the form gets the key 4, and the steps
persisted for the workflow still hold the name `''` as `form_id`, not the key. The same
happens for the name `'__proto__'`, which `formIdMap` cannot hold as a property of its own:
the steps then hold the object `Object.prototype` as `form_id`. -/
theorem createFull_empty_form_name_not_rewritten :
    (createFull demoRuntime demoDb demoStore (namedFormBody "")).response.status = 200 ∧
    (createFull demoRuntime demoDb demoStore (namedFormBody "")).store "agent_forms" =
      demoStore "agent_forms" ++
        [⟨4, [("agent_id", .num 2), ("form_name", .str ""), ("description", .str ""),
              ("form_schema", .obj []), ("created_by_user_id", .undefined),
              ("firm_id", .undefined)]⟩] ∧
    (createFull demoRuntime demoDb demoStore (namedFormBody "")).store "agent_workflows" =
      [⟨1, [("agent_id", .num 2), ("workflow_name", .str "Review"), ("description", .str ""),
            ("steps_json", demoRuntime.jsonStringify (.obj [("form_id", .str "")])),
            ("trigger_event", .str "manual")]⟩] ∧
    (createFull demoRuntime demoDb demoStore (namedFormBody "__proto__")).store
        "agent_workflows" =
      [⟨1, [("agent_id", .num 2), ("workflow_name", .str "Review"), ("description", .str ""),
            ("steps_json",
              demoRuntime.jsonStringify (.obj [("form_id", .host "__proto__")])),
            ("trigger_event", .str "manual")]⟩] :=
  ⟨rfl, rfl, rfl, rfl⟩

/-- C9, amended. In a successful `create-full` request with the forms `formItems` and the
workflows `workflowItems`, let the steps of the workflow at position `k` be an object whose
`form_id` is a string `name` that is not empty, is not `'__proto__'` and is the `form_name`
of one of the forms. Then the steps persisted for that workflow are the JSON of the steps
with `form_id` replaced by the number `fr.id`, where `fr` is the row inserted for the last
form whose name, as a property key, is `name`; `fr.id` is positive and is not the name. -/
theorem createFull_rewrites_form_name (rt : JsRuntime) (db : Database) (store : Store)
    (body : JsVal) (formItems workflowItems : List JsVal) (k : Nat) (w : JsVal)
    (fields : List (String × JsVal)) (name : String)
    (hforms : optMember body "forms" = .arr formItems)
    (hworkflows : optMember body "workflows" = .arr workflowItems)
    (hw : workflowItems[k]? = some w)
    (hsteps : optMember w "steps_json" = .obj fields)
    (hfid : lookupField "form_id" fields = .str name)
    (hname : ∃ f ∈ formItems, optMember f "form_name" = .str name)
    (hne : name ≠ "") (hproto : name ≠ "__proto__")
    (hok : (createFull rt db store body).response.status = 200) :
    ∃ (formRows workflowRows : List Row) (j : Nat) (f : JsVal) (fr wr : Row),
      (createFull rt db store body).store "agent_forms" = store "agent_forms" ++ formRows ∧
      formRows.length = formItems.length ∧
      (createFull rt db store body).store "agent_workflows" =
        store "agent_workflows" ++ workflowRows ∧
      workflowRows.length = workflowItems.length ∧
      formItems[j]? = some f ∧ formRows[j]? = some fr ∧
      propertyKey rt (optMember f "form_name") = name ∧
      fr.col "form_name" = optMember f "form_name" ∧
      (∀ (j' : Nat) (f' : JsVal), j < j' → formItems[j']? = some f' →
        propertyKey rt (optMember f' "form_name") ≠ name) ∧
      0 < fr.id ∧
      workflowRows[k]? = some wr ∧
      wr.col "steps_json" =
        rt.jsonStringify (.obj (setField "form_id" (.num fr.id) fields)) ∧
      lookupField "form_id" (setField "form_id" (.num fr.id) fields) = .num fr.id := by
  rcases createFull_cases rt db store body with
    ⟨h1, -⟩ | ⟨h1, -, -⟩ | ⟨-, a, ms, fs, ws, es, hc⟩
  · rw [h1] at hok; exact absurd hok (by decide)
  · rw [h1] at hok; exact absurd hok (by decide)
  · obtain ⟨-, -, t3, t4, -, -⟩ := created_tables rt db body _ _ a ms fs ws es hc
    have hfl := hc.forms_length
    have hwl := hc.workflows_length
    have hfn := hc.form_names
    have hws := hc.workflow_steps
    rw [hforms] at hfl hfn hws
    rw [hworkflows] at hwl hws
    simp only [providedItems] at hfl hwl hfn hws
    have hkey : ∃ f ∈ formItems, propertyKey rt (optMember f "form_name") = name := by
      obtain ⟨f, hf, hfname⟩ := hname
      exact ⟨f, hf, by rw [hfname]; rfl⟩
    obtain ⟨j, f, fr, hj, hfr, hjkey, hlast, hlook⟩ :=
      filledMap_lookup_last rt name hproto formItems fs [] hfl hkey
    have hpos : 0 < fr.id := hc.form_ids fr (List.getElem?_mem hfr)
    have hklt : k < ws.length := by
      rw [hwl]
      exact (List.getElem?_eq_some.mp hw).1
    obtain ⟨wr, hwr⟩ : ∃ wr, ws[k]? = some wr := ⟨ws[k], List.getElem?_eq_getElem hklt⟩
    obtain ⟨stepsJson, hrew, hcol⟩ := hws k w wr hw hwr
    rw [hsteps, rewriteSteps_of_name _ fields name fr.id hfid hne hlook hpos] at hrew
    simp only [Except.ok.injEq] at hrew
    refine ⟨fs, ws, j, f, fr, wr, t3, hfl, t4, hwl, hj, hfr, hjkey, hfn j f fr hj hfr, hlast,
      hpos, hwr, ?_, lookupField_setField _ _ _⟩
    rw [hcol, ← hrew]

/-- Witness of the amended C9: the workflow of `demoCreateBody` refers to the form "intake",
the first of two forms; the form rows get the keys 4 and 5 and the steps persisted hold 4. -/
theorem createFull_rewrites_form_name_witness :
    ∃ (formRows workflowRows : List Row) (j : Nat) (f : JsVal) (fr wr : Row),
      (createFull demoRuntime demoDb demoStore demoCreateBody).store "agent_forms" =
        demoStore "agent_forms" ++ formRows ∧
      formRows.length = 2 ∧
      (createFull demoRuntime demoDb demoStore demoCreateBody).store "agent_workflows" =
        demoStore "agent_workflows" ++ workflowRows ∧
      workflowRows.length = 1 ∧
      [JsVal.obj [("form_name", .str "intake")], .obj [("form_name", .str "exit")]][j]? =
        some f ∧
      formRows[j]? = some fr ∧
      propertyKey demoRuntime (optMember f "form_name") = "intake" ∧
      fr.col "form_name" = optMember f "form_name" ∧
      (∀ (j' : Nat) (f' : JsVal), j < j' →
        [JsVal.obj [("form_name", .str "intake")], .obj [("form_name", .str "exit")]][j']? =
          some f' →
        propertyKey demoRuntime (optMember f' "form_name") ≠ "intake") ∧
      0 < fr.id ∧
      workflowRows[0]? = some wr ∧
      wr.col "steps_json" =
        demoRuntime.jsonStringify
          (.obj (setField "form_id" (.num fr.id) [("form_id", .str "intake")])) ∧
      lookupField "form_id" (setField "form_id" (.num fr.id) [("form_id", .str "intake")]) =
        .num fr.id :=
  createFull_rewrites_form_name demoRuntime demoDb demoStore demoCreateBody
    [.obj [("form_name", .str "intake")], .obj [("form_name", .str "exit")]]
    [.obj [("workflow_name", .str "Intake Review"),
           ("steps_json", .obj [("form_id", .str "intake")])]]
    0 (.obj [("workflow_name", .str "Intake Review"),
             ("steps_json", .obj [("form_id", .str "intake")])])
    [("form_id", .str "intake")] "intake" rfl rfl rfl rfl rfl
    ⟨.obj [("form_name", .str "intake")], by simp, rfl⟩ (by decide) (by decide) rfl

/-! ## Theorems: the dynamic form and the agent page -/

/-- C15. A field of type 'select': when `options` is the list `L` the rendered select has
exactly `1 + length L` options, first the placeholder (empty value, label 'Select...'), then
at position `i + 1` the option whose value and label are `L[i]`; when `options` is absent the
placeholder is the only option. -/
theorem renderField_select_options (rt : JsRuntime) (formData : FormData)
    (fields : List (String × JsVal)) :
    lookupField "type" fields = .str "select" →
    (∀ L : List JsVal, lookupField "options" fields = .arr L →
      ∃ options : List OptionElement,
        renderField rt formData (.obj fields) =
          .ok (.select (lookupField "name" fields)
            (jsOr (readField formData (propertyKey rt (lookupField "name" fields))) (.str ""))
            (lookupField "required" fields) options) ∧
        options.length = 1 + L.length ∧
        options[0]? = some selectPlaceholder ∧
        ∀ (i : Nat) (opt : JsVal), L[i]? = some opt →
          options[i + 1]? = some { key := some i, value := opt, label := opt }) ∧
    (lookupField "options" fields = .undefined →
      renderField rt formData (.obj fields) =
        .ok (.select (lookupField "name" fields)
          (jsOr (readField formData (propertyKey rt (lookupField "name" fields))) (.str ""))
          (lookupField "required" fields) [selectPlaceholder])) := by
  intro htype
  constructor
  · intro L hL
    refine ⟨selectPlaceholder ::
      L.enum.map (fun p => { key := some p.1, value := p.2, label := p.2 }), ?_, ?_, ?_, ?_⟩
    · simp [renderField, member, optMember, htype, hL, renderOptions, selectPlaceholder]
    · simp; omega
    · simp
    · intro i opt hi
      simp [List.getElem?_enum, hi]
  · intro hnone
    simp [renderField, member, optMember, htype, hnone, renderOptions, selectPlaceholder]

/-- Witness of C15: a select with the options 'a' and 'b' renders the placeholder, then 'a',
then 'b'. -/
theorem renderField_select_options_witness :
    ∃ options : List OptionElement,
      renderField demoRuntime []
          (.obj [("name", .str "colour"), ("type", .str "select"),
                 ("options", .arr [.str "a", .str "b"])]) =
        .ok (.select (.str "colour") (.str "") .undefined options) ∧
      options.length = 1 + 2 ∧
      options[0]? = some selectPlaceholder ∧
      ∀ (i : Nat) (opt : JsVal), [JsVal.str "a", JsVal.str "b"][i]? = some opt →
        options[i + 1]? = some { key := some i, value := opt, label := opt } :=
  (renderField_select_options demoRuntime []
    [("name", .str "colour"), ("type", .str "select"),
     ("options", .arr [.str "a", .str "b"])] rfl).1 [.str "a", .str "b"] rfl

theorem ownField_setField_same (k : String) (v : JsVal) :
    ∀ m : List (String × JsVal), ownField k (setField k v m) = some v := by
  intro m
  induction m with
  | nil => simp [setField, ownField]
  | cons p rest ih =>
    obtain ⟨k1, v1⟩ := p
    by_cases h : k1 = k
    · simp [setField, ownField, h]
    · simp [setField, ownField, h, ih]

theorem ownField_setField_other (k k2 : String) (v : JsVal) (hne : k2 ≠ k) :
    ∀ m : List (String × JsVal), ownField k2 (setField k v m) = ownField k2 m := by
  intro m
  induction m with
  | nil => simp [setField, ownField, Ne.symm hne]
  | cons p rest ih =>
    obtain ⟨k1, v1⟩ := p
    by_cases h : k1 = k
    · subst h
      simp [setField, ownField, Ne.symm hne]
    · by_cases h2 : k1 = k2
      · subst h2
        simp [setField, ownField, h]
      · simp [setField, ownField, h, h2, ih]

theorem afterChanges_untouched (k : String) :
    ∀ (changes : List (String × JsVal)) (initial : FormData),
      (∀ c ∈ changes, c.1 ≠ k) →
      ownField k (afterChanges initial changes) = ownField k initial := by
  intro changes
  induction changes with
  | nil => intro initial _; rfl
  | cons c rest ih =>
    intro initial h
    show ownField k (afterChanges (handleChange initial c.1 c.2) rest) = _
    rw [ih _ (fun d hd => h d (List.mem_cons_of_mem _ hd))]
    exact ownField_setField_other c.1 k c.2 (Ne.symm (h c (List.mem_cons_self _ _))) initial

theorem afterChanges_append (initial : FormData) (xs ys : List (String × JsVal)) :
    afterChanges initial (xs ++ ys) = afterChanges (afterChanges initial xs) ys := by
  simp [afterChanges, List.foldl_append]

/-- C16. After `handleChange(k, v)` the mapping has `k ↦ v` and every other field name has
the value, or the absence, it had before. Hence after any sequence of changes the mapping
that `handleSubmit` submits holds, for a field changed in the sequence, the value of the last
change to it, and for a field never changed what the initial mapping held. -/
theorem handleChange_frame (m : FormData) (k : String) (v : JsVal) :
    ownField k (handleChange m k v) = some v ∧
    (∀ k2, k2 ≠ k → ownField k2 (handleChange m k v) = ownField k2 m) ∧
    (∀ (initial : FormData) (before after : List (String × JsVal)),
      (∀ c ∈ after, c.1 ≠ k) →
      handleSubmit (afterChanges initial (before ++ (k, v) :: after)) =
        .obj (afterChanges initial (before ++ (k, v) :: after)) ∧
      ownField k (afterChanges initial (before ++ (k, v) :: after)) = some v) ∧
    (∀ (initial : FormData) (changes : List (String × JsVal)),
      (∀ c ∈ changes, c.1 ≠ k) →
      ownField k (afterChanges initial changes) = ownField k initial) := by
  refine ⟨ownField_setField_same k v m, fun k2 h => ownField_setField_other k k2 v h m, ?_,
    fun initial changes h => afterChanges_untouched k changes initial h⟩
  intro initial before after hafter
  refine ⟨rfl, ?_⟩
  rw [afterChanges_append]
  show ownField k (afterChanges (handleChange _ k v) after) = _
  rw [afterChanges_untouched k after _ hafter]
  exact ownField_setField_same k v _

theorem append_active_ne (base : String) : base ++ "" ≠ base ++ "active" := by
  intro h
  have := congrArg String.length h
  simp only [String.length_append, add_right_inj] at this
  exact absurd this (by decide)

theorem renderCategory_shown (menus : List Menu) (type base : String) (i : Nat) :
    CategoryShown menus type base i (renderCategory menus type base i) := by
  refine ⟨by simp [renderCategory], ?_, ?_⟩
  · intro j item hj
    simp only [renderCategory, List.getElem?_map, List.getElem?_enum, Option.map_map] at hj
    cases hm : (menus.filter (fun m => decide (m.menu_type = type)))[j]? with
    | none => simp [hm] at hj
    | some m =>
      simp only [hm, Option.map_some', Function.comp_apply, Option.some.injEq] at hj
      subst hj
      refine ⟨rfl, rfl, ?_⟩
      by_cases hij : i = j
      · simp [hij]
      · simp only [hij, if_false]
        constructor
        · intro h; exact absurd h (append_active_ne base)
        · intro h; exact absurd h.symm hij
  · intro hlen item hitem
    obtain ⟨j, hj⟩ := List.mem_iff_getElem?.mp hitem
    have hjlt : j < (renderCategory menus type base i).length :=
      (List.getElem?_eq_some.mp hj).1
    simp only [renderCategory, List.length_map, List.enum_length] at hjlt
    simp only [renderCategory, List.getElem?_map, List.getElem?_enum, Option.map_map] at hj
    cases hm : (menus.filter (fun m => decide (m.menu_type = type)))[j]? with
    | none => simp [hm] at hj
    | some m =>
      simp only [hm, Option.map_some', Function.comp_apply, Option.some.injEq] at hj
      subst hj
      have hij : i ≠ j := by omega
      simp only [hij, if_false]
      exact append_active_ne base

/-- C17. Once the agent is loaded, each of the seven menu categories shows its own filtered
list, and the item at position `j` is rendered active if and only if `j` is the current
step `i`, so a category with `i` or fewer items has no active item; whatever the menus are,
the main content is the workflow step of `workflows[i]` when `i` is less than the number of
workflows and nothing otherwise. -/
theorem renderAgentComponent_navigation (agentUuid : String) (userId firmId : JsVal)
    (st : AgentState) (agent : AgentData)
    (hloaded : st.loading = false) (herror : truthy st.error = false)
    (hagent : st.agent = some agent) :
    ∃ page : AgentPage,
      renderAgentComponent agentUuid userId firmId st = .page page ∧
      CategoryShown st.menus "header" "" st.currentStep page.header ∧
      CategoryShown st.menus "sidebar" "" st.currentStep page.sidebar ∧
      CategoryShown st.menus "footer" "" st.currentStep page.footer ∧
      CategoryShown st.menus "floating" "floating-button " st.currentStep page.floating ∧
      CategoryShown st.menus "dashboard" "dashboard-card " st.currentStep page.dashboard ∧
      CategoryShown st.menus "chat" "chat-button " st.currentStep page.chat ∧
      CategoryShown st.menus "recommendation" "recommendation-item " st.currentStep
        page.recommendation ∧
      (∀ w, st.workflows[st.currentStep]? = some w →
        page.main = some
          { workflow := w.toWorkflow, agentUuid := agentUuid, userId := userId,
            firmId := firmId, forms := agent.forms }) ∧
      (st.currentStep < st.workflows.length → ∃ w, st.workflows[st.currentStep]? = some w) ∧
      (st.workflows.length ≤ st.currentStep → page.main = none) := by
  refine ⟨_, by simp [renderAgentComponent, hloaded, herror, hagent]; rfl,
    renderCategory_shown _ _ _ _, renderCategory_shown _ _ _ _, renderCategory_shown _ _ _ _,
    renderCategory_shown _ _ _ _, renderCategory_shown _ _ _ _, renderCategory_shown _ _ _ _,
    renderCategory_shown _ _ _ _, ?_, ?_, ?_⟩
  · intro w hw
    simp [hw]
  · intro h
    exact ⟨st.workflows[st.currentStep], List.getElem?_eq_getElem h⟩
  · intro h
    simp [List.getElem?_eq_none h]

/-- Witness of C17: at step 1 the second header menu is active, the only sidebar menu is not,
and there is no workflow at position 1, so the main content is empty. -/
theorem renderAgentComponent_navigation_witness :
    ∃ page : AgentPage,
      renderAgentComponent "a-1" (.num 1) (.num 5) demoAgentState = .page page ∧
      CategoryShown demoAgentState.menus "header" "" 1 page.header ∧
      CategoryShown demoAgentState.menus "sidebar" "" 1 page.sidebar ∧
      page.main = none := by
  obtain ⟨page, h1, h2, h3, -, -, -, -, -, -, -, h4⟩ :=
    renderAgentComponent_navigation "a-1" (.num 1) (.num 5) demoAgentState
      { name := .str "Intake", description := .str "", agent_type := .str "general",
        forms := some [⟨3, "intake"⟩] } rfl rfl rfl
  exact ⟨page, h1, h2, h3, h4 (by decide)⟩

/-! ## Theorems: the queries -/

theorem orderBy_perm (le : Row → Row → Bool) (rows : List Row) :
    (orderBy le rows).Perm rows :=
  List.perm_insertionSort _ rows

theorem mem_orderBy (le : Row → Row → Bool) (rows : List Row) (r : Row) :
    r ∈ orderBy le rows ↔ r ∈ rows :=
  (orderBy_perm le rows).mem_iff

theorem orderBy_sorted (le : Row → Row → Bool)
    (htotal : ∀ a b, le a b = true ∨ le b a = true)
    (htrans : ∀ a b c, le a b = true → le b c = true → le a c = true) (rows : List Row) :
    (orderBy le rows).Pairwise (fun a b => le a b = true) := by
  haveI : IsTotal Row (fun a b => le a b = true) := ⟨htotal⟩
  haveI : IsTrans Row (fun a b => le a b = true) := ⟨htrans⟩
  exact List.sorted_insertionSort _ rows

theorem rowLe_total (env : QueryEnv) (h : OrderedColumns env) :
    ∀ (keys : List (Row → JsVal)) (a b : Row),
      rowLe env keys a b = true ∨ rowLe env keys b a = true := by
  intro keys
  induction keys with
  | nil => intro a b; exact Or.inl rfl
  | cons key keys ih =>
    intro a b
    simp only [rowLe, Bool.and_eq_true, Bool.or_eq_true, Bool.not_eq_true']
    cases hab : env.colLe (key a) (key b) <;> cases hba : env.colLe (key b) (key a)
    · rcases h.total (key a) (key b) with h1 | h1
      · rw [hab] at h1; exact absurd h1 (by decide)
      · rw [hba] at h1; exact absurd h1 (by decide)
    · exact Or.inr ⟨rfl, Or.inl rfl⟩
    · exact Or.inl ⟨rfl, Or.inl rfl⟩
    · rcases ih a b with h1 | h1
      · exact Or.inl ⟨rfl, Or.inr h1⟩
      · exact Or.inr ⟨rfl, Or.inr h1⟩

theorem rowLe_trans (env : QueryEnv) (h : OrderedColumns env) :
    ∀ (keys : List (Row → JsVal)) (a b c : Row),
      rowLe env keys a b = true → rowLe env keys b c = true → rowLe env keys a c = true := by
  intro keys
  induction keys with
  | nil => intro a b c _ _; rfl
  | cons key keys ih =>
    intro a b c hab hbc
    simp only [rowLe, Bool.and_eq_true, Bool.or_eq_true, Bool.not_eq_true'] at hab hbc ⊢
    obtain ⟨h1, h2⟩ := hab
    obtain ⟨h3, h4⟩ := hbc
    refine ⟨h.trans _ _ _ h1 h3, ?_⟩
    cases hca : env.colLe (key c) (key a)
    · exact Or.inl rfl
    · right
      have hba : env.colLe (key b) (key a) = true := h.trans _ _ _ h3 hca
      have hcb : env.colLe (key c) (key b) = true := h.trans _ _ _ hca h1
      rcases h2 with h2 | h2
      · rw [hba] at h2; exact absurd h2 (by decide)
      · rcases h4 with h4 | h4
        · rw [hcb] at h4; exact absurd h4 (by decide)
        · exact ih a b c h2 h4

theorem mem_joinAgents (store : Store) (table uuid : String) (r : Row) :
    r ∈ joinAgents store table uuid ↔ r ∈ store table ∧ BelongsToAgent store uuid r := by
  simp only [joinAgents, List.mem_flatMap, List.mem_map, List.mem_filter, Bool.and_eq_true,
    colEqKey_eq_true_iff, colEqStr_eq_true_iff, BelongsToAgent]
  constructor
  · rintro ⟨x, hx, a, ⟨ha, hid, huuid⟩, rfl⟩
    exact ⟨hx, a, ha, huuid, hid⟩
  · rintro ⟨hr, a, ha, huuid, hid⟩
    exact ⟨r, hr, a, ⟨ha, hid, huuid⟩, rfl⟩

theorem limitCount_natCast (n : Nat) : limitCount (.finite (n : ℚ)) = some n := by
  simp [limitCount]

theorem lookupField_setField_ne (k k2 : String) (v : JsVal) (hne : k2 ≠ k) :
    ∀ fields : List (String × JsVal),
      lookupField k2 (setField k v fields) = lookupField k2 fields := by
  intro fields
  induction fields with
  | nil => simp [setField, lookupField, Ne.symm hne]
  | cons p rest ih =>
    obtain ⟨k1, v1⟩ := p
    by_cases h : k1 = k
    · subst h
      simp [setField, lookupField, Ne.symm hne]
    · by_cases h2 : k1 = k2
      · subst h2
        simp [setField, lookupField, h]
      · simp [setField, lookupField, h, h2, ih]

theorem ownedExactly_filter (store : Store) (table : String) (agentId : Nat) :
    OwnedExactly store table agentId
      ((store table).filter (fun r => colEqKey (r.col "agent_id") agentId)) := by
  refine ⟨List.Perm.refl _, ?_, ?_⟩
  · intro r hr
    rw [List.mem_filter] at hr
    exact ⟨hr.1, (colEqKey_eq_true_iff _ _).mp hr.2⟩
  · intro r hr hid
    rw [List.mem_filter]
    exact ⟨hr, (colEqKey_eq_true_iff _ _).mpr hid⟩

theorem ownedExactly_perm (store : Store) (table : String) (agentId : Nat)
    (l l2 : List Row) (hp : l2.Perm l) (h : OwnedExactly store table agentId l) :
    OwnedExactly store table agentId l2 :=
  ⟨hp.trans h.1, fun r hr => h.2.1 r (hp.mem_iff.mp hr),
    fun r hr hid => hp.mem_iff.mpr (h.2.2 r hr hid)⟩

/-- C11. The full-agent fetch: if no agent row has the UUID the response is 404 'Agent not
found' and only the table `agents` was queried; otherwise the response data is the first
matching agent row merged with the collections `menus`, `workflows`, `endpoints`, `forms`,
`views`, and each collection holds exactly the rows of its table whose `agent_id` is the key
of that agent: every such row, and no row of another agent. -/
theorem getAgent_exact (env : QueryEnv) (store : Store) (agentUuid : String) :
    ((∀ r ∈ store "agents", r.col "agent_uuid" ≠ .str agentUuid) →
      (getAgent env store agentUuid).response = ⟨404, errorBody "Agent not found"⟩ ∧
      (getAgent env store agentUuid).queried = ["agents"]) ∧
    (∀ agent, FirstAgentWithUuid store agentUuid agent →
      ∃ menus workflows endpoints forms views : List Row,
        (getAgent env store agentUuid).response =
          ⟨200, .obj [("success", .bool true),
            ("data", withCollections agent menus workflows endpoints forms views)]⟩ ∧
        OwnedExactly store "agent_menus" agent.id menus ∧
        OwnedExactly store "agent_workflows" agent.id workflows ∧
        OwnedExactly store "agent_endpoints" agent.id endpoints ∧
        OwnedExactly store "agent_forms" agent.id forms ∧
        OwnedExactly store "agent_views" agent.id views ∧
        optMember (withCollections agent menus workflows endpoints forms views) "menus" =
          .arr (menus.map rowToJs) ∧
        optMember (withCollections agent menus workflows endpoints forms views) "workflows" =
          .arr (workflows.map rowToJs) ∧
        optMember (withCollections agent menus workflows endpoints forms views) "endpoints" =
          .arr (endpoints.map rowToJs) ∧
        optMember (withCollections agent menus workflows endpoints forms views) "forms" =
          .arr (forms.map rowToJs) ∧
        optMember (withCollections agent menus workflows endpoints forms views) "views" =
          .arr (views.map rowToJs) ∧
        ∀ k, k ≠ "menus" → k ≠ "workflows" → k ≠ "endpoints" → k ≠ "forms" → k ≠ "views" →
          optMember (withCollections agent menus workflows endpoints forms views) k =
            optMember (rowToJs agent) k) := by
  constructor
  · intro hnone
    have h := agents_filter_nil store agentUuid hnone
    simp [getAgent, h]
  · intro agent hagent
    obtain ⟨others, h⟩ := agents_filter_first store agentUuid agent hagent
    refine ⟨orderBy (rowLe env [fun r => r.col "menu_type", fun r => r.col "order_no"])
        ((store "agent_menus").filter (fun r => colEqKey (r.col "agent_id") agent.id)),
      (store "agent_workflows").filter (fun r => colEqKey (r.col "agent_id") agent.id),
      (store "agent_endpoints").filter (fun r => colEqKey (r.col "agent_id") agent.id),
      (store "agent_forms").filter (fun r => colEqKey (r.col "agent_id") agent.id),
      (store "agent_views").filter (fun r => colEqKey (r.col "agent_id") agent.id),
      by simp only [getAgent, h],
      ownedExactly_perm _ _ _ _ _ (orderBy_perm _ _) (ownedExactly_filter _ _ _),
      ownedExactly_filter _ _ _, ownedExactly_filter _ _ _, ownedExactly_filter _ _ _,
      ownedExactly_filter _ _ _, ?_, ?_, ?_, ?_, ?_, ?_⟩
    · simp only [withCollections, optMember]
      rw [lookupField_setField_ne _ _ _ (by decide), lookupField_setField_ne _ _ _ (by decide),
        lookupField_setField_ne _ _ _ (by decide), lookupField_setField_ne _ _ _ (by decide),
        lookupField_setField]
    · simp only [withCollections, optMember]
      rw [lookupField_setField_ne _ _ _ (by decide), lookupField_setField_ne _ _ _ (by decide),
        lookupField_setField_ne _ _ _ (by decide), lookupField_setField]
    · simp only [withCollections, optMember]
      rw [lookupField_setField_ne _ _ _ (by decide), lookupField_setField_ne _ _ _ (by decide),
        lookupField_setField]
    · simp only [withCollections, optMember]
      rw [lookupField_setField_ne _ _ _ (by decide), lookupField_setField]
    · simp only [withCollections, optMember]
      rw [lookupField_setField]
    · intro k h1 h2 h3 h4 h5
      simp only [withCollections, optMember, rowToJs]
      rw [lookupField_setField_ne _ _ _ h5, lookupField_setField_ne _ _ _ h4,
        lookupField_setField_ne _ _ _ h3, lookupField_setField_ne _ _ _ h2,
        lookupField_setField_ne _ _ _ h1]

theorem demoEnv_ordered : OrderedColumns demoEnv := by
  constructor
  · intro a b
    simp only [demoEnv, decide_eq_true_eq]
    exact le_total _ _
  · intro a b c h1 h2
    simp only [demoEnv, decide_eq_true_eq] at h1 h2 ⊢
    exact le_trans h1 h2

theorem menuRows_sorted (env : QueryEnv) (hord : OrderedColumns env) (store : Store)
    (agentUuid : String) (query : JsVal) :
    (menuRows env store agentUuid query).Pairwise
      (fun a b => rowLe env [fun r => r.col "order_no", fun r => .num r.id] a b = true) :=
  orderBy_sorted _ (rowLe_total env hord _) (rowLe_trans env hord _) _

theorem isNull_eq_true_iff (v : JsVal) : isNull v = true ↔ Unset v := by
  cases v <;> simp [isNull, Unset]

theorem sqlEq_of_comparesAs (env : QueryEnv) (rows : List Row) (column : String)
    (param stored : JsVal) (h : ComparesAs env rows column param stored) (r : Row)
    (hr : r ∈ rows) : sqlEq env (r.col column) param = true ↔ r.col column = stored := by
  obtain ⟨h1, h2, h3⟩ := h
  unfold sqlEq
  rw [Bool.and_eq_true, h3 r hr]
  constructor
  · exact fun h => h.2
  · intro heq
    refine ⟨?_, heq⟩
    rw [heq]
    cases stored <;> simp [isNull] at h1 h2 ⊢

theorem menuRows_sorted_same_type (env : QueryEnv) (hord : OrderedColumns env) (store : Store)
    (agentUuid : String) (query : JsVal)
    (hsame : ∀ a ∈ menuRows env store agentUuid query,
      ∀ b ∈ menuRows env store agentUuid query, a.col "menu_type" = b.col "menu_type") :
    (menuRows env store agentUuid query).Pairwise
      (fun a b => rowLe env [fun r => r.col "menu_type", fun r => r.col "order_no",
        fun r => .num r.id] a b = true) := by
  have hsorted := menuRows_sorted env hord store agentUuid query
  rw [List.pairwise_iff_forall_sublist] at hsorted ⊢
  intro a b hsub
  have ha : a ∈ menuRows env store agentUuid query := hsub.subset (by simp)
  have hb : b ∈ menuRows env store agentUuid query := hsub.subset (by simp)
  have hab : env.colLe (a.col "menu_type") (b.col "menu_type") = true := by
    rw [hsame a ha b hb]
    rcases hord.total (b.col "menu_type") (b.col "menu_type") with h | h <;> exact h
  have hba : env.colLe (b.col "menu_type") (a.col "menu_type") = true := by
    rw [hsame a ha b hb]
    rcases hord.total (b.col "menu_type") (b.col "menu_type") with h | h <;> exact h
  have := hsorted hsub
  show rowLe env (_ :: _) a b = true
  rw [rowLe]
  simp only [hab, hba, Bool.true_and, Bool.not_true, Bool.false_or]
  exact this

theorem mem_menuRows_filtered (env : QueryEnv) (store : Store) (agentUuid : String)
    (query stored : JsVal) (hfilter : truthy (optMember query "menu_type") = true)
    (hcmp : ComparesAs env (store "agent_menus") "menu_type" (optMember query "menu_type")
      stored) (r : Row) :
    r ∈ menuRows env store agentUuid query ↔
      r ∈ store "agent_menus" ∧ BelongsToAgent store agentUuid r ∧
        r.col "menu_type" = stored := by
  simp only [menuRows, hfilter, if_true, mem_orderBy, List.mem_filter, mem_joinAgents]
  constructor
  · rintro ⟨⟨h1, h2⟩, h3⟩
    exact ⟨h1, h2, (sqlEq_of_comparesAs env _ _ _ _ hcmp r h1).mp h3⟩
  · rintro ⟨h1, h2, h3⟩
    exact ⟨⟨h1, h2⟩, (sqlEq_of_comparesAs env _ _ _ _ hcmp r h1).mpr h3⟩

/-- C14, counterexample. The agent "a-1" has the menus 1 (header, place 1), 2 (sidebar,
place 2) and 3 (header, place 3). The menus endpoint without a filter returns them in the
order 1, 2, 3, in which a sidebar menu comes before a header menu and after another one:
the list is not sorted by (menu_type, order_no, id), the pair (2, 3) is out of order. -/
theorem getMenus_not_sorted_by_menu_type :
    getMenus demoEnv demoMenuStore "a-1" (.obj []) =
      ⟨200, .obj [("success", .bool true), ("data", .arr (
        [⟨1, [("agent_id", .num 1), ("menu_type", .str "header"), ("order_no", .num 1)]⟩,
         ⟨2, [("agent_id", .num 1), ("menu_type", .str "sidebar"), ("order_no", .num 2)]⟩,
         ⟨3, [("agent_id", .num 1), ("menu_type", .str "header"),
              ("order_no", .num 3)]⟩].map rowToJs))]⟩ ∧
    rowLe demoEnv [fun r => r.col "menu_type", fun r => r.col "order_no", fun r => .num r.id]
      ⟨2, [("agent_id", .num 1), ("menu_type", .str "sidebar"), ("order_no", .num 2)]⟩
      ⟨3, [("agent_id", .num 1), ("menu_type", .str "header"), ("order_no", .num 3)]⟩ =
      false :=
  ⟨rfl, rfl⟩

/-- C14, amended. On a server whose order of column values is total and transitive: the
menus endpoint returns the menus sorted by (order_no, id), with or without a filter; with a
`menu_type` filter that the server compares by value, the menus returned are exactly the
menus of the agent that have the type asked for, and the list is then also sorted by
(menu_type, order_no, id); the menus collection of the full-agent fetch is sorted by
(menu_type, order_no). -/
theorem menus_order (env : QueryEnv) (hord : OrderedColumns env) (store : Store)
    (agentUuid : String) :
    (∀ query : JsVal,
      (menuRows env store agentUuid query).Pairwise
        (fun a b => rowLe env [fun r => r.col "order_no", fun r => .num r.id] a b = true)) ∧
    (∀ query stored : JsVal, truthy (optMember query "menu_type") = true →
      ComparesAs env (store "agent_menus") "menu_type" (optMember query "menu_type") stored →
      (∀ r, r ∈ menuRows env store agentUuid query ↔
        r ∈ store "agent_menus" ∧ BelongsToAgent store agentUuid r ∧
          r.col "menu_type" = stored) ∧
      (menuRows env store agentUuid query).Pairwise
        (fun a b => rowLe env [fun r => r.col "menu_type", fun r => r.col "order_no",
          fun r => .num r.id] a b = true)) ∧
    (∀ agent, FirstAgentWithUuid store agentUuid agent →
      ∃ menus workflows endpoints forms views : List Row,
        (getAgent env store agentUuid).response =
          ⟨200, .obj [("success", .bool true),
            ("data", withCollections agent menus workflows endpoints forms views)]⟩ ∧
        menus.Pairwise (fun a b =>
          rowLe env [fun r => r.col "menu_type", fun r => r.col "order_no"] a b = true)) := by
  refine ⟨fun query => menuRows_sorted env hord store agentUuid query, ?_, ?_⟩
  · intro query stored hfilter hcmp
    have hmem := mem_menuRows_filtered env store agentUuid query stored hfilter hcmp
    refine ⟨hmem, menuRows_sorted_same_type env hord store agentUuid query ?_⟩
    intro a ha b hb
    rw [((hmem a).mp ha).2.2, ((hmem b).mp hb).2.2]
  · intro agent hagent
    obtain ⟨others, h⟩ := agents_filter_first store agentUuid agent hagent
    exact ⟨orderBy (rowLe env [fun r => r.col "menu_type", fun r => r.col "order_no"])
        ((store "agent_menus").filter (fun r => colEqKey (r.col "agent_id") agent.id)),
      (store "agent_workflows").filter (fun r => colEqKey (r.col "agent_id") agent.id),
      (store "agent_endpoints").filter (fun r => colEqKey (r.col "agent_id") agent.id),
      (store "agent_forms").filter (fun r => colEqKey (r.col "agent_id") agent.id),
      (store "agent_views").filter (fun r => colEqKey (r.col "agent_id") agent.id),
      by simp only [getAgent, h],
      orderBy_sorted _ (rowLe_total env hord _) (rowLe_trans env hord _) _⟩

theorem demoEnv_compares_header :
    ComparesAs demoEnv (demoMenuStore "agent_menus") "menu_type" (.str "header")
      (.str "header") := by
  refine ⟨by simp, by simp, ?_⟩
  intro r hr
  simp [demoMenuStore] at hr
  rcases hr with rfl | rfl | rfl <;> simp [demoEnv, Row.col, lookupField]

/-- Witness of the amended C14: with the filter 'header' the endpoint returns the menus 1 and
3 of `demoMenuStore`, the two header menus of the agent, and the list is sorted by
(order_no, id) and by (menu_type, order_no, id). -/
theorem menus_order_witness :
    menuRows demoEnv demoMenuStore "a-1" (.obj [("menu_type", .str "header")]) =
      [⟨1, [("agent_id", .num 1), ("menu_type", .str "header"), ("order_no", .num 1)]⟩,
       ⟨3, [("agent_id", .num 1), ("menu_type", .str "header"), ("order_no", .num 3)]⟩] ∧
    (menuRows demoEnv demoMenuStore "a-1" (.obj [("menu_type", .str "header")])).Pairwise
      (fun a b =>
        rowLe demoEnv [fun r => r.col "order_no", fun r => .num r.id] a b = true) ∧
    (∀ r, r ∈ menuRows demoEnv demoMenuStore "a-1" (.obj [("menu_type", .str "header")]) ↔
      r ∈ demoMenuStore "agent_menus" ∧ BelongsToAgent demoMenuStore "a-1" r ∧
        r.col "menu_type" = .str "header") ∧
    (menuRows demoEnv demoMenuStore "a-1" (.obj [("menu_type", .str "header")])).Pairwise
      (fun a b => rowLe demoEnv [fun r => r.col "menu_type", fun r => r.col "order_no",
        fun r => .num r.id] a b = true) :=
  ⟨rfl, (menus_order demoEnv demoEnv_ordered demoMenuStore "a-1").1 _,
    (menus_order demoEnv demoEnv_ordered demoMenuStore "a-1").2.1
      (.obj [("menu_type", .str "header")]) (.str "header") rfl demoEnv_compares_header⟩

theorem mem_chatMatches (env : QueryEnv) (store : Store) (agentUuid : String) (query : JsVal)
    (r : Row) :
    r ∈ chatMatches env store agentUuid query ↔
      r ∈ store "agent_chats" ∧ BelongsToAgent store agentUuid r ∧
      (truthy (optMember query "user_id") = true →
        sqlEq env (r.col "user_id") (optMember query "user_id") = true) := by
  unfold chatMatches
  by_cases h : truthy (optMember query "user_id") = true
  · simp only [h, if_true, List.mem_filter, mem_joinAgents, true_implies, and_assoc]
  · simp only [h, if_false, mem_joinAgents, false_implies, and_true, Bool.false_eq_true]

theorem newest_first (env : QueryEnv) (hord : OrderedColumns env) (rows : List Row)
    (hdistinct : DistinctCreationTimes env rows) :
    (orderBy (fun a b => env.colLe (b.col "created_at") (a.col "created_at")) rows).Pairwise
      (fun a b => CreatedBefore env b a) := by
  have hsorted := orderBy_sorted
    (fun a b => env.colLe (b.col "created_at") (a.col "created_at"))
    (fun a b => hord.total _ _) (fun a b c h1 h2 => hord.trans _ _ _ h2 h1) rows
  have hd : (orderBy (fun a b => env.colLe (b.col "created_at") (a.col "created_at"))
      rows).Pairwise (fun a b => CreatedBefore env a b ∨ CreatedBefore env b a) :=
    (List.Perm.pairwise_iff (fun h => h.symm) (orderBy_perm _ rows)).mpr hdistinct
  refine (hsorted.and hd).imp ?_
  rintro a b ⟨h1, h2 | h2⟩
  · rw [h2.2] at h1; exact absurd h1 (by decide)
  · exact h2

/-- C12. Chat retrieval on a server whose order of column values is total and transitive,
with the limit `N` (the parsed `limit` of the query, 50 when absent): if the matching chat
rows (those of the agent, of the user when `user_id` is given) have distinct creation times,
the response data `recent` has `min N (number of matching rows)` elements, the matching rows
are `recent` together with rows `older` that were all created before every row of `recent`,
and `recent` is in ascending order of creation time. -/
theorem getChats_most_recent (env : QueryEnv) (hord : OrderedColumns env) (store : Store)
    (agentUuid : String) (query : JsVal) (N : Nat)
    (hlimit : env.parseInt (defaulted (optMember query "limit") (.num 50)) = .finite N)
    (hdistinct : DistinctCreationTimes env (chatMatches env store agentUuid query)) :
    (∀ r, r ∈ chatMatches env store agentUuid query ↔
      r ∈ store "agent_chats" ∧ BelongsToAgent store agentUuid r ∧
      (truthy (optMember query "user_id") = true →
        sqlEq env (r.col "user_id") (optMember query "user_id") = true)) ∧
    ∃ recent older : List Row,
      getChats env store agentUuid query =
        ⟨200, .obj [("success", .bool true), ("data", .arr (recent.map rowToJs))]⟩ ∧
      recent.length = min N (chatMatches env store agentUuid query).length ∧
      (older ++ recent).Perm (chatMatches env store agentUuid query) ∧
      (∀ a ∈ older, ∀ b ∈ recent, CreatedBefore env a b) ∧
      recent.Pairwise (CreatedBefore env) := by
  refine ⟨mem_chatMatches env store agentUuid query, ?_⟩
  have hdesc := newest_first env hord _ hdistinct
  generalize hS : orderBy (fun a b => env.colLe (b.col "created_at") (a.col "created_at"))
    (chatMatches env store agentUuid query) = S at hdesc
  have hperm : S.Perm (chatMatches env store agentUuid query) := by
    rw [← hS]; exact orderBy_perm _ _
  refine ⟨(S.take N).reverse, S.drop N, ?_, ?_, ?_, ?_, ?_⟩
  · simp only [getChats, hlimit, limitCount_natCast, hS]
  · rw [List.length_reverse, List.length_take, hperm.length_eq]
  · have h1 : (S.drop N ++ (S.take N).reverse).Perm (S.take N ++ S.drop N) :=
      List.perm_append_comm.trans ((List.reverse_perm _).append_right _)
    rw [List.take_append_drop] at h1
    exact h1.trans hperm
  · intro a ha b hb
    rw [List.mem_reverse] at hb
    rw [← List.take_append_drop N S, List.pairwise_append] at hdesc
    exact hdesc.2.2 b hb a ha
  · rw [List.pairwise_reverse]
    exact hdesc.sublist (List.take_sublist N S)

/-- Witness of C12: user 7 has three messages, created at 10, 30 and 20; with `limit=2` the
response holds the two most recent ones, oldest first. -/
theorem getChats_most_recent_witness :
    ∃ recent older : List Row,
      getChats demoEnv demoChatStore "a-1"
          (.obj [("user_id", .str "7"), ("limit", .str "2")]) =
        ⟨200, .obj [("success", .bool true), ("data", .arr (recent.map rowToJs))]⟩ ∧
      recent.length = min 2 (chatMatches demoEnv demoChatStore "a-1"
        (.obj [("user_id", .str "7"), ("limit", .str "2")])).length ∧
      (older ++ recent).Perm (chatMatches demoEnv demoChatStore "a-1"
        (.obj [("user_id", .str "7"), ("limit", .str "2")])) ∧
      (∀ a ∈ older, ∀ b ∈ recent, CreatedBefore demoEnv a b) ∧
      recent.Pairwise (CreatedBefore demoEnv) :=
  (getChats_most_recent demoEnv demoEnv_ordered demoChatStore "a-1"
    (.obj [("user_id", .str "7"), ("limit", .str "2")]) 2 rfl
    (by
      rw [show chatMatches demoEnv demoChatStore "a-1"
          (.obj [("user_id", .str "7"), ("limit", .str "2")]) = demoChatStore "agent_chats"
        from rfl]
      simp [DistinctCreationTimes, demoChatStore, CreatedBefore, demoEnv, Row.col, lookupField,
        demoSortKey]
      norm_num)).2

/-- C13, counterexample. The query supplies the empty `user_id`: the handler applies no
filter and returns all three recommendations of the agent, so also the one of user 8, whose
`user_id` is not `NULL` and which the server does not find equal to the empty parameter. -/
theorem getRecommendations_empty_user_id :
    getRecommendations demoEnv demoChatStore "a-1" (.obj [("user_id", .str "")]) =
      ⟨200, .obj [("success", .bool true), ("data", .arr (
        [⟨2, [("agent_id", .num 1), ("user_id", .num 8), ("created_at", .num 30)]⟩,
         ⟨3, [("agent_id", .num 1), ("user_id", .null), ("created_at", .num 20)]⟩,
         ⟨1, [("agent_id", .num 1), ("user_id", .num 7),
              ("created_at", .num 10)]⟩].map rowToJs))]⟩ ∧
    demoEnv.paramEq (.num 8) (.str "") = false :=
  ⟨rfl, rfl⟩

/-- C13, amended. The recommendations query with a truthy `user_id` (one that passes the
test `if (user_id)` of the handler), which the server compares by value with the column, and
a limit `N`: every returned row is a recommendation of the agent whose `user_id` is the
user asked for or is unset, so no returned row has another `user_id`; and when no category
is given and `N` is at least the number of such rows, every recommendation of the agent
whose `user_id` is the user asked for or is unset is returned. -/
theorem getRecommendations_user_filter (env : QueryEnv) (store : Store)
    (agentUuid : String) (query stored : JsVal) (N : Nat)
    (huser : truthy (optMember query "user_id") = true)
    (hcmp : ComparesAs env (store "agent_recommendations") "user_id"
      (optMember query "user_id") stored)
    (hlimit : env.parseInt (defaulted (optMember query "limit") (.num 10)) = .finite N) :
    ∃ returned : List Row,
      getRecommendations env store agentUuid query =
        ⟨200, .obj [("success", .bool true), ("data", .arr (returned.map rowToJs))]⟩ ∧
      (∀ r ∈ returned, r ∈ store "agent_recommendations" ∧ BelongsToAgent store agentUuid r ∧
        (r.col "user_id" = stored ∨ Unset (r.col "user_id"))) ∧
      (∀ r ∈ returned, ¬ (r.col "user_id" ≠ stored ∧ ¬ Unset (r.col "user_id"))) ∧
      (truthy (optMember query "category") = false →
        (∀ such : List Row,
          such.Sublist (joinAgents store "agent_recommendations" agentUuid) →
          (∀ r ∈ such, r.col "user_id" = stored ∨ Unset (r.col "user_id")) →
          such.length ≤ N) →
        ∀ r ∈ store "agent_recommendations", BelongsToAgent store agentUuid r →
          (r.col "user_id" = stored ∨ Unset (r.col "user_id")) → r ∈ returned) := by
  have hcond : ∀ r ∈ store "agent_recommendations",
      ((sqlEq env (r.col "user_id") (optMember query "user_id") ||
        isNull (r.col "user_id")) = true ↔
        (r.col "user_id" = stored ∨ Unset (r.col "user_id"))) := by
    intro r hr
    rw [Bool.or_eq_true, sqlEq_of_comparesAs env _ _ _ _ hcmp r hr, isNull_eq_true_iff]
  have hmem : ∀ r ∈ recommendationMatches env store agentUuid query,
      r ∈ store "agent_recommendations" ∧ BelongsToAgent store agentUuid r ∧
        (r.col "user_id" = stored ∨ Unset (r.col "user_id")) := by
    intro r hr
    unfold recommendationMatches at hr
    simp only [huser, if_true] at hr
    have hr2 : r ∈ (joinAgents store "agent_recommendations" agentUuid).filter (fun r =>
        sqlEq env (r.col "user_id") (optMember query "user_id") ||
          isNull (r.col "user_id")) := by
      split at hr
      · exact (List.mem_filter.mp hr).1
      · exact hr
    rw [List.mem_filter, mem_joinAgents] at hr2
    exact ⟨hr2.1.1, hr2.1.2, (hcond r hr2.1.1).mp hr2.2⟩
  have hret : ∀ r ∈ (orderBy
      (fun a b => env.colLe (b.col "created_at") (a.col "created_at"))
      (recommendationMatches env store agentUuid query)).take N,
      r ∈ recommendationMatches env store agentUuid query := fun r hr =>
    (mem_orderBy _ _ r).mp (List.mem_of_mem_take hr)
  refine ⟨(orderBy (fun a b => env.colLe (b.col "created_at") (a.col "created_at"))
      (recommendationMatches env store agentUuid query)).take N, ?_, ?_, ?_, ?_⟩
  · simp only [getRecommendations, hlimit, limitCount_natCast]
  · exact fun r hr => hmem r (hret r hr)
  · intro r hr hdiff
    rcases (hmem r (hret r hr)).2.2 with h | h
    · exact hdiff.1 h
    · exact hdiff.2 h
  · intro hcat hcount
    have hM : recommendationMatches env store agentUuid query =
        (joinAgents store "agent_recommendations" agentUuid).filter (fun r =>
          sqlEq env (r.col "user_id") (optMember query "user_id") ||
            isNull (r.col "user_id")) := by
      simp [recommendationMatches, huser, hcat]
    have hle : (recommendationMatches env store agentUuid query).length ≤ N := by
      apply hcount
      · rw [hM]; exact List.filter_sublist _
      · exact fun r hr => (hmem r hr).2.2
    have hlen : (orderBy (fun a b => env.colLe (b.col "created_at") (a.col "created_at"))
        (recommendationMatches env store agentUuid query)).length ≤ N := by
      rw [(orderBy_perm _ _).length_eq]; exact hle
    rw [List.take_of_length_le hlen]
    intro r hr hbel hc
    rw [mem_orderBy, hM, List.mem_filter, mem_joinAgents]
    exact ⟨⟨hr, hbel⟩, (hcond r hr).mpr hc⟩

theorem demoEnv_compares_user_7 :
    ComparesAs demoEnv (demoChatStore "agent_recommendations") "user_id" (.str "7")
      (.num 7) := by
  refine ⟨by simp, by simp, ?_⟩
  intro r hr
  simp [demoChatStore] at hr
  rcases hr with rfl | rfl | rfl <;> simp [demoEnv, Row.col, lookupField] <;> decide

/-- Witness of the amended C13: the agent has a recommendation for user 7, one for user 8
and one for every user; the query with `user_id=7` returns the third and the first, every
row returned is of user 7 or unset, and every such row of the agent is returned. -/
theorem getRecommendations_user_filter_witness :
    getRecommendations demoEnv demoChatStore "a-1" (.obj [("user_id", .str "7")]) =
      ⟨200, .obj [("success", .bool true), ("data", .arr (
        [⟨3, [("agent_id", .num 1), ("user_id", .null), ("created_at", .num 20)]⟩,
         ⟨1, [("agent_id", .num 1), ("user_id", .num 7),
              ("created_at", .num 10)]⟩].map rowToJs))]⟩ ∧
    ∃ returned : List Row,
      getRecommendations demoEnv demoChatStore "a-1" (.obj [("user_id", .str "7")]) =
        ⟨200, .obj [("success", .bool true), ("data", .arr (returned.map rowToJs))]⟩ ∧
      (∀ r ∈ returned, r ∈ demoChatStore "agent_recommendations" ∧
        BelongsToAgent demoChatStore "a-1" r ∧
        (r.col "user_id" = .num 7 ∨ Unset (r.col "user_id"))) ∧
      (∀ r ∈ returned, ¬ (r.col "user_id" ≠ .num 7 ∧ ¬ Unset (r.col "user_id"))) ∧
      (∀ r ∈ demoChatStore "agent_recommendations", BelongsToAgent demoChatStore "a-1" r →
        (r.col "user_id" = .num 7 ∨ Unset (r.col "user_id")) → r ∈ returned) := by
  obtain ⟨returned, h1, h2, h3, h4⟩ :=
    getRecommendations_user_filter demoEnv demoChatStore "a-1"
      (.obj [("user_id", .str "7")]) (.num 7) 10 rfl demoEnv_compares_user_7 rfl
  refine ⟨rfl, returned, h1, h2, h3, h4 rfl ?_⟩
  intro such hsub _
  have := hsub.length_le
  have h3 : (joinAgents demoChatStore "agent_recommendations" "a-1").length = 3 := rfl
  omega

/-- An instance of C11: the fetch of the agent "a-1" of `demoStore` answers 200 and its forms
collection holds exactly the forms of agent 1. -/
theorem getAgent_exact_witness :
    ∃ menus workflows endpoints forms views : List Row,
      (getAgent demoEnv demoStore "a-1").response =
        ⟨200, .obj [("success", .bool true),
          ("data", withCollections
            ⟨1, [("agent_uuid", .str "a-1"), ("name", .str "Intake")]⟩
            menus workflows endpoints forms views)]⟩ ∧
      OwnedExactly demoStore "agent_forms" 1 forms := by
  obtain ⟨menus, workflows, endpoints, forms, views, h1, -, -, -, h2, -⟩ :=
    (getAgent_exact demoEnv demoStore "a-1").2
      ⟨1, [("agent_uuid", .str "a-1"), ("name", .str "Intake")]⟩
      ⟨[], [], by simp [demoStore], by simp, by simp [Row.col, lookupField]⟩
  exact ⟨menus, workflows, endpoints, forms, views, h1, h2⟩

/-! ## Theorems: endpoint execution, connection release and `null` steps -/

theorem endpoints_filter_nil (store : Store) (agent : Row) (name : String)
    (h : ∀ e ∈ store "agent_endpoints",
      ¬ (e.col "agent_id" = .num agent.id ∧ e.col "endpoint_name" = .str name)) :
    (store "agent_endpoints").filter (fun r =>
      colEqKey (r.col "agent_id") agent.id && colEqStr (r.col "endpoint_name") name) = [] := by
  apply filter_eq_nil_of_forall
  intro e he
  cases hc : (colEqKey (e.col "agent_id") agent.id && colEqStr (e.col "endpoint_name") name)
  · rfl
  · rw [Bool.and_eq_true] at hc
    exact absurd ⟨(colEqKey_eq_true_iff _ _).mp hc.1, (colEqStr_eq_true_iff _ _).mp hc.2⟩
      (h e he)

theorem endpoints_filter_first (store : Store) (agent : Row) (name : String) (endpoint : Row)
    (h : FirstEndpointNamed store agent name endpoint) :
    ∃ others, (store "agent_endpoints").filter (fun r =>
      colEqKey (r.col "agent_id") agent.id && colEqStr (r.col "endpoint_name") name) =
      endpoint :: others := by
  obtain ⟨pre, rest, hstore, hpre, hid, hname⟩ := h
  refine ⟨rest.filter (fun r =>
    colEqKey (r.col "agent_id") agent.id && colEqStr (r.col "endpoint_name") name), ?_⟩
  rw [hstore]
  apply filter_first
  · intro e he
    cases hc : (colEqKey (e.col "agent_id") agent.id && colEqStr (e.col "endpoint_name") name)
    · rfl
    · rw [Bool.and_eq_true] at hc
      exact absurd ⟨(colEqKey_eq_true_iff _ _).mp hc.1, (colEqStr_eq_true_iff _ _).mp hc.2⟩
        (hpre e he)
  · rw [Bool.and_eq_true]
    exact ⟨(colEqKey_eq_true_iff _ _).mpr hid, (colEqStr_eq_true_iff _ _).mpr hname⟩

/-- C18. Endpoint execution for a request body with the fields `fields`. If no agent has the
UUID, or the first agent with the UUID has no endpoint of the name, the response is 404 and
the store, so also the log table, is as before. Otherwise, when the server accepts the
`INSERT`, exactly one log row is added, with the endpoint name as action, the serialised
request data as `input_data` and no `output_data`; no other table changes; and the response
data is the stored endpoint row with the request data as `submittedData`. -/
theorem executeEndpoint_logs (rt : JsRuntime) (db : Database) (store : Store)
    (agentUuid endpointName : String) (fields : List (String × JsVal)) :
    ((∀ r ∈ store "agents", r.col "agent_uuid" ≠ .str agentUuid) →
      (executeEndpoint rt db store agentUuid endpointName (.obj fields)).response =
        ⟨404, errorBody "Agent not found"⟩ ∧
      (executeEndpoint rt db store agentUuid endpointName (.obj fields)).store = store) ∧
    (∀ agent, FirstAgentWithUuid store agentUuid agent →
      ((∀ e ∈ store "agent_endpoints",
          ¬ (e.col "agent_id" = .num agent.id ∧ e.col "endpoint_name" = .str endpointName)) →
        (executeEndpoint rt db store agentUuid endpointName (.obj fields)).response =
          ⟨404, errorBody "Endpoint not found"⟩ ∧
        (executeEndpoint rt db store agentUuid endpointName (.obj fields)).store = store) ∧
      (∀ endpoint, FirstEndpointNamed store agent endpointName endpoint →
        db.rejects 0 = none →
        ∃ l : Nat,
          (executeEndpoint rt db store agentUuid endpointName (.obj fields)).store
              "agent_logs" =
            store "agent_logs" ++
              [⟨l, [("agent_id", .num agent.id), ("user_id", lookupField "user_id" fields),
                    ("firm_id", lookupField "firm_id" fields),
                    ("action", .str endpointName),
                    ("input_data", rt.jsonStringify (lookupField "data" fields))]⟩] ∧
          (∀ t, t ≠ "agent_logs" →
            (executeEndpoint rt db store agentUuid endpointName (.obj fields)).store t =
              store t) ∧
          (executeEndpoint rt db store agentUuid endpointName (.obj fields)).response =
            ⟨200, .obj [("success", .bool true),
              ("message", .str (endpointName ++ " executed successfully")),
              ("data", .obj [("endpoint", rowToJs endpoint),
                ("submittedData", lookupField "data" fields)])]⟩)) := by
  constructor
  · intro hnone
    have h := agents_filter_nil store agentUuid hnone
    simp [executeEndpoint, executeEndpointTry, member, optMember, select, getConnection, h,
      finishPlain, release]
  · intro agent hagent
    obtain ⟨others, h⟩ := agents_filter_first store agentUuid agent hagent
    constructor
    · intro hno
      have h2 := endpoints_filter_nil store agent endpointName hno
      simp [executeEndpoint, executeEndpointTry, member, optMember, select, getConnection, h,
        h2, finishPlain, release]
    · intro endpoint hep h0
      obtain ⟨eothers, h2⟩ := endpoints_filter_first store agent endpointName endpoint hep
      refine ⟨nextId (store "agent_logs"), ?_⟩
      simp [executeEndpoint, executeEndpointTry, member, optMember, select, getConnection, h,
        h2, insert, h0, finishPlain, release, addRow]

/-- An instance of C18: user 7 of firm 5 executes the endpoint "notify" of the agent "a-1";
one log row is written and the response echoes the endpoint row and the data. -/
theorem executeEndpoint_logs_witness :
    ∃ l : Nat,
      (executeEndpoint demoRuntime demoDb demoEndpointStore "a-1" "notify"
        (.obj [("user_id", .num 7), ("firm_id", .num 5), ("data", .str "hello")])).store
          "agent_logs" =
        demoEndpointStore "agent_logs" ++
          [⟨l, [("agent_id", .num (1 : Nat)), ("user_id", .num 7), ("firm_id", .num 5),
                ("action", .str "notify"), ("input_data", .str "hello")]⟩] ∧
      (∀ t, t ≠ "agent_logs" →
        (executeEndpoint demoRuntime demoDb demoEndpointStore "a-1" "notify"
          (.obj [("user_id", .num 7), ("firm_id", .num 5), ("data", .str "hello")])).store t =
          demoEndpointStore t) ∧
      (executeEndpoint demoRuntime demoDb demoEndpointStore "a-1" "notify"
        (.obj [("user_id", .num 7), ("firm_id", .num 5), ("data", .str "hello")])).response =
        ⟨200, .obj [("success", .bool true),
          ("message", .str ("notify" ++ " executed successfully")),
          ("data", .obj [("endpoint", rowToJs
              ⟨4, [("agent_id", .num 1), ("endpoint_name", .str "notify"),
                   ("method", .str "POST")]⟩),
            ("submittedData", .str "hello")])]⟩ :=
  ((executeEndpoint_logs demoRuntime demoDb demoEndpointStore "a-1" "notify"
      [("user_id", .num 7), ("firm_id", .num 5), ("data", .str "hello")]).2
    ⟨1, [("agent_uuid", .str "a-1")]⟩
    ⟨[], [], by simp [demoEndpointStore], by simp, by simp [Row.col, lookupField]⟩).2
    ⟨4, [("agent_id", .num 1), ("endpoint_name", .str "notify"), ("method", .str "POST")]⟩
    ⟨[], [], by simp [demoEndpointStore], by simp, by simp [Row.col, lookupField],
      by simp [Row.col, lookupField]⟩ rfl

theorem insert_noRelease (db : Database) (c : Conn) (table : String)
    (cols : List (String × JsVal)) (h : ConnEvent.release ∉ c.events)
    (r : Except String Nat × Conn) (hr : insert db c table cols = r) :
    ConnEvent.release ∉ r.2.events := by
  subst hr
  unfold insert
  split <;> simp [h]

theorem select_noRelease (c : Conn) (table : String) (p : Row → Bool)
    (h : ConnEvent.release ∉ c.events) (r : List Row × Conn) (hr : select c table p = r) :
    ConnEvent.release ∉ r.2.events := by
  subst hr
  simp [select, h]

theorem beginTransaction_noRelease (c : Conn) (h : ConnEvent.release ∉ c.events) :
    ConnEvent.release ∉ (beginTransaction c).events := by
  simp [beginTransaction, h]

theorem commit_noRelease (c : Conn) (h : ConnEvent.release ∉ c.events) :
    ConnEvent.release ∉ (commit c).events := by
  simp [commit, h]

theorem rollback_noRelease (c : Conn) (h : ConnEvent.release ∉ c.events) :
    ConnEvent.release ∉ (rollback c).events := by
  simp [rollback, h]

theorem finish_releasedOnce (r : Except String Response × Conn)
    (h : ConnEvent.release ∉ r.2.events) : ReleasedOnce (finish r).events := by
  unfold finish ReleasedOnce
  cases h1 : r.1 with
  | ok resp => exact ⟨r.2.events, by simp [release], h⟩
  | error e => exact ⟨(rollback r.2).events, by simp [release], rollback_noRelease _ h⟩

theorem finishPlain_releasedOnce (r : Except String Response × Conn)
    (h : ConnEvent.release ∉ r.2.events) : ReleasedOnce (finishPlain r).events :=
  ⟨r.2.events, by simp [finishPlain, release], h⟩

theorem submitFormTry_noRelease (rt : JsRuntime) (db : Database) (agentUuid formId : String)
    (body : JsVal) (c0 : Conn) (h : ConnEvent.release ∉ c0.events) :
    ConnEvent.release ∉ (submitFormTry rt db agentUuid formId body c0).2.events := by
  unfold submitFormTry
  try dsimp only
  split
  · exact h
  · try dsimp only
    split
    · exact h
    · have h1 := beginTransaction_noRelease c0 h
      try dsimp only
      split
      · rename_i c2 hsel
        exact rollback_noRelease _ (select_noRelease _ _ _ h1 _ hsel)
      · rename_i agent rest c2 hsel
        have h2 := select_noRelease _ _ _ h1 _ hsel
        try dsimp only
        split
        · rename_i c3 hsel3
          exact rollback_noRelease _ (select_noRelease _ _ _ h2 _ hsel3)
        · rename_i f fs c3 hsel3
          have h3 := select_noRelease _ _ _ h2 _ hsel3
          try dsimp only
          split
          · rename_i e c4 hins
            exact insert_noRelease db _ _ _ h3 _ hins
          · rename_i id c4 hins
            have h4 := insert_noRelease db _ _ _ h3 _ hins
            try dsimp only
            split
            · rename_i e c5 hins5
              exact insert_noRelease db _ _ _ h4 _ hins5
            · rename_i u c5 hins5
              exact commit_noRelease _ (insert_noRelease db _ _ _ h4 _ hins5)

theorem executeEndpointTry_noRelease (rt : JsRuntime) (db : Database)
    (agentUuid endpointName : String) (body : JsVal) (c0 : Conn)
    (h : ConnEvent.release ∉ c0.events) :
    ConnEvent.release ∉
      (executeEndpointTry rt db agentUuid endpointName body c0).2.events := by
  unfold executeEndpointTry
  try dsimp only
  split
  · exact h
  · try dsimp only
    try dsimp only
    split
    · rename_i c1 hsel
      exact select_noRelease _ _ _ h _ hsel
    · rename_i agent rest c1 hsel
      have h1 := select_noRelease _ _ _ h _ hsel
      try dsimp only
      split
      · rename_i c2 hsel2
        exact select_noRelease _ _ _ h1 _ hsel2
      · rename_i endpoint es c2 hsel2
        have h2 := select_noRelease _ _ _ h1 _ hsel2
        try dsimp only
        split
        · rename_i e c3 hins
          exact insert_noRelease db _ _ _ h2 _ hins
        · rename_i u c3 hins
          exact insert_noRelease db _ _ _ h2 _ hins

theorem sendChatTry_noRelease (db : Database) (agentUuid : String) (body : JsVal) (c0 : Conn)
    (h : ConnEvent.release ∉ c0.events) :
    ConnEvent.release ∉ (sendChatTry db agentUuid body c0).2.events := by
  unfold sendChatTry
  try dsimp only
  split
  · exact h
  · try dsimp only
    split
    · exact h
    · try dsimp only
      split
      · rename_i c1 hsel
        exact select_noRelease _ _ _ h _ hsel
      · rename_i agent rest c1 hsel
        have h1 := select_noRelease _ _ _ h _ hsel
        try dsimp only
        split
        · rename_i e c2 hins
          exact insert_noRelease db _ _ _ h1 _ hins
        · rename_i id c2 hins
          exact insert_noRelease db _ _ _ h1 _ hins

theorem createRecommendationTry_noRelease (db : Database) (agentUuid : String) (body : JsVal)
    (c0 : Conn) (h : ConnEvent.release ∉ c0.events) :
    ConnEvent.release ∉ (createRecommendationTry db agentUuid body c0).2.events := by
  unfold createRecommendationTry
  try dsimp only
  split
  · exact h
  · try dsimp only
    split
    · exact h
    · try dsimp only
      split
      · rename_i c1 hsel
        exact select_noRelease _ _ _ h _ hsel
      · rename_i agent rest c1 hsel
        have h1 := select_noRelease _ _ _ h _ hsel
        try dsimp only
        split
        · rename_i e c2 hins
          exact insert_noRelease db _ _ _ h1 _ hins
        · rename_i id c2 hins
          exact insert_noRelease db _ _ _ h1 _ hins

theorem insertMenus_noRelease (db : Database) (agent_id : Nat) :
    ∀ (items : List JsVal) (c : Conn), ConnEvent.release ∉ c.events →
      ConnEvent.release ∉ (insertMenus db agent_id items c).2.events := by
  intro items
  induction items with
  | nil => intro c h; exact h
  | cons menu rest ih =>
    intro c h
    unfold insertMenus
    split
    · exact h
    · split
      · rename_i e c1 hins
        exact insert_noRelease db c _ _ h _ hins
      · rename_i u c1 hins
        exact ih c1 (insert_noRelease db c _ _ h _ hins)

theorem insertForms_noRelease (rt : JsRuntime) (db : Database) (agent_id : Nat)
    (agent : JsVal) :
    ∀ (items : List JsVal) (m : FormIdMap) (c : Conn), ConnEvent.release ∉ c.events →
      ConnEvent.release ∉ (insertForms rt db agent_id agent items m c).2.events := by
  intro items
  induction items with
  | nil => intro m c h; exact h
  | cons form rest ih =>
    intro m c h
    unfold insertForms
    split
    · exact h
    · split
      · rename_i e c1 hins
        exact insert_noRelease db c _ _ h _ hins
      · rename_i u c1 hins
        exact ih _ c1 (insert_noRelease db c _ _ h _ hins)

theorem insertWorkflows_noRelease (rt : JsRuntime) (db : Database) (agent_id : Nat)
    (m : FormIdMap) :
    ∀ (items : List JsVal) (c : Conn), ConnEvent.release ∉ c.events →
      ConnEvent.release ∉ (insertWorkflows rt db agent_id m items c).2.events := by
  intro items
  induction items with
  | nil => intro c h; exact h
  | cons workflow rest ih =>
    intro c h
    unfold insertWorkflows
    split
    · exact h
    · split
      · exact h
      · split
        · rename_i e c1 hins
          exact insert_noRelease db c _ _ h _ hins
        · rename_i u c1 hins
          exact ih c1 (insert_noRelease db c _ _ h _ hins)

theorem insertEndpoints_noRelease (rt : JsRuntime) (db : Database) (agent_id : Nat) :
    ∀ (items : List JsVal) (c : Conn), ConnEvent.release ∉ c.events →
      ConnEvent.release ∉ (insertEndpoints rt db agent_id items c).2.events := by
  intro items
  induction items with
  | nil => intro c h; exact h
  | cons endpoint rest ih =>
    intro c h
    unfold insertEndpoints
    split
    · exact h
    · split
      · rename_i e c1 hins
        exact insert_noRelease db c _ _ h _ hins
      · rename_i u c1 hins
        exact ih c1 (insert_noRelease db c _ _ h _ hins)

theorem createFullTry_noRelease (rt : JsRuntime) (db : Database) (body : JsVal) (c0 : Conn)
    (h : ConnEvent.release ∉ c0.events) :
    ConnEvent.release ∉ (createFullTry rt db body c0).2.events := by
  unfold createFullTry
  split
  · exact h
  · rename_i agent hagent
    try dsimp only
    split
    · exact h
    · have h1 := beginTransaction_noRelease c0 h
      split
      · rename_i e c2 hins
        exact insert_noRelease db _ _ _ h1 _ hins
      · rename_i agent_id c2 hins
        have h2 := insert_noRelease db _ _ _ h1 _ hins
        split
        · exact h2
        · rename_i menuItems hmenus
          have h3 := insertMenus_noRelease db agent_id menuItems c2 h2
          split
          · rename_i e c3 hloop
            rw [hloop] at h3; exact h3
          · rename_i u3 c3 hloop
            rw [hloop] at h3
            split
            · exact h3
            · rename_i formItems hforms
              have h4 := insertForms_noRelease rt db agent_id agent formItems [] c3 h3
              split
              · rename_i e c4 hloop4
                rw [hloop4] at h4; exact h4
              · rename_i m c4 hloop4
                rw [hloop4] at h4
                split
                · exact h4
                · rename_i wfItems hwfs
                  have h5 := insertWorkflows_noRelease rt db agent_id m wfItems c4 h4
                  split
                  · rename_i e c5 hloop5
                    rw [hloop5] at h5; exact h5
                  · rename_i u5 c5 hloop5
                    rw [hloop5] at h5
                    split
                    · exact h5
                    · rename_i epItems heps
                      have h6 := insertEndpoints_noRelease rt db agent_id epItems c5 h5
                      split
                      · rename_i e c6 hloop6
                        rw [hloop6] at h6; exact h6
                      · rename_i u6 c6 hloop6
                        rw [hloop6] at h6
                        exact commit_noRelease _ h6

/-- C19. In each of the five handlers that borrow a dedicated connection (form submit,
endpoint execute, chat send, recommendation create, create-full), for every store, request
and pattern of rejected `INSERT`s, so on every path (validation failure, not found, commit,
thrown error with or without rollback), the calls made on the connection end with its
release and hold no other release. -/
theorem connection_released_once (rt : JsRuntime) (db : Database) (store : Store)
    (agentUuid formId endpointName : String) (body : JsVal) :
    ReleasedOnce (submitForm rt db store agentUuid formId body).events ∧
    ReleasedOnce (executeEndpoint rt db store agentUuid endpointName body).events ∧
    ReleasedOnce (sendChat db store agentUuid body).events ∧
    ReleasedOnce (createRecommendation db store agentUuid body).events ∧
    ReleasedOnce (createFull rt db store body).events := by
  have h0 : ConnEvent.release ∉ (getConnection store).events := by simp [getConnection]
  exact ⟨finish_releasedOnce _ (submitFormTry_noRelease rt db agentUuid formId body _ h0),
    finishPlain_releasedOnce _
      (executeEndpointTry_noRelease rt db agentUuid endpointName body _ h0),
    finishPlain_releasedOnce _ (sendChatTry_noRelease db agentUuid body _ h0),
    finishPlain_releasedOnce _ (createRecommendationTry_noRelease db agentUuid body _ h0),
    finish_releasedOnce _ (createFullTry_noRelease rt db body _ h0)⟩

theorem rewriteSteps_null (m : FormIdMap) :
    rewriteSteps m .null = .error "Cannot read properties of null (reading 'form_id')" := by
  simp [rewriteSteps, isObjectType, member]

theorem rewriteSteps_untouched (m : FormIdMap) (v : JsVal)
    (h : v = .undefined ∨ ∃ s, v = .str s) : rewriteSteps m v = .ok v := by
  rcases h with h | ⟨s, h⟩ <;> subst h <;> simp [rewriteSteps, isObjectType]

/-- C20. A `create-full` request that passes the presence check and has, among its workflows,
one whose `steps_json` is `null`: the rewriting step throws when it reads `form_id` of
`null`, the response is 500 and every table of the store is as before, so neither the agent
nor any menu, form or earlier workflow of the request is persisted. A `steps_json` that is
absent or a string is not rewritten: when the request succeeds, the row of such a workflow
holds the serialisation of that very value. -/
theorem createFull_null_steps (rt : JsRuntime) (db : Database) (store : Store) (body : JsVal)
    (agent : JsVal) (workflowItems : List JsVal) (k : Nat) (w : JsVal)
    (hagent : member body "agent" = .ok agent) (hvalid : ¬ AgentFieldsMissing agent)
    (hworkflows : optMember body "workflows" = .arr workflowItems)
    (hw : workflowItems[k]? = some w) (hsteps : member w "steps_json" = .ok .null) :
    (∀ m : FormIdMap, rewriteSteps m (optMember w "steps_json") =
      .error "Cannot read properties of null (reading 'form_id')") ∧
    (createFull rt db store body).response.status = 500 ∧
    (createFull rt db store body).store = store ∧
    (∀ (body2 : JsVal) (items : List JsVal) (j : Nat) (w2 : JsVal),
      optMember body2 "workflows" = .arr items → items[j]? = some w2 →
      (optMember w2 "steps_json" = .undefined ∨ ∃ s, optMember w2 "steps_json" = .str s) →
      (createFull rt db store body2).response.status = 200 →
      ∃ rows r, (createFull rt db store body2).store "agent_workflows" =
          store "agent_workflows" ++ rows ∧ rows[j]? = some r ∧
        r.col "steps_json" = rt.jsonStringify (optMember w2 "steps_json")) := by
  have hnull : optMember w "steps_json" = .null := (member_ok _ _ _ hsteps).symm
  refine ⟨fun m => by rw [hnull]; exact rewriteSteps_null m, ?_, ?_⟩
  · rcases createFull_cases rt db store body with
      ⟨h1, -⟩ | ⟨-, ⟨agent2, hm, hmiss⟩, -⟩ | ⟨-, a, ms, fs, ws, es, hc⟩
    · exact h1
    · rw [hagent] at hm
      simp only [Except.ok.injEq] at hm
      subst hm
      exact absurd hmiss hvalid
    · exfalso
      have hwl := hc.workflows_length
      have hws := hc.workflow_steps
      rw [hworkflows] at hwl hws
      simp only [providedItems] at hwl hws
      have hklt : k < ws.length := by
        rw [hwl]; exact (List.getElem?_eq_some.mp hw).1
      obtain ⟨stepsJson, hrew, -⟩ := hws k w ws[k] hw (List.getElem?_eq_getElem hklt)
      rw [hnull, rewriteSteps_null] at hrew
      exact absurd hrew (by simp)
  · refine ⟨?_, ?_⟩
    · rcases createFull_cases rt db store body with
        ⟨-, h2⟩ | ⟨-, -, h2⟩ | ⟨-, a, ms, fs, ws, es, hc⟩
      · exact h2
      · exact h2
      · exfalso
        have hwl := hc.workflows_length
        have hws := hc.workflow_steps
        rw [hworkflows] at hwl hws
        simp only [providedItems] at hwl hws
        have hklt : k < ws.length := by
          rw [hwl]; exact (List.getElem?_eq_some.mp hw).1
        obtain ⟨stepsJson, hrew, -⟩ := hws k w ws[k] hw (List.getElem?_eq_getElem hklt)
        rw [hnull, rewriteSteps_null] at hrew
        exact absurd hrew (by simp)
    · intro body2 items j w2 hitems hj hkind hok
      rcases createFull_cases rt db store body2 with
        ⟨h1, -⟩ | ⟨h1, -, -⟩ | ⟨-, a, ms, fs, ws, es, hc⟩
      · rw [h1] at hok; exact absurd hok (by decide)
      · rw [h1] at hok; exact absurd hok (by decide)
      · obtain ⟨-, -, -, t4, -, -⟩ := created_tables rt db body2 _ _ a ms fs ws es hc
        have hwl := hc.workflows_length
        have hws := hc.workflow_steps
        rw [hitems] at hwl hws
        simp only [providedItems] at hwl hws
        have hjlt : j < ws.length := by
          rw [hwl]; exact (List.getElem?_eq_some.mp hj).1
        obtain ⟨stepsJson, hrew, hcol⟩ :=
          hws j w2 ws[j] hj (List.getElem?_eq_getElem hjlt)
        rw [rewriteSteps_untouched _ _ hkind] at hrew
        simp only [Except.ok.injEq] at hrew
        exact ⟨ws, ws[j], t4, List.getElem?_eq_getElem hjlt, by rw [hcol, hrew]⟩

/-- Witness of C20: the second workflow of `nullStepsBody` has the steps `null`; the response
is 500 and the store is as before. -/
theorem createFull_null_steps_witness :
    (createFull demoRuntime demoDb demoStore nullStepsBody).response.status = 500 ∧
    (createFull demoRuntime demoDb demoStore nullStepsBody).store = demoStore :=
  ⟨(createFull_null_steps demoRuntime demoDb demoStore nullStepsBody
      (.obj [("agent_uuid", .str "a-2"), ("name", .str "Onboarding")])
      [.obj [("workflow_name", .str "Review")],
       .obj [("workflow_name", .str "Close"), ("steps_json", .null)]] 1
      (.obj [("workflow_name", .str "Close"), ("steps_json", .null)]) rfl
      (by simp [AgentFieldsMissing, truthy, optMember, lookupField]) rfl rfl rfl).2.1,
   (createFull_null_steps demoRuntime demoDb demoStore nullStepsBody
      (.obj [("agent_uuid", .str "a-2"), ("name", .str "Onboarding")])
      [.obj [("workflow_name", .str "Review")],
       .obj [("workflow_name", .str "Close"), ("steps_json", .null)]] 1
      (.obj [("workflow_name", .str "Close"), ("steps_json", .null)]) rfl
      (by simp [AgentFieldsMissing, truthy, optMember, lookupField]) rfl rfl rfl).2.2.1⟩
/-! ## Theorems: a string as the form id -/

theorem resolveFormId_skipped (rt : JsRuntime) (w : Workflow) (forms : Option (List Form))
    (v : JsVal) (h1 : truthy v = true) (h2 : leZero rt v = false) :
    resolveFormId rt w forms v = v := by
  simp [resolveFormId, h1, h2]

theorem resolveFormId_entered_match (rt : JsRuntime) (w : Workflow) (pre post : List Form)
    (f : Form) (v : JsVal) (hg : (!truthy v || leZero rt v) = true)
    (hpre : ∀ g ∈ pre, ¬ NamesMatch rt w.workflow_name g.form_name)
    (hf : NamesMatch rt w.workflow_name f.form_name) :
    resolveFormId rt w (some (pre ++ f :: post)) v = .num (f.id : ℕ) := by
  have hfind : (pre ++ f :: post).find? (nameMatches rt w) = some f :=
    find?_first_match _ pre f post
      (fun g hgm => (nameMatches_eq_false_iff rt w g).mpr (hpre g hgm))
      ((nameMatches_eq_true_iff rt w f).mpr hf)
  unfold resolveFormId
  rw [if_pos hg]
  simp [hfind]

theorem resolveFormId_entered_no_match (rt : JsRuntime) (w : Workflow) (first : Form)
    (rest : List Form) (v : JsVal) (hg : (!truthy v || leZero rt v) = true)
    (hno : ∀ g ∈ first :: rest, ¬ NamesMatch rt w.workflow_name g.form_name) :
    resolveFormId rt w (some (first :: rest)) v = .num (first.id : ℕ) := by
  have hfind : (first :: rest).find? (nameMatches rt w) = none :=
    find?_no_match _ _ (fun g hgm => (nameMatches_eq_false_iff rt w g).mpr (hno g hgm))
  unfold resolveFormId
  rw [if_pos hg]
  simp only [Option.getD_some, hfind]

theorem resolveFormId_no_forms (rt : JsRuntime) (w : Workflow) (forms : Option (List Form))
    (v : JsVal) (hforms : forms = none ∨ forms = some []) :
    resolveFormId rt w forms v = v := by
  unfold resolveFormId
  rcases hforms with h | h <;> rw [h] <;> split <;> simp

theorem truthy_str (s : String) (h : s ≠ "") : truthy (.str s) = true := by
  simp [truthy, h]

theorem leZero_of_nan (rt : JsRuntime) (v : JsVal) (h : toNumber rt v = .nan) :
    leZero rt v = false := by
  simp [leZero, h, JsNumber.leZero]

theorem leZero_of_gtZero (rt : JsRuntime) (v : JsVal) (h : gtZero rt v = true) :
    leZero rt v = false := by
  unfold gtZero at h
  unfold leZero
  cases hn : toNumber rt v with
  | nan => rfl
  | negInf => rw [hn] at h; simp [JsNumber.gtZero] at h
  | finite q =>
    rw [hn] at h
    simp only [JsNumber.gtZero, decide_eq_true_eq] at h
    simp [JsNumber.leZero, h]
  | posInf => rfl

/-- Every string is in exactly one of the three cases of the comparison: it converts to
`NaN`, to a number greater than 0, or to a number that is at most 0. -/
theorem conversion_cases (rt : JsRuntime) (v : JsVal) :
    (toNumber rt v = .nan ∧ gtZero rt v = false ∧ leZero rt v = false) ∨
    (toNumber rt v ≠ .nan ∧ gtZero rt v = true ∧ leZero rt v = false) ∨
    (toNumber rt v ≠ .nan ∧ gtZero rt v = false ∧ leZero rt v = true) := by
  unfold gtZero leZero
  cases hn : toNumber rt v with
  | nan => left; simp [JsNumber.gtZero, JsNumber.leZero]
  | negInf => right; right; simp [JsNumber.gtZero, JsNumber.leZero]
  | finite q =>
    rcases lt_or_le 0 q with h | h
    · right; left; simp [JsNumber.gtZero, JsNumber.leZero, h]
    · right; right; simp [JsNumber.gtZero, JsNumber.leZero, h, not_lt.mpr h]
  | posInf => right; left; simp [JsNumber.gtZero, JsNumber.leZero]

/-- C21. A workflow whose steps document has a string as its `form_id`. If the string is not
empty and converts to `NaN`, the comparison `form_id <= 0` is false, the resolver block is
skipped and the one request sent carries the string itself as the form id, for every forms
list; the same holds when the string is not empty and converts to a number greater than 0.
If the string converts to a number that is at most 0, the block is entered: the request
goes to the first form whose name matches the workflow name, and to the first form of the
list when no name matches. -/
theorem handleFormSubmit_string_form_id (rt : JsRuntime)
    (post : SubmitRequest → Except String JsVal) (props : StepProps) (formData : JsVal)
    (steps : JsVal) (s : String)
    (hparse : parseSteps rt props.workflow.steps_json = .ok steps)
    (hid : optMember steps "form_id" = .str s) :
    (s ≠ "" → toNumber rt (.str s) = .nan →
      leZero rt (.str s) = false ∧
      resolveFormId rt props.workflow props.forms (.str s) = .str s ∧
      (handleFormSubmit rt post props formData).sent =
        [{ agentUuid := props.agentUuid, formId := .str s, user_id := props.userId,
           firm_id := props.firmId, submission_data := formData }]) ∧
    (s ≠ "" → gtZero rt (.str s) = true →
      leZero rt (.str s) = false ∧
      resolveFormId rt props.workflow props.forms (.str s) = .str s ∧
      (handleFormSubmit rt post props formData).sent =
        [{ agentUuid := props.agentUuid, formId := .str s, user_id := props.userId,
           firm_id := props.firmId, submission_data := formData }]) ∧
    (leZero rt (.str s) = true →
      (∀ (pre rest : List Form) (f : Form), props.forms = some (pre ++ f :: rest) →
        (∀ g ∈ pre, ¬ NamesMatch rt props.workflow.workflow_name g.form_name) →
        NamesMatch rt props.workflow.workflow_name f.form_name →
        (handleFormSubmit rt post props formData).sent =
          [{ agentUuid := props.agentUuid, formId := .num (f.id : ℕ),
             user_id := props.userId, firm_id := props.firmId,
             submission_data := formData }]) ∧
      (∀ (first : Form) (rest : List Form), props.forms = some (first :: rest) →
        (∀ g ∈ first :: rest, ¬ NamesMatch rt props.workflow.workflow_name g.form_name) →
        (handleFormSubmit rt post props formData).sent =
          [{ agentUuid := props.agentUuid, formId := .num (first.id : ℕ),
             user_id := props.userId, firm_id := props.firmId,
             submission_data := formData }])) := by
  have skipped : s ≠ "" → leZero rt (.str s) = false →
      leZero rt (.str s) = false ∧
      resolveFormId rt props.workflow props.forms (.str s) = .str s ∧
      (handleFormSubmit rt post props formData).sent =
        [{ agentUuid := props.agentUuid, formId := .str s, user_id := props.userId,
           firm_id := props.firmId, submission_data := formData }] := by
    intro hs hle
    have hres := resolveFormId_skipped rt props.workflow props.forms (.str s)
      (truthy_str s hs) hle
    refine ⟨hle, hres, ?_⟩
    apply handleFormSubmit_of_resolved rt post props formData steps _ hparse _
      (truthy_str s hs)
    rw [hid]; exact hres
  refine ⟨fun hs hn => skipped hs (leZero_of_nan rt _ hn),
    fun hs hg => skipped hs (leZero_of_gtZero rt _ hg), fun hle => ⟨?_, ?_⟩⟩
  · intro pre rest f hforms hpre hf
    apply handleFormSubmit_of_resolved rt post props formData steps _ hparse _
      (truthy_num_nat f.id f.id.pos)
    rw [hforms, hid]
    exact resolveFormId_entered_match rt _ pre rest f _ (by simp [hle]) hpre hf
  · intro first rest hforms hnone
    apply handleFormSubmit_of_resolved rt post props formData steps _ hparse _
      (truthy_num_nat first.id first.id.pos)
    rw [hforms, hid]
    exact resolveFormId_entered_no_match rt _ first rest _ (by simp [hle]) hnone
/-- Witness of C21, with the forms "exit-form" (4) and "intake-form" (9) and the workflow
"Intake". The form id "intake-form", a name left unrewritten, converts to `NaN` and the
request carries that string, although a form of that name is listed; the form id "7" is
carried as the string "7"; the form id "0" is replaced by 9, the first form whose name
matches; and for the workflow "Review", which no form name matches, the form id "-3" is
replaced by 4, the first form of the list. For the workflow "ÉTUDE" and the forms "other"
(1) and "étude" (2) the form id "0" is replaced by 2: the lower-cased names match. -/
theorem handleFormSubmit_string_form_id_witness :
    (handleFormSubmit integerRuntime demoPost
      (stringFormIdProps "Intake" "intake-form" (some [⟨4, "exit-form"⟩, ⟨9, "intake-form"⟩]))
      (.obj [])).sent =
      [{ agentUuid := "a-1", formId := .str "intake-form", user_id := .num 1,
         firm_id := .num 5, submission_data := .obj [] }] ∧
    (handleFormSubmit integerRuntime demoPost
      (stringFormIdProps "Intake" "7" (some [⟨4, "exit-form"⟩, ⟨9, "intake-form"⟩]))
      (.obj [])).sent =
      [{ agentUuid := "a-1", formId := .str "7", user_id := .num 1,
         firm_id := .num 5, submission_data := .obj [] }] ∧
    (handleFormSubmit integerRuntime demoPost
      (stringFormIdProps "Intake" "0" (some [⟨4, "exit-form"⟩, ⟨9, "intake-form"⟩]))
      (.obj [])).sent =
      [{ agentUuid := "a-1", formId := .num (9 : Nat), user_id := .num 1,
         firm_id := .num 5, submission_data := .obj [] }] ∧
    (handleFormSubmit integerRuntime demoPost
      (stringFormIdProps "Review" "-3" (some [⟨4, "exit-form"⟩, ⟨9, "intake-form"⟩]))
      (.obj [])).sent =
      [{ agentUuid := "a-1", formId := .num (4 : Nat), user_id := .num 1,
         firm_id := .num 5, submission_data := .obj [] }] ∧
    (handleFormSubmit integerRuntime demoPost
      (stringFormIdProps "ÉTUDE" "0" (some [⟨1, "other"⟩, ⟨2, "étude"⟩]))
      (.obj [])).sent =
      [{ agentUuid := "a-1", formId := .num (2 : Nat), user_id := .num 1,
         firm_id := .num 5, submission_data := .obj [] }] :=
  ⟨((handleFormSubmit_string_form_id integerRuntime demoPost
      (stringFormIdProps "Intake" "intake-form" (some [⟨4, "exit-form"⟩, ⟨9, "intake-form"⟩]))
      (.obj []) (.obj [("form_id", .str "intake-form")]) "intake-form" rfl rfl).1
      (by decide) rfl).2.2,
   ((handleFormSubmit_string_form_id integerRuntime demoPost
      (stringFormIdProps "Intake" "7" (some [⟨4, "exit-form"⟩, ⟨9, "intake-form"⟩]))
      (.obj []) (.obj [("form_id", .str "7")]) "7" rfl rfl).2.1
      (by decide) (by decide)).2.2,
   ((handleFormSubmit_string_form_id integerRuntime demoPost
      (stringFormIdProps "Intake" "0" (some [⟨4, "exit-form"⟩, ⟨9, "intake-form"⟩]))
      (.obj []) (.obj [("form_id", .str "0")]) "0" rfl rfl).2.2
      (by decide)).1 [⟨4, "exit-form"⟩] [] ⟨9, "intake-form"⟩ rfl
      (by
        intro g hg
        simp only [List.mem_singleton] at hg
        subst hg
        exact not_namesMatch_of _ _ _ (by decide))
      (namesMatch_of _ _ _ (by decide)),
   ((handleFormSubmit_string_form_id integerRuntime demoPost
      (stringFormIdProps "Review" "-3" (some [⟨4, "exit-form"⟩, ⟨9, "intake-form"⟩]))
      (.obj []) (.obj [("form_id", .str "-3")]) "-3" rfl rfl).2.2
      (by decide)).2 ⟨4, "exit-form"⟩ [⟨9, "intake-form"⟩] rfl
      (by
        intro g hg
        simp only [List.mem_cons, List.mem_singleton, List.not_mem_nil, or_false] at hg
        rcases hg with rfl | rfl <;> exact not_namesMatch_of _ _ _ (by decide)),
   ((handleFormSubmit_string_form_id integerRuntime demoPost
      (stringFormIdProps "ÉTUDE" "0" (some [⟨1, "other"⟩, ⟨2, "étude"⟩]))
      (.obj []) (.obj [("form_id", .str "0")]) "0" rfl rfl).2.2
      (by decide)).1 [⟨1, "other"⟩] [] ⟨2, "étude"⟩ rfl
      (by
        intro g hg
        simp only [List.mem_singleton] at hg
        subst hg
        exact not_namesMatch_of _ _ _ (by decide))
      (namesMatch_of _ _ _ (by decide))⟩

/-- With no forms the block leaves the form id as it is: a string that is not empty and
converts to a number that is at most 0, such as "0", is then the form id of the request, and
no error message is set; the empty string gives the message and no request. -/
theorem stringFormId_without_forms (rt : JsRuntime)
    (post : SubmitRequest → Except String JsVal) (props : StepProps) (formData : JsVal)
    (steps : JsVal) (s : String)
    (hparse : parseSteps rt props.workflow.steps_json = .ok steps)
    (hid : optMember steps "form_id" = .str s)
    (hforms : props.forms = none ∨ props.forms = some []) :
    (s ≠ "" → (handleFormSubmit rt post props formData).sent =
        [{ agentUuid := props.agentUuid, formId := .str s, user_id := props.userId,
           firm_id := props.firmId, submission_data := formData }]) ∧
    (s = "" → (handleFormSubmit rt post props formData).message =
        "Error: No form available for this workflow" ∧
      (handleFormSubmit rt post props formData).sent = []) := by
  have hres := resolveFormId_no_forms rt props.workflow props.forms (.str s) hforms
  constructor
  · intro hs
    apply handleFormSubmit_of_resolved rt post props formData steps _ hparse _
      (truthy_str s hs)
    rw [hid]; exact hres
  · intro hs
    subst hs
    simp [handleFormSubmit, hparse, hid, hres, truthy]

/-- The form id "0" with no forms: the request is sent to the form id "0". -/
theorem zeroString_without_forms :
    (handleFormSubmit integerRuntime demoPost (stringFormIdProps "Intake" "0" (some []))
      (.obj [])).sent =
      [{ agentUuid := "a-1", formId := .str "0", user_id := .num 1, firm_id := .num 5,
         submission_data := .obj [] }] :=
  (stringFormId_without_forms integerRuntime demoPost
    (stringFormIdProps "Intake" "0" (some [])) (.obj []) (.obj [("form_id", .str "0")]) "0"
    rfl rfl (Or.inr rfl)).1 (by decide)


end AgentViewer
